import Mathlib

/-!
# Unbuffered TCP send (`net/tcp/tcp_send_unbuffered.c`)

A shallow embedding of the send control block `struct send_s`, of the
interrupt-level handler `tcpsend_interrupt` (with its helper `send_timeout`)
and of the blocking front end `psock_tcp_send`.

Machine integers are `Nat`/`Int` with explicit wrap-around.  The target is a
32-bit one: `size_t` and `uint32_t` are 32-bit unsigned, `ssize_t`, `int` and
`int32_t` are 32-bit two's complement.  Constants, macros and functions that the
file takes from headers outside the sources are parameters (`Ext`); the
conditional-compilation switches are the fields of `Config`.
-/

namespace TcpSendUnbuffered

/-! ## Machine arithmetic -/

/-- Conversion of an integer value to `uint32_t` (reduction modulo 2^32). -/
def u32 (i : Int) : Nat := (i % 4294967296).toNat

/-- Conversion of a 32-bit pattern to `int32_t` / `ssize_t` (two's complement). -/
def s32 (n : Nat) : Int :=
  if n % 4294967296 < 2147483648 then ((n % 4294967296 : Nat) : Int)
  else ((n % 4294967296 : Nat) : Int) - 4294967296

/-! ## Data model -/

/-- The fields of `struct socket` that the send path reads or writes. -/
structure socket where
  /-- Reference count; the socket is allocated when it is positive. -/
  s_crefs : Int
  /-- Protocol type (`SOCK_STREAM`, ...). -/
  s_type : Nat
  /-- The 8-bit socket flags: state field and connection bits. -/
  s_flags : Nat
  /-- Send timeout set by `SO_SNDTIMEO`; zero when unset. -/
  s_sndtimeo : Nat
deriving DecidableEq, Repr

/-- The fields of `struct tcp_conn_s` used by the send path. -/
structure tcp_conn_s where
  /-- Outgoing sequence cursor, as the 32-bit value `tcp_getsequence(conn->sndseq)`. -/
  sndseq : Nat
  /-- Count of outstanding, unacknowledged bytes. -/
  unacked : Nat
  /-- Current window size (`uint16_t`). -/
  winsize : Nat
  /-- Maximum segment size, what `tcp_mss(conn)` reads (`uint16_t`). -/
  mss : Nat
deriving DecidableEq, Repr

/-- A callback registration `struct devif_callback_s`. -/
structure devif_callback_s where
  /-- Event mask. -/
  flags : Nat
  /-- Whether the context pointer `priv` is non-NULL. -/
  priv : Bool
  /-- Whether the handler pointer `event` is non-NULL. -/
  event : Bool
deriving DecidableEq, Repr

/-- The send control block `struct send_s` (scalar fields; the socket, the
registration and the semaphore it points to live in `World`). -/
structure send_s where
  /-- Number of bytes in the buffer to send (`size_t`). -/
  snd_buflen : Nat
  /-- The number of bytes sent, or a negated errno (`ssize_t`). -/
  snd_sent : Int
  /-- Initial sequence number (`uint32_t`). -/
  snd_isn : Nat
  /-- The number of bytes acked (`uint32_t`). -/
  snd_acked : Nat
  /-- Last send time for determining timeout (`uint32_t`). -/
  snd_time : Nat
  /-- True: odd packet in pair transaction. -/
  snd_odd : Bool
deriving DecidableEq, Repr

/-- Record of the calls made to the collaborators of the send path. -/
structure Log where
  /-- Number of calls of `tcp_callback_alloc`. -/
  cb_allocs : Nat
  /-- Number of calls of `tcp_callback_free`. -/
  cb_frees : Nat
  /-- Number of calls of `netdev_txnotify`. -/
  txnotify : Nat
  /-- Number of calls of `sem_post` on `snd_sem`. -/
  sem_posts : Nat
  /-- Segments handed to `devif_send`, newest first: buffer offset and length. -/
  d_snd : List (Int × Nat)
  /-- Event flags of the calls of `net_lostconnection`, newest first. -/
  lost : List Nat
deriving DecidableEq, Repr

/-- Everything the send path can read or write. -/
structure World where
  /-- The socket `*psock`. -/
  sock : socket
  /-- The connection `*psock->s_conn`. -/
  conn : tcp_conn_s
  /-- The value last passed to `set_errno`. -/
  errno : Int
  /-- The control block `state` of the running send. -/
  state : send_s
  /-- The registration `*state.snd_cb`. -/
  cb : devif_callback_s
  /-- Count of the semaphore `state.snd_sem`. -/
  sem : Nat
  /-- Calls made so far. -/
  log : Log
deriving DecidableEq, Repr

/-- Conditional-compilation switches of the file. -/
structure Config where
  /-- `CONFIG_NET_SOCKOPTS`. -/
  NET_SOCKOPTS : Bool
  /-- `CONFIG_NET_TCP_SPLIT`. -/
  NET_TCP_SPLIT : Bool
  /-- `CONFIG_NET_TCP_SPLIT_SIZE` (40 unless configured). -/
  NET_TCP_SPLIT_SIZE : Nat
  /-- `CONFIG_NET_ETHERNET`. -/
  NET_ETHERNET : Bool
  /-- `CONFIG_NET_ARP_IPIN`. -/
  NET_ARP_IPIN : Bool
  /-- `CONFIG_NET_ARP_SEND`. -/
  NET_ARP_SEND : Bool
deriving DecidableEq, Repr

/-- Constants and functions that the file uses from headers and modules outside
the sources; every theorem holds for all their values unless it says otherwise. -/
structure Ext where
  /-- Event flag: the packet acknowledges data. -/
  TCP_ACKDATA : Nat
  /-- Event flag: the buffer holds unprocessed incoming data. -/
  TCP_NEWDATA : Nat
  /-- Event flag: retransmission requested. -/
  TCP_REXMIT : Nat
  /-- Event flag: poll. -/
  TCP_POLL : Nat
  /-- Event flag: the remote host closed the connection. -/
  TCP_CLOSE : Nat
  /-- Event flag: the remote host aborted the connection. -/
  TCP_ABORT : Nat
  /-- Event flag: too many retransmissions. -/
  TCP_TIMEDOUT : Nat
  /-- Errno value `EBADF`. -/
  EBADF : Int
  /-- Errno value `ENOTCONN`. -/
  ENOTCONN : Int
  /-- Errno value `ENETUNREACH`. -/
  ENETUNREACH : Int
  /-- Errno value `ETIMEDOUT`. -/
  ETIMEDOUT : Int
  /-- Socket type `SOCK_STREAM`. -/
  SOCK_STREAM : Nat
  /-- Mask `_SF_MASK` of the state field of the socket flags. -/
  SF_MASK : Nat
  /-- State `_SF_IDLE`. -/
  SF_IDLE : Nat
  /-- State `_SF_SEND`. -/
  SF_SEND : Nat
  /-- Flag `_SF_CONNECTED`. -/
  SF_CONNECTED : Nat
  /-- The test `net_timeo(start, timeo)`, given the tick count it reads. -/
  net_timeo : (now start timeo : Nat) → Bool
  /-- What `net_lostconnection(psock, flags)` does to the socket. -/
  net_lostconnection : socket → Nat → socket

/-- What one invocation of the handler reads from its surroundings. -/
structure Poll where
  /-- The event flags passed by the driver (`uint16_t`). -/
  flags : Nat
  /-- The acknowledgment number of the packet, `tcp_getsequence(TCPBUF->ackno)`. -/
  ackno : Nat
  /-- The tick count `clock_systimer()`. -/
  now : Nat
  /-- Whether `arp_find(conn->ripaddr)` finds a mapping. -/
  arp : Bool
deriving DecidableEq, Repr

/-! ## Socket-state macros -/

/-- Modelled from the spec: the macro `_SS_SETSTATE(s,f)` of `socket/socket.h`,
a header that is not among the sources.  It marks the socket busy-sending or
idle: the state field (the bits under `_SF_MASK`) of the 8-bit flags is
replaced by `f`, the other bits are kept. -/
def _SS_SETSTATE (E : Ext) (s f : Nat) : Nat :=
  ((s ^^^ (s &&& E.SF_MASK)) ||| f) % 256

/-- Modelled from the spec: the macro `_SS_GETSTATE(s)` of `socket/socket.h`,
the state field of the socket flags. -/
def _SS_GETSTATE (E : Ext) (s : Nat) : Nat := s &&& E.SF_MASK

/-- Modelled from the spec: the macro `_SS_ISCONNECTED(s)` of `socket/socket.h`,
whether the socket is in the connected state. -/
def _SS_ISCONNECTED (E : Ext) (s : Nat) : Bool := s &&& E.SF_CONNECTED != 0

/-- Modelled from the spec: `net_lostconnection(psock, flags)`, a function of
the socket layer that is not among the sources.  It "informs the socket layer
of loss": the socket leaves the connected state, that is its connected flag
(mask `connected`) is cleared; the event flags do not matter for that. -/
def net_lostconnection (connected : Nat) (s : socket) (_flags : Nat) : socket :=
  { s with s_flags := s.s_flags ^^^ (s.s_flags &&& connected) }

/-! ## The handler -/

/-- `send_timeout`: check for a send timeout configured via `SO_SNDTIMEO`. -/
def send_timeout (E : Ext) (now : Nat) (w : World) : Bool :=
  if w.sock.s_sndtimeo ≠ 0 then
    E.net_timeo now w.state.snd_time w.sock.s_sndtimeo
  else
    false

/-- The label `end_wait` of `tcpsend_interrupt`: strip the registration, zero
the unacknowledged count and post the semaphore. -/
def end_wait (w : World) : World :=
  { w with
    cb := { flags := 0, priv := false, event := false }
    conn := { w.conn with unacked := 0 }
    sem := w.sem + 1
    log := { w.log with sem_posts := w.log.sem_posts + 1 } }

/-- The `CONFIG_NET_TCP_SPLIT` block of `tcpsend_interrupt` (lines 298-348):
the length of the next segment given the bytes remaining. -/
def tcpsend_interrupt_split (cfg : Config) (mss : Nat) (odd : Bool) (sndlen : Nat) : Nat :=
  if sndlen ≥ cfg.NET_TCP_SPLIT_SIZE then
    let next_sndlen : Int := s32 (u32 ((sndlen : Int) - (mss : Int)))
    if !odd then
      if next_sndlen ≤ 0 then sndlen / 2 + 1 else sndlen
    else
      if next_sndlen > 0 ∧ next_sndlen - (mss : Int) < 0 then sndlen / 2 else sndlen
  else
    sndlen

/-- The length `sndlen` that `tcpsend_interrupt` computes for the next segment
(lines 273-359). -/
def tcpsend_interrupt_sndlen (cfg : Config) (w : World) : Nat :=
  let sndlen := u32 ((w.state.snd_buflen : Int) - w.state.snd_sent)
  let sndlen := if cfg.NET_TCP_SPLIT then
      tcpsend_interrupt_split cfg w.conn.mss w.state.snd_odd sndlen
    else sndlen
  if sndlen > w.conn.mss then w.conn.mss else sndlen

/-- The window test of `tcpsend_interrupt` (line 363) for a segment of length
`sndlen`, in unsigned 32-bit arithmetic. -/
def tcpsend_interrupt_window (w : World) (sndlen : Nat) : Nat :=
  u32 (w.state.snd_sent - (w.state.snd_acked : Int) + (sndlen : Int))

/-- The emission step of `tcpsend_interrupt` (lines 267-411). -/
def tcpsend_interrupt_emit (E : Ext) (cfg : Config) (p : Poll) (w : World) : World :=
  if p.flags &&& E.TCP_NEWDATA = 0 ∧ u32 w.state.snd_sent < w.state.snd_buflen then
    let sndlen := tcpsend_interrupt_sndlen cfg w
    let w1 : World := if cfg.NET_TCP_SPLIT then
        { w with state := { w.state with snd_odd := !w.state.snd_odd } }
      else w
    if tcpsend_interrupt_window w sndlen < w.conn.winsize then
      let seqno := u32 (w.state.snd_sent + (w.state.snd_isn : Int))
      let w2 : World := { w1 with
        conn := { w1.conn with sndseq := seqno }
        log := { w1.log with d_snd := (w.state.snd_sent, sndlen) :: w1.log.d_snd } }
      if (cfg.NET_ETHERNET ∧ ¬ cfg.NET_ARP_IPIN ∧ ¬ cfg.NET_ARP_SEND) →
          (w.state.snd_sent ≠ 0 ∨ p.arp) then
        { w2 with state := { w2.state with
            snd_sent := s32 (u32 (w.state.snd_sent + (sndlen : Int))) } }
      else w2
    else w1
  else w

/-- The part of `tcpsend_interrupt` after the event checks (lines 259-447):
emission, then the timeout check, then either `end_wait` or `return flags`. -/
def tcpsend_interrupt_tail (E : Ext) (cfg : Config) (p : Poll) (w : World) : World × Nat :=
  let w1 := tcpsend_interrupt_emit E cfg p w
  if cfg.NET_SOCKOPTS ∧ send_timeout E p.now w1 then
    (end_wait { w1 with state := { w1.state with snd_sent := -E.ETIMEDOUT } }, p.flags)
  else
    (w1, p.flags)

/-- The acknowledgment step of `tcpsend_interrupt` (lines 182-196): refresh the
timestamp and recompute the count of acknowledged bytes. -/
def tcpsend_interrupt_ack (cfg : Config) (p : Poll) (w : World) : World :=
  { w with state := { w.state with
      snd_time := if cfg.NET_SOCKOPTS then p.now else w.state.snd_time
      snd_acked := u32 ((p.ackno : Int) - (w.state.snd_isn : Int)) } }

/-- The retransmission step of `tcpsend_interrupt` (lines 216-228): reset the
bytes sent to the bytes acknowledged and the even/odd indicator to even. -/
def tcpsend_interrupt_rexmit (cfg : Config) (w : World) : World :=
  { w with state := { w.state with
      snd_sent := s32 w.state.snd_acked
      snd_odd := if cfg.NET_TCP_SPLIT then false else w.state.snd_odd } }

/-- `tcpsend_interrupt`: the handler called at the interrupt level when the
device layer polls the connection.  Returns the new world and the flags. -/
def tcpsend_interrupt (E : Ext) (cfg : Config) (p : Poll) (w : World) : World × Nat :=
  if p.flags &&& E.TCP_ACKDATA ≠ 0 then
    let w1 := tcpsend_interrupt_ack cfg p w
    if w1.state.snd_acked ≥ w1.state.snd_buflen then
      (end_wait w1, p.flags)
    else
      tcpsend_interrupt_tail E cfg p w1
  else if p.flags &&& E.TCP_REXMIT ≠ 0 then
    tcpsend_interrupt_tail E cfg p (tcpsend_interrupt_rexmit cfg w)
  else if p.flags &&& (E.TCP_CLOSE ||| E.TCP_ABORT ||| E.TCP_TIMEDOUT) ≠ 0 then
    (end_wait { w with
      sock := E.net_lostconnection w.sock p.flags
      log := { w.log with lost := p.flags :: w.log.lost }
      state := { w.state with snd_sent := -E.ENOTCONN } }, p.flags)
  else
    tcpsend_interrupt_tail E cfg p w

/-- The world as the emission step of an invocation finds it: after the
acknowledgment step or the retransmission step, whichever the flags select. -/
def emit_entry (E : Ext) (cfg : Config) (p : Poll) (w : World) : World :=
  if p.flags &&& E.TCP_ACKDATA ≠ 0 then tcpsend_interrupt_ack cfg p w
  else if p.flags &&& E.TCP_REXMIT ≠ 0 then tcpsend_interrupt_rexmit cfg w
  else w

/-! ## The driver and the wait -/

/-- What can happen while the sending thread sleeps in `net_lockedwait`. -/
inductive DriverEvent where
  /-- The device layer polls the connection with these inputs. -/
  | poll (p : Poll)
  /-- TCP input processing rewrites the connection (window, sequence cursor,
  unacknowledged count) before a later poll. -/
  | input (c : tcp_conn_s)
  /-- A signal wakes the thread: `net_lockedwait` returns `ret`, a negative value. -/
  | signal (ret : Int)
deriving DecidableEq, Repr

/-- Modelled from the spec: the dispatch of the device layer (`devif_conn_event`,
not among the sources).  The driver invokes the handler only while the
registration is armed: its handler pointer is set and its event mask meets
the flags of the poll. -/
def devif_conn_event (E : Ext) (cfg : Config) (p : Poll) (w : World) : World :=
  if w.cb.event = true ∧ p.flags &&& w.cb.flags ≠ 0 then
    (tcpsend_interrupt E cfg p w).1
  else
    w

/-- Modelled from the spec: `net_lockedwait(&state.snd_sem)`, not among the
sources.  The thread blocks on the wake primitive while the driver runs; it
resumes with `OK` once the semaphore has been posted, or with the value a
signal gives.  `none`: the events end and the thread is still blocked. -/
def net_lockedwait (E : Ext) (cfg : Config) : World → List DriverEvent → Option (Int × World)
  | _, [] => none
  | w, DriverEvent.signal ret :: _ => some (ret, w)
  | w, DriverEvent.input c :: es => net_lockedwait E cfg { w with conn := c } es
  | w, DriverEvent.poll p :: es =>
    let w1 := devif_conn_event E cfg p w
    if 0 < w1.sem then some (0, { w1 with sem := w1.sem - 1 })
    else net_lockedwait E cfg w1 es

/-! ## The entry point -/

/-- What one call of `psock_tcp_send` gets from its collaborators. -/
structure Run where
  /-- The value `arp_send(conn->ripaddr)` returns (`CONFIG_NET_ARP_SEND`). -/
  arp_send : Int
  /-- Whether `tcp_callback_alloc(conn)` returns a registration. -/
  cb_alloc : Bool
  /-- The tick count `clock_systimer()` when the send is set up. -/
  now : Nat
  /-- What happens while the thread waits. -/
  events : List DriverEvent
deriving DecidableEq, Repr

/-- The label `errout` of `psock_tcp_send`: `set_errno(err); return ERROR`. -/
def errout (err : Int) (w : World) : Option (Int × World) :=
  some (-1, { w with errno := err })

/-- The event mask with which `psock_tcp_send` arms its registration. -/
def send_events (E : Ext) : Nat :=
  E.TCP_ACKDATA ||| E.TCP_REXMIT ||| E.TCP_POLL ||| E.TCP_CLOSE ||| E.TCP_ABORT |||
    E.TCP_TIMEDOUT

/-- Lines 561-616 of `psock_tcp_send`: set the control block up and, for a
non-empty buffer, register the handler, notify the driver, wait and release
the registration.  Returns the value of `ret` and the world. -/
def psock_tcp_send_perform (E : Ext) (cfg : Config) (w : World) (len : Nat) (r : Run)
    (ret : Int) : Option (Int × World) :=
  let w1 : World := { w with
    state := { snd_buflen := len, snd_sent := 0, snd_isn := 0, snd_acked := 0,
               snd_time := 0, snd_odd := false }
    sem := 0 }
  if 0 < len then
    let w2 : World := { w1 with log := { w1.log with cb_allocs := w1.log.cb_allocs + 1 } }
    if r.cb_alloc then
      let w3 : World := { w2 with
        state := { w2.state with
          snd_isn := w2.conn.sndseq
          snd_time := if cfg.NET_SOCKOPTS then r.now else w2.state.snd_time }
        conn := { w2.conn with unacked := 0 }
        cb := { flags := send_events E, priv := true, event := true }
        log := { w2.log with txnotify := w2.log.txnotify + 1 } }
      match net_lockedwait E cfg w3 r.events with
      | none => none
      | some (ret1, w4) =>
        some (ret1, { w4 with log := { w4.log with cb_frees := w4.log.cb_frees + 1 } })
    else
      some (ret, w2)
  else
    some (ret, w1)

/-- `psock_tcp_send(psock, buf, len)`: the returned value and the world after
the call; `none` when the call never returns.  The socket and its connection
are those of the world (`psock` is not NULL: line 513 dereferences it before
the check of line 521), `len` is a `size_t`, and the bytes of `buf` do not
matter, only the offsets handed to `devif_send`. -/
def psock_tcp_send (E : Ext) (cfg : Config) (w : World) (len : Nat) (r : Run) :
    Option (Int × World) :=
  if w.sock.s_crefs ≤ 0 then
    errout E.EBADF w
  else if w.sock.s_type ≠ E.SOCK_STREAM ∨ _SS_ISCONNECTED E w.sock.s_flags = false then
    errout E.ENOTCONN w
  else if cfg.NET_ARP_SEND = true ∧ r.arp_send < 0 then
    errout E.ENETUNREACH w
  else
    let ret : Int := if cfg.NET_ARP_SEND then r.arp_send else 0
    let w1 : World := { w with
      sock := { w.sock with s_flags := _SS_SETSTATE E w.sock.s_flags E.SF_SEND } }
    match psock_tcp_send_perform E cfg w1 len r ret with
    | none => none
    | some (ret1, w2) =>
      let w3 : World := { w2 with
        sock := { w2.sock with s_flags := _SS_SETSTATE E w2.sock.s_flags E.SF_IDLE } }
      if w3.state.snd_sent < 0 then
        errout w3.state.snd_sent w3
      else if ret1 < 0 then
        errout (-ret1) w3
      else
        some (w3.state.snd_sent, w3)

/-! ## A concrete platform and sample inputs -/

/-- The values NuttX gives the constants of `Ext`, with `net_timeo` comparing
the elapsed ticks with the timeout and `net_lostconnection` clearing the
connected flag of the socket, as modelled above. -/
def nuttx : Ext where
  TCP_ACKDATA := 1
  TCP_NEWDATA := 2
  TCP_REXMIT := 8
  TCP_POLL := 16
  TCP_CLOSE := 64
  TCP_ABORT := 128
  TCP_TIMEDOUT := 512
  EBADF := 9
  ENOTCONN := 107
  ENETUNREACH := 101
  ETIMEDOUT := 110
  SOCK_STREAM := 1
  SF_MASK := 3
  SF_IDLE := 0
  SF_SEND := 3
  SF_CONNECTED := 64
  net_timeo := fun now start timeo => decide (timeo ≤ u32 ((now : Int) - (start : Int)))
  net_lostconnection := net_lostconnection 64

/-- A configuration with socket options, without splitting and without the
address-resolution code. -/
def cfgPlain : Config where
  NET_SOCKOPTS := true
  NET_TCP_SPLIT := false
  NET_TCP_SPLIT_SIZE := 40
  NET_ETHERNET := false
  NET_ARP_IPIN := false
  NET_ARP_SEND := false

/-- A configuration with splitting at 40 bytes, the address-resolution gate in
the handler and socket options. -/
def cfgSplit : Config where
  NET_SOCKOPTS := true
  NET_TCP_SPLIT := true
  NET_TCP_SPLIT_SIZE := 40
  NET_ETHERNET := true
  NET_ARP_IPIN := false
  NET_ARP_SEND := false

/-- A configuration that resolves the peer address up front. -/
def cfgArpSend : Config where
  NET_SOCKOPTS := true
  NET_TCP_SPLIT := false
  NET_TCP_SPLIT_SIZE := 40
  NET_ETHERNET := true
  NET_ARP_IPIN := false
  NET_ARP_SEND := true

/-- An empty call record. -/
def log0 : Log where
  cb_allocs := 0
  cb_frees := 0
  txnotify := 0
  sem_posts := 0
  d_snd := []
  lost := []

/-- A connected stream socket (flags: connected and bound) on a connection with
sequence cursor 5000, the given segment size and window, no send in progress. -/
def world0 (mss winsize : Nat) : World where
  sock := { s_crefs := 1, s_type := 1, s_flags := 96, s_sndtimeo := 0 }
  conn := { sndseq := 5000, unacked := 7, winsize := winsize, mss := mss }
  errno := 0
  state := { snd_buflen := 0, snd_sent := 0, snd_isn := 0, snd_acked := 0,
             snd_time := 0, snd_odd := false }
  cb := { flags := 0, priv := false, event := false }
  sem := 0
  log := log0

/-- A poll event without acknowledgment. -/
def pollEv (now : Nat) : DriverEvent :=
  DriverEvent.poll { flags := 16, ackno := 0, now := now, arp := true }

/-- An acknowledgment of everything up to sequence number `ackno`. -/
def ackEv (ackno now : Nat) : DriverEvent :=
  DriverEvent.poll { flags := 1, ackno := ackno, now := now, arp := true }

/-- A retransmission request. -/
def rexmitEv (now : Nat) : DriverEvent :=
  DriverEvent.poll { flags := 8, ackno := 0, now := now, arp := true }

/-- The remote host aborts the connection. -/
def abortEv (now : Nat) : DriverEvent :=
  DriverEvent.poll { flags := 128, ackno := 0, now := now, arp := true }

/-- The precondition checks of `psock_tcp_send` (lines 519-548) pass: the socket
is allocated, of stream type and connected, and the peer address resolves
when `CONFIG_NET_ARP_SEND` asks for it. -/
def passes_checks (E : Ext) (cfg : Config) (w : World) (r : Run) : Prop :=
  0 < w.sock.s_crefs ∧ w.sock.s_type = E.SOCK_STREAM ∧
    _SS_ISCONNECTED E w.sock.s_flags = true ∧ (cfg.NET_ARP_SEND = true → 0 ≤ r.arp_send)

/-- What the collaborators answer in the sample runs: the address resolves, a
registration is available, the clock reads 0, and the given events follow. -/
def run0 (events : List DriverEvent) : Run where
  arp_send := 0
  cb_alloc := true
  now := 0
  events := events

/-- The run in which the registration table is exhausted. -/
def runNoCb : Run where
  arp_send := 0
  cb_alloc := false
  now := 0
  events := []

/-- The world `world0` with a send timeout of ten ticks on the socket. -/
def worldTimeo (mss winsize : Nat) : World :=
  { world0 mss winsize with
    sock := { s_crefs := 1, s_type := 1, s_flags := 96, s_sndtimeo := 10 } }

/-- The world `world0` with a socket that is not allocated (`s_crefs = 0`). -/
def worldFree : World :=
  { world0 500 3000 with
    sock := { s_crefs := 0, s_type := 1, s_flags := 96, s_sndtimeo := 0 } }

/-- The world `world0` with a bound stream socket that is not connected. -/
def worldUnconnected : World :=
  { world0 500 3000 with
    sock := { s_crefs := 1, s_type := 1, s_flags := 32, s_sndtimeo := 0 } }

/-- The run in which `arp_send` cannot resolve the peer (it returns -1). -/
def runUnreachable : Run where
  arp_send := -1
  cb_alloc := true
  now := 0
  events := []

/-- A send of 1000 bytes in progress, armed, with initial sequence number 5000:
`sent` bytes handed to the device and `acked` bytes acknowledged so far. -/
def worldMid (mss winsize : Nat) (sent : Int) (acked : Nat) : World :=
  { world0 mss winsize with
    state := { snd_buflen := 1000, snd_sent := sent, snd_isn := 5000, snd_acked := acked,
               snd_time := 0, snd_odd := false }
    cb := { flags := 729, priv := true, event := true } }

/-- The inputs of a retransmission request at tick `now`. -/
def rexmitPoll (now : Nat) : Poll where
  flags := 8
  ackno := 0
  now := now
  arp := true

/-- The inputs of an acknowledgment up to sequence number `ackno` at tick `now`. -/
def ackPoll (ackno now : Nat) : Poll where
  flags := 1
  ackno := ackno
  now := now
  arp := true

/-! ## Sequences of handler invocations -/

/-- The handler invoked once for each element of a list of polls, in order. -/
def handler_run (E : Ext) (cfg : Config) : World → List Poll → World
  | w, [] => w
  | w, p :: ps => handler_run E cfg (tcpsend_interrupt E cfg p w).1 ps

/-- The acknowledgment number of a poll with the ACK flag does not run ahead
of the bytes the control block counts as sent: `(ackno - snd_isn) mod 2^32`
is at most `snd_sent`. -/
def ack_within_sent (E : Ext) (w : World) (p : Poll) : Prop :=
  p.flags &&& E.TCP_ACKDATA ≠ 0 →
    ((u32 ((p.ackno : Int) - (w.state.snd_isn : Int)) : Nat) : Int) ≤ w.state.snd_sent

/-- A sequence of invocations in which every acknowledgment stays within the
bytes counted as sent at that moment and no invocation finishes with an error
(the result stays non-negative). -/
def acks_within_sent (E : Ext) (cfg : Config) : World → List Poll → Prop
  | _, [] => True
  | w, p :: ps =>
    ack_within_sent E w p ∧ 0 ≤ (tcpsend_interrupt E cfg p w).1.state.snd_sent ∧
      acks_within_sent E cfg (tcpsend_interrupt E cfg p w).1 ps

/-- The control block of a send of `len` bytes as `psock_tcp_send` arms it, on
the connection of `world0` (initial sequence number 5000). -/
def worldArmed (len mss winsize : Nat) : World :=
  { world0 mss winsize with
    state := { snd_buflen := len, snd_sent := 0, snd_isn := 5000, snd_acked := 0,
               snd_time := 0, snd_odd := false }
    cb := { flags := 729, priv := true, event := true } }

/-- The inputs of a plain poll at tick `now`. -/
def plainPoll (now : Nat) : Poll where
  flags := 16
  ackno := 0
  now := now
  arp := true

/-- The armed control block `worldArmed` on a socket with a send timeout of ten
ticks. -/
def worldArmedTimeo (len mss winsize : Nat) : World :=
  { worldArmed len mss winsize with
    sock := { s_crefs := 1, s_type := 1, s_flags := 96, s_sndtimeo := 10 } }

/-- An acknowledgment that arrives together with an abort of the connection. -/
def ackAbortPoll (ackno now : Nat) : Poll where
  flags := 129
  ackno := ackno
  now := now
  arp := true

/-- An abort of the connection, reported during a poll. -/
def abortPoll (now : Nat) : Poll where
  flags := 144
  ackno := 0
  now := now
  arp := true

/-- The goto conditions of `tcpsend_interrupt`: the invocation reaches the
label `end_wait` through completion by acknowledgment (line 206), through a
lost connection (line 243) or through the timeout check (line 424). -/
def takes_end_wait (E : Ext) (cfg : Config) (p : Poll) (w : World) : Prop :=
  (p.flags &&& E.TCP_ACKDATA ≠ 0 ∧
    w.state.snd_buflen ≤ u32 ((p.ackno : Int) - (w.state.snd_isn : Int))) ∨
  (p.flags &&& E.TCP_ACKDATA = 0 ∧ p.flags &&& E.TCP_REXMIT = 0 ∧
    p.flags &&& (E.TCP_CLOSE ||| E.TCP_ABORT ||| E.TCP_TIMEDOUT) ≠ 0) ∨
  (cfg.NET_SOCKOPTS = true ∧ send_timeout E p.now (emit_entry E cfg p w) = true)

/-- A poll that carries no acknowledgment, no retransmission request, no loss
of connection and no incoming data. -/
def plain_poll (E : Ext) (p : Poll) : Prop :=
  p.flags &&& E.TCP_ACKDATA = 0 ∧ p.flags &&& E.TCP_REXMIT = 0 ∧
    p.flags &&& (E.TCP_CLOSE ||| E.TCP_ABORT ||| E.TCP_TIMEDOUT) = 0 ∧
    p.flags &&& E.TCP_NEWDATA = 0

/-- Splitting configured with a threshold of two bytes, no address-resolution
gate. -/
def cfgSplit2 : Config where
  NET_SOCKOPTS := true
  NET_TCP_SPLIT := true
  NET_TCP_SPLIT_SIZE := 2
  NET_ETHERNET := false
  NET_ARP_IPIN := false
  NET_ARP_SEND := false

/-- The world in which `psock_tcp_send` starts to wait (lines 561-599, for
`len > 0` and a successful allocation): control block zeroed and filled in,
initial sequence number taken from the connection, registration armed, driver
notified. -/
def send_armed (E : Ext) (cfg : Config) (w : World) (len now : Nat) : World :=
  { w with
    state := { snd_buflen := len, snd_sent := 0, snd_isn := w.conn.sndseq, snd_acked := 0,
               snd_time := if cfg.NET_SOCKOPTS then now else 0, snd_odd := false }
    sem := 0
    conn := { w.conn with unacked := 0 }
    cb := { flags := send_events E, priv := true, event := true }
    log := { w.log with cb_allocs := w.log.cb_allocs + 1, txnotify := w.log.txnotify + 1 } }

/-- The inputs of a retransmission request that arrives with incoming data. -/
def rexmitNewdataPoll (now : Nat) : Poll where
  flags := 10
  ackno := 0
  now := now
  arp := true

/-- The inputs of a plain poll at tick `now` while the resolution cache has no
mapping for the peer. -/
def noArpPoll (now : Nat) : Poll where
  flags := 16
  ackno := 0
  now := now
  arp := false

/-! ## Helper lemmas -/

theorem getstate_setstate (E : Ext) (s f : Nat) (hf : f &&& E.SF_MASK = f) (h8 : f < 256) :
    _SS_GETSTATE E (_SS_SETSTATE E s f) = f := by
  unfold _SS_GETSTATE _SS_SETSTATE
  apply Nat.eq_of_testBit_eq
  intro i
  have hfi := congrArg (fun x => x.testBit i) hf
  simp only [Nat.testBit_and] at hfi
  have h256 : (256 : Nat) = 2 ^ 8 := by norm_num
  rw [h256, Nat.testBit_and, Nat.testBit_mod_two_pow, Nat.testBit_or, Nat.testBit_xor,
    Nat.testBit_and]
  by_cases hi : i < 8
  · simp only [hi, decide_True, Bool.true_and]
    cases h1 : s.testBit i <;> cases h2 : E.SF_MASK.testBit i <;>
      cases h3 : f.testBit i <;> simp_all
  · have hfalse : f.testBit i = false := by
      apply Nat.testBit_eq_false_of_lt
      calc f < 2 ^ 8 := by omega
        _ ≤ 2 ^ i := Nat.pow_le_pow_right (by norm_num) (by omega)
    simp [hi, hfalse]

theorem setstate_testBit (E : Ext) (s f : Nat) (hf : f &&& E.SF_MASK = f) (hs : s < 256)
    (i : Nat) (hi : E.SF_MASK.testBit i = false) :
    (_SS_SETSTATE E s f).testBit i = s.testBit i := by
  unfold _SS_SETSTATE
  have hfi := congrArg (fun x => x.testBit i) hf
  simp only [Nat.testBit_and] at hfi
  have h256 : (256 : Nat) = 2 ^ 8 := by norm_num
  rw [h256, Nat.testBit_mod_two_pow, Nat.testBit_or, Nat.testBit_xor, Nat.testBit_and]
  by_cases h8 : i < 8
  · simp only [h8, decide_True, Bool.true_and]
    cases h1 : s.testBit i <;> cases h3 : f.testBit i <;> simp_all
  · have hfalse : s.testBit i = false := by
      apply Nat.testBit_eq_false_of_lt
      calc s < 2 ^ 8 := by omega
        _ ≤ 2 ^ i := Nat.pow_le_pow_right (by norm_num) (by omega)
    simp [h8, hfalse]

theorem setstate_lt (E : Ext) (s f : Nat) : _SS_SETSTATE E s f < 256 := by
  unfold _SS_SETSTATE
  exact Nat.mod_lt _ (by norm_num)

/-! ## Arithmetic of the segment length -/

theorem u32_of_range (i : Int) (h0 : 0 ≤ i) (h1 : i < 4294967296) : ((u32 i : Nat) : Int) = i := by
  simp only [u32]
  omega

theorem s32_of_range (n : Nat) (h : n < 2147483648) : s32 n = (n : Int) := by
  simp only [s32]
  split_ifs <;> omega

theorem u32_cast (i : Int) : ((u32 i : Nat) : Int) = i % 4294967296 := by
  simp only [u32]
  omega

/-- The split block never lengthens the segment: the result is at most the
bytes remaining, whatever the segment size and the parity. -/
theorem split_le (cfg : Config) (mss : Nat) (odd : Bool) (r : Nat) (hr : 1 ≤ r) :
    tcpsend_interrupt_split cfg mss odd r ≤ r := by
  simp only [tcpsend_interrupt_split]
  split_ifs <;> omega

/-- With a segment size of 16 bits and fewer than 2^31 bytes remaining the
difference `next_sndlen` is computed without wrap-around. -/
theorem next_sndlen_eq (mss r : Nat) (hr : r < 2147483648) (hm : mss < 65536) :
    s32 (u32 ((r : Int) - (mss : Int))) = (r : Int) - (mss : Int) := by
  simp only [s32, u32]
  split_ifs <;> omega

/-- The split block leaves at least one byte, and at most `mss` bytes when the
remaining bytes fit in one segment. -/
theorem split_pos (cfg : Config) (mss : Nat) (odd : Bool) (r : Nat) (hr : 1 ≤ r)
    (hr2 : r < 2147483648) (hm1 : 1 ≤ mss) (hm : mss < 65536) :
    1 ≤ tcpsend_interrupt_split cfg mss odd r := by
  simp only [tcpsend_interrupt_split, next_sndlen_eq mss r hr2 hm]
  split_ifs <;> omega

/-- The bytes remaining, as the handler computes them, when the bytes sent lie
inside the buffer. -/
theorem remaining_eq (w : World) (h0 : 0 ≤ w.state.snd_sent)
    (h1 : w.state.snd_sent ≤ w.state.snd_buflen) (hb : w.state.snd_buflen < 4294967296) :
    ((u32 ((w.state.snd_buflen : Int) - w.state.snd_sent) : Nat) : Int) =
      (w.state.snd_buflen : Int) - w.state.snd_sent := by
  apply u32_of_range <;> omega

/-- The segment length is at most the bytes remaining. -/
theorem sndlen_le_remaining (cfg : Config) (w : World) (h0 : 0 ≤ w.state.snd_sent)
    (h1 : w.state.snd_sent < w.state.snd_buflen) (hb : w.state.snd_buflen < 4294967296) :
    (tcpsend_interrupt_sndlen cfg w : Int) ≤ (w.state.snd_buflen : Int) - w.state.snd_sent := by
  have hr := remaining_eq w h0 (le_of_lt h1) hb
  have hr1 : 1 ≤ u32 ((w.state.snd_buflen : Int) - w.state.snd_sent) := by omega
  have hs := split_le cfg w.conn.mss w.state.snd_odd _ hr1
  simp only [tcpsend_interrupt_sndlen]
  split_ifs <;> omega

/-- The segment length is at most the segment size. -/
theorem sndlen_le_mss (cfg : Config) (w : World) :
    tcpsend_interrupt_sndlen cfg w ≤ w.conn.mss := by
  simp only [tcpsend_interrupt_sndlen]
  split_ifs <;> omega

/-- The segment length is at least one byte when bytes remain and the
segment size is a positive 16-bit number. -/
theorem sndlen_pos (cfg : Config) (w : World) (h0 : 0 ≤ w.state.snd_sent)
    (h1 : w.state.snd_sent < w.state.snd_buflen) (hb : w.state.snd_buflen < 2147483648)
    (hm1 : 1 ≤ w.conn.mss) (hm : w.conn.mss < 65536) :
    1 ≤ tcpsend_interrupt_sndlen cfg w := by
  have hr := remaining_eq w h0 (le_of_lt h1) (by omega)
  have hr1 : 1 ≤ u32 ((w.state.snd_buflen : Int) - w.state.snd_sent) := by omega
  have hr2 : u32 ((w.state.snd_buflen : Int) - w.state.snd_sent) < 2147483648 := by omega
  have hs := split_pos cfg w.conn.mss w.state.snd_odd _ hr1 hr2 hm1 hm
  simp only [tcpsend_interrupt_sndlen]
  split_ifs <;> omega

/-! ## Frame lemmas for the handler -/

theorem emit_frame (E : Ext) (cfg : Config) (p : Poll) (w : World) :
    (tcpsend_interrupt_emit E cfg p w).sock = w.sock ∧
    (tcpsend_interrupt_emit E cfg p w).cb = w.cb ∧
    (tcpsend_interrupt_emit E cfg p w).sem = w.sem ∧
    (tcpsend_interrupt_emit E cfg p w).errno = w.errno ∧
    (tcpsend_interrupt_emit E cfg p w).conn.unacked = w.conn.unacked ∧
    (tcpsend_interrupt_emit E cfg p w).log.cb_allocs = w.log.cb_allocs ∧
    (tcpsend_interrupt_emit E cfg p w).log.cb_frees = w.log.cb_frees ∧
    (tcpsend_interrupt_emit E cfg p w).log.txnotify = w.log.txnotify ∧
    (tcpsend_interrupt_emit E cfg p w).log.sem_posts = w.log.sem_posts ∧
    (tcpsend_interrupt_emit E cfg p w).log.lost = w.log.lost := by
  simp only [tcpsend_interrupt_emit]
  split_ifs <;> simp

theorem emit_state_frame (E : Ext) (cfg : Config) (p : Poll) (w : World) :
    (tcpsend_interrupt_emit E cfg p w).state.snd_buflen = w.state.snd_buflen ∧
    (tcpsend_interrupt_emit E cfg p w).state.snd_isn = w.state.snd_isn ∧
    (tcpsend_interrupt_emit E cfg p w).state.snd_acked = w.state.snd_acked ∧
    (tcpsend_interrupt_emit E cfg p w).state.snd_time = w.state.snd_time ∧
    (tcpsend_interrupt_emit E cfg p w).conn.winsize = w.conn.winsize ∧
    (tcpsend_interrupt_emit E cfg p w).conn.mss = w.conn.mss := by
  simp only [tcpsend_interrupt_emit]
  split_ifs <;> simp

/-- The timeout test does not depend on what the emission step changes. -/
theorem send_timeout_emit (E : Ext) (cfg : Config) (p : Poll) (now : Nat) (w : World) :
    send_timeout E now (tcpsend_interrupt_emit E cfg p w) = send_timeout E now w := by
  simp only [send_timeout, (emit_frame E cfg p w).1, (emit_state_frame E cfg p w).2.2.2.1]

/-- The emission step either hands exactly one segment to the device, after a
window test that passed, or hands nothing and leaves the bytes sent and the
sequence cursor alone. -/
theorem emit_cases (E : Ext) (cfg : Config) (p : Poll) (w : World) :
    ((p.flags &&& E.TCP_NEWDATA = 0 ∧ u32 w.state.snd_sent < w.state.snd_buflen) ∧
      tcpsend_interrupt_window w (tcpsend_interrupt_sndlen cfg w) < w.conn.winsize ∧
      (tcpsend_interrupt_emit E cfg p w).log.d_snd =
        (w.state.snd_sent, tcpsend_interrupt_sndlen cfg w) :: w.log.d_snd ∧
      (tcpsend_interrupt_emit E cfg p w).conn.sndseq =
        u32 (w.state.snd_sent + (w.state.snd_isn : Int)) ∧
      ((tcpsend_interrupt_emit E cfg p w).state.snd_sent =
          s32 (u32 (w.state.snd_sent + (tcpsend_interrupt_sndlen cfg w : Int))) ∨
        (tcpsend_interrupt_emit E cfg p w).state.snd_sent = w.state.snd_sent)) ∨
    ((tcpsend_interrupt_emit E cfg p w).log.d_snd = w.log.d_snd ∧
      (tcpsend_interrupt_emit E cfg p w).conn.sndseq = w.conn.sndseq ∧
      (tcpsend_interrupt_emit E cfg p w).state.snd_sent = w.state.snd_sent ∧
      (¬ (p.flags &&& E.TCP_NEWDATA = 0 ∧ u32 w.state.snd_sent < w.state.snd_buflen) ∨
        w.conn.winsize ≤ tcpsend_interrupt_window w (tcpsend_interrupt_sndlen cfg w))) := by
  simp only [tcpsend_interrupt_emit]
  split_ifs <;> simp_all

/-- The even/odd indicator after the emission step: toggled exactly when the
step is entered and splitting is configured. -/
theorem emit_odd (E : Ext) (cfg : Config) (p : Poll) (w : World) :
    (tcpsend_interrupt_emit E cfg p w).state.snd_odd =
      if (p.flags &&& E.TCP_NEWDATA = 0 ∧ u32 w.state.snd_sent < w.state.snd_buflen) ∧
          cfg.NET_TCP_SPLIT = true then !w.state.snd_odd else w.state.snd_odd := by
  simp only [tcpsend_interrupt_emit]
  split_ifs <;> simp_all
  omega

/-- After the emission step the handler either returns, or replaces the result
by `-ETIMEDOUT` and finishes; the call record of the device, the sequence
cursor and the even/odd indicator are those the emission step left. -/
theorem tail_cases (E : Ext) (cfg : Config) (p : Poll) (w : World) :
    (tcpsend_interrupt_tail E cfg p w).1.log.d_snd = (tcpsend_interrupt_emit E cfg p w).log.d_snd ∧
    (tcpsend_interrupt_tail E cfg p w).1.conn.sndseq =
      (tcpsend_interrupt_emit E cfg p w).conn.sndseq ∧
    (tcpsend_interrupt_tail E cfg p w).1.state.snd_odd =
      (tcpsend_interrupt_emit E cfg p w).state.snd_odd ∧
    (((tcpsend_interrupt_tail E cfg p w).1.state.snd_sent =
          (tcpsend_interrupt_emit E cfg p w).state.snd_sent ∧
        (tcpsend_interrupt_tail E cfg p w).1.log.sem_posts = w.log.sem_posts) ∨
      ((tcpsend_interrupt_tail E cfg p w).1.state.snd_sent = -E.ETIMEDOUT ∧
        (tcpsend_interrupt_tail E cfg p w).1.log.sem_posts = w.log.sem_posts + 1)) := by
  simp only [tcpsend_interrupt_tail]
  split_ifs <;> simp [end_wait, emit_frame]

/-- The three exits of the event checks of the handler: completion by
acknowledgment, a lost connection, or the emission and timeout steps run on
the world the event checks left. -/
theorem interrupt_paths (E : Ext) (cfg : Config) (p : Poll) (w : World) :
    (p.flags &&& E.TCP_ACKDATA ≠ 0 ∧
      w.state.snd_buflen ≤ u32 ((p.ackno : Int) - (w.state.snd_isn : Int)) ∧
      tcpsend_interrupt E cfg p w = (end_wait (tcpsend_interrupt_ack cfg p w), p.flags)) ∨
    (p.flags &&& E.TCP_ACKDATA = 0 ∧ p.flags &&& E.TCP_REXMIT = 0 ∧
      p.flags &&& (E.TCP_CLOSE ||| E.TCP_ABORT ||| E.TCP_TIMEDOUT) ≠ 0 ∧
      tcpsend_interrupt E cfg p w =
        (end_wait { w with
          sock := E.net_lostconnection w.sock p.flags
          log := { w.log with lost := p.flags :: w.log.lost }
          state := { w.state with snd_sent := -E.ENOTCONN } }, p.flags)) ∨
    (tcpsend_interrupt E cfg p w = tcpsend_interrupt_tail E cfg p (emit_entry E cfg p w)) := by
  by_cases hack : p.flags &&& E.TCP_ACKDATA = 0
  · by_cases hrex : p.flags &&& E.TCP_REXMIT = 0
    · by_cases hloss : p.flags &&& (E.TCP_CLOSE ||| E.TCP_ABORT ||| E.TCP_TIMEDOUT) = 0
      · right; right
        simp [tcpsend_interrupt, emit_entry, hack, hrex, hloss]
      · right; left
        refine ⟨hack, hrex, hloss, ?_⟩
        simp [tcpsend_interrupt, hack, hrex, hloss]
    · right; right
      simp [tcpsend_interrupt, emit_entry, hack, hrex]
  · by_cases hdone : w.state.snd_buflen ≤ u32 ((p.ackno : Int) - (w.state.snd_isn : Int))
    · left
      refine ⟨hack, hdone, ?_⟩
      simp [tcpsend_interrupt, hack, tcpsend_interrupt_ack, hdone]
    · right; right
      simp [tcpsend_interrupt, emit_entry, hack, tcpsend_interrupt_ack, hdone]

/-- The emission step on a control block whose bytes sent lie inside a buffer
of fewer than 2^31 bytes: the bytes sent do not decrease and stay inside the
buffer, and so does the segment handed to the device, if any. -/
theorem emit_sent_bounds (E : Ext) (cfg : Config) (p : Poll) (w : World)
    (h0 : 0 ≤ w.state.snd_sent) (h1 : w.state.snd_sent ≤ w.state.snd_buflen)
    (hb : w.state.snd_buflen < 2147483648) :
    w.state.snd_sent ≤ (tcpsend_interrupt_emit E cfg p w).state.snd_sent ∧
    (tcpsend_interrupt_emit E cfg p w).state.snd_sent ≤ w.state.snd_buflen ∧
    ((tcpsend_interrupt_emit E cfg p w).log.d_snd = w.log.d_snd ∨
      ((tcpsend_interrupt_emit E cfg p w).log.d_snd =
          (w.state.snd_sent, tcpsend_interrupt_sndlen cfg w) :: w.log.d_snd ∧
        w.state.snd_sent + (tcpsend_interrupt_sndlen cfg w : Int) ≤ w.state.snd_buflen ∧
        w.state.snd_sent < w.state.snd_buflen)) := by
  rcases emit_cases E cfg p w with ⟨⟨_, hin⟩, _, hd, _, hadv⟩ | ⟨hd, _, hkeep, _⟩
  · have hu := u32_of_range w.state.snd_sent h0 (by omega)
    have hlt : w.state.snd_sent < w.state.snd_buflen := by omega
    have hn := sndlen_le_remaining cfg w h0 hlt (by omega)
    have hadd : s32 (u32 (w.state.snd_sent + (tcpsend_interrupt_sndlen cfg w : Int))) =
        w.state.snd_sent + (tcpsend_interrupt_sndlen cfg w : Int) := by
      have h2 := u32_of_range (w.state.snd_sent + (tcpsend_interrupt_sndlen cfg w : Int))
        (by omega) (by omega)
      rw [s32_of_range _ (by omega), h2]
    refine ⟨?_, ?_, Or.inr ⟨hd, by omega, hlt⟩⟩
    · rcases hadv with h | h <;> omega
    · rcases hadv with h | h <;> omega
  · rw [hkeep]
    exact ⟨le_refl _, h1, Or.inl hd⟩

/-- The three exits of the event checks, with what is known on the third: an
acknowledgment that reaches the emission step is below `snd_buflen`. -/
theorem interrupt_three (E : Ext) (cfg : Config) (p : Poll) (w : World) :
    (p.flags &&& E.TCP_ACKDATA ≠ 0 ∧
      w.state.snd_buflen ≤ u32 ((p.ackno : Int) - (w.state.snd_isn : Int)) ∧
      tcpsend_interrupt E cfg p w = (end_wait (tcpsend_interrupt_ack cfg p w), p.flags)) ∨
    (p.flags &&& E.TCP_ACKDATA = 0 ∧ p.flags &&& E.TCP_REXMIT = 0 ∧
      p.flags &&& (E.TCP_CLOSE ||| E.TCP_ABORT ||| E.TCP_TIMEDOUT) ≠ 0 ∧
      tcpsend_interrupt E cfg p w =
        (end_wait { w with
          sock := E.net_lostconnection w.sock p.flags
          log := { w.log with lost := p.flags :: w.log.lost }
          state := { w.state with snd_sent := -E.ENOTCONN } }, p.flags)) ∨
    (tcpsend_interrupt E cfg p w = tcpsend_interrupt_tail E cfg p (emit_entry E cfg p w) ∧
      (p.flags &&& E.TCP_ACKDATA ≠ 0 →
        u32 ((p.ackno : Int) - (w.state.snd_isn : Int)) < w.state.snd_buflen) ∧
      (p.flags &&& E.TCP_ACKDATA = 0 → p.flags &&& E.TCP_REXMIT = 0 →
        p.flags &&& (E.TCP_CLOSE ||| E.TCP_ABORT ||| E.TCP_TIMEDOUT) = 0)) := by
  by_cases hack : p.flags &&& E.TCP_ACKDATA = 0
  · by_cases hrex : p.flags &&& E.TCP_REXMIT = 0
    · by_cases hloss : p.flags &&& (E.TCP_CLOSE ||| E.TCP_ABORT ||| E.TCP_TIMEDOUT) = 0
      · right; right
        refine ⟨?_, fun h => absurd hack h, fun _ _ => hloss⟩
        simp [tcpsend_interrupt, emit_entry, hack, hrex, hloss]
      · right; left
        refine ⟨hack, hrex, hloss, ?_⟩
        simp [tcpsend_interrupt, hack, hrex, hloss]
    · right; right
      refine ⟨?_, fun h => absurd hack h, fun _ h => absurd h hrex⟩
      simp [tcpsend_interrupt, emit_entry, hack, hrex]
  · by_cases hdone : w.state.snd_buflen ≤ u32 ((p.ackno : Int) - (w.state.snd_isn : Int))
    · left
      refine ⟨hack, hdone, ?_⟩
      simp [tcpsend_interrupt, hack, tcpsend_interrupt_ack, hdone]
    · right; right
      refine ⟨?_, fun _ => by omega, fun h => absurd h hack⟩
      simp [tcpsend_interrupt, emit_entry, hack, tcpsend_interrupt_ack, hdone]

/-- The control block as the emission step finds it, field by field. -/
theorem emit_entry_state (E : Ext) (cfg : Config) (p : Poll) (w : World) :
    ((emit_entry E cfg p w).state.snd_sent =
      if p.flags &&& E.TCP_ACKDATA = 0 ∧ p.flags &&& E.TCP_REXMIT ≠ 0
      then s32 w.state.snd_acked else w.state.snd_sent) ∧
    ((emit_entry E cfg p w).state.snd_acked =
      if p.flags &&& E.TCP_ACKDATA ≠ 0
      then u32 ((p.ackno : Int) - (w.state.snd_isn : Int)) else w.state.snd_acked) ∧
    ((emit_entry E cfg p w).state.snd_odd =
      if (p.flags &&& E.TCP_ACKDATA = 0 ∧ p.flags &&& E.TCP_REXMIT ≠ 0) ∧
        cfg.NET_TCP_SPLIT = true
      then false else w.state.snd_odd) ∧
    ((emit_entry E cfg p w).state.snd_time =
      if p.flags &&& E.TCP_ACKDATA ≠ 0 ∧ cfg.NET_SOCKOPTS = true
      then p.now else w.state.snd_time) := by
  simp only [emit_entry]
  split_ifs <;> simp_all [tcpsend_interrupt_ack, tcpsend_interrupt_rexmit]

/-- The event checks leave the connection and the call record alone. -/
theorem emit_entry_frame (E : Ext) (cfg : Config) (p : Poll) (w : World) :
    (emit_entry E cfg p w).conn = w.conn ∧ (emit_entry E cfg p w).log = w.log ∧
    (emit_entry E cfg p w).sock = w.sock ∧ (emit_entry E cfg p w).cb = w.cb ∧
    (emit_entry E cfg p w).state.snd_buflen = w.state.snd_buflen ∧
    (emit_entry E cfg p w).state.snd_isn = w.state.snd_isn := by
  simp only [emit_entry]
  split_ifs <;> simp [tcpsend_interrupt_ack, tcpsend_interrupt_rexmit]

/-- The timeout step changes neither the buffer length, the initial sequence
number, the bytes acknowledged nor the timestamp. -/
theorem tail_state_frame (E : Ext) (cfg : Config) (p : Poll) (w : World) :
    (tcpsend_interrupt_tail E cfg p w).1.state.snd_buflen = w.state.snd_buflen ∧
    (tcpsend_interrupt_tail E cfg p w).1.state.snd_isn = w.state.snd_isn ∧
    (tcpsend_interrupt_tail E cfg p w).1.state.snd_acked = w.state.snd_acked ∧
    (tcpsend_interrupt_tail E cfg p w).1.state.snd_time = w.state.snd_time := by
  simp only [tcpsend_interrupt_tail]
  split_ifs <;> simp [end_wait, emit_state_frame]

/-- The handler changes neither the buffer length nor the initial sequence
number of the control block. -/
theorem interrupt_state_frame (E : Ext) (cfg : Config) (p : Poll) (w : World) :
    (tcpsend_interrupt E cfg p w).1.state.snd_buflen = w.state.snd_buflen ∧
    (tcpsend_interrupt E cfg p w).1.state.snd_isn = w.state.snd_isn := by
  simp only [tcpsend_interrupt]
  split_ifs <;>
    simp [end_wait, tail_state_frame, tcpsend_interrupt_ack, tcpsend_interrupt_rexmit]

/-- The inductive step of the control-block invariant: on a buffer of fewer
than 2^31 bytes, an invocation whose acknowledgment stays within the bytes
counted as sent and which does not finish with an error keeps
`0 ≤ snd_sent ≤ snd_buflen` and `snd_acked ≤ snd_sent`. -/
theorem sent_acked_step (E : Ext) (cfg : Config) (p : Poll) (w : World)
    (hpt : 0 < E.ETIMEDOUT) (hpn : 0 < E.ENOTCONN)
    (hb : w.state.snd_buflen < 2147483648) (h0 : 0 ≤ w.state.snd_sent)
    (h1 : w.state.snd_sent ≤ w.state.snd_buflen)
    (hinv : (w.state.snd_acked : Int) ≤ w.state.snd_sent)
    (hack : ack_within_sent E w p)
    (hne : 0 ≤ (tcpsend_interrupt E cfg p w).1.state.snd_sent) :
    (tcpsend_interrupt E cfg p w).1.state.snd_sent ≤ w.state.snd_buflen ∧
    ((tcpsend_interrupt E cfg p w).1.state.snd_acked : Int) ≤
      (tcpsend_interrupt E cfg p w).1.state.snd_sent := by
  rcases interrupt_three E cfg p w with ⟨ha, _, hev⟩ | ⟨_, _, _, hev⟩ | ⟨hev, _, _⟩
  · rw [hev]
    have := hack ha
    simp only [end_wait, tcpsend_interrupt_ack]
    exact ⟨h1, this⟩
  · rw [hev] at hne
    simp only [end_wait] at hne
    omega
  · rw [hev] at hne ⊢
    obtain ⟨hs, ha, _, _⟩ := emit_entry_state E cfg p w
    obtain ⟨hbl, _, _, _, _, _⟩ := emit_entry_frame E cfg p w
    obtain ⟨_, _, hta, _⟩ := tail_state_frame E cfg p (emit_entry E cfg p w)
    have hs0 : 0 ≤ (emit_entry E cfg p w).state.snd_sent ∧
        (emit_entry E cfg p w).state.snd_sent ≤ w.state.snd_buflen ∧
        ((emit_entry E cfg p w).state.snd_acked : Int) ≤
          (emit_entry E cfg p w).state.snd_sent := by
      rw [hs, ha]
      have hs32 := s32_of_range w.state.snd_acked (by omega)
      by_cases hA : p.flags &&& E.TCP_ACKDATA = 0
      · by_cases hR : p.flags &&& E.TCP_REXMIT = 0
        · simp only [hA, hR, ne_eq, not_true_eq_false, and_false, if_false]
          omega
        · simp only [hA, hR, ne_eq, not_true_eq_false, not_false_eq_true, and_self, if_true,
            if_false]
          omega
      · have := hack hA
        simp only [hA, ne_eq, not_false_eq_true, false_and, if_false, if_true]
        omega
    have hbuf : (emit_entry E cfg p w).state.snd_buflen = w.state.snd_buflen := by
      obtain ⟨_, _, _, _, h5, _⟩ := emit_entry_frame E cfg p w
      exact h5
    have hem := emit_sent_bounds E cfg p (emit_entry E cfg p w) hs0.1
      (by rw [hbuf]; exact hs0.2.1) (by rw [hbuf]; exact hb)
    rw [hbuf] at hem
    rw [hta]
    rcases (tail_cases E cfg p (emit_entry E cfg p w)).2.2.2 with ⟨h, _⟩ | ⟨h, _⟩
    · rw [h]
      exact ⟨hem.2.1, by omega⟩
    · rw [h] at hne
      omega

/-- The event checks leave `errno` and the semaphore alone. -/
theorem emit_entry_sem (E : Ext) (cfg : Config) (p : Poll) (w : World) :
    (emit_entry E cfg p w).errno = w.errno ∧
    (emit_entry E cfg p w).conn.unacked = w.conn.unacked ∧
    (emit_entry E cfg p w).sem = w.sem ∧
    (emit_entry E cfg p w).conn.sndseq = w.conn.sndseq := by
  simp only [emit_entry]
  split_ifs <;> simp [tcpsend_interrupt_ack, tcpsend_interrupt_rexmit]

/-- The emission step when it is entered, the window test passes and the
address-resolution gate lets the advance through. -/
theorem emit_advance (E : Ext) (cfg : Config) (p : Poll) (w : World)
    (hnew : p.flags &&& E.TCP_NEWDATA = 0) (hin : u32 w.state.snd_sent < w.state.snd_buflen)
    (hwin : tcpsend_interrupt_window w (tcpsend_interrupt_sndlen cfg w) < w.conn.winsize)
    (hgate : (cfg.NET_ETHERNET = true ∧ ¬ cfg.NET_ARP_IPIN = true ∧ ¬ cfg.NET_ARP_SEND = true) →
      (w.state.snd_sent ≠ 0 ∨ p.arp = true)) :
    (tcpsend_interrupt_emit E cfg p w).log.d_snd =
      (w.state.snd_sent, tcpsend_interrupt_sndlen cfg w) :: w.log.d_snd ∧
    (tcpsend_interrupt_emit E cfg p w).state.snd_sent =
      s32 (u32 (w.state.snd_sent + (tcpsend_interrupt_sndlen cfg w : Int))) ∧
    (tcpsend_interrupt_emit E cfg p w).conn.sndseq =
      u32 (w.state.snd_sent + (w.state.snd_isn : Int)) := by
  simp only [tcpsend_interrupt_emit, hnew, hin, hwin, and_self, if_true, hgate]
  split_ifs <;> simp

/-- An invocation on a plain poll without timeout is the emission step. -/
theorem interrupt_plain (E : Ext) (cfg : Config) (p : Poll) (w : World)
    (hp : plain_poll E p) (hto : cfg.NET_SOCKOPTS = true → send_timeout E p.now w = false) :
    (tcpsend_interrupt E cfg p w).1 = tcpsend_interrupt_emit E cfg p w := by
  obtain ⟨ha, hr, hl, _⟩ := hp
  have hno : ¬ (cfg.NET_SOCKOPTS = true ∧
      send_timeout E p.now (tcpsend_interrupt_emit E cfg p w) = true) := by
    rintro ⟨hso, ht⟩
    rw [send_timeout_emit, hto hso] at ht
    exact absurd ht (by simp)
  simp [tcpsend_interrupt, ha, hr, hl, tcpsend_interrupt_tail, hno]

/-- The segment length on an even packet whose remaining bytes reach the
threshold and fit in one segment: half of them, plus one. -/
theorem sndlen_split_even (cfg : Config) (w : World) (r : Nat)
    (hsplit : cfg.NET_TCP_SPLIT = true) (hodd : w.state.snd_odd = false)
    (h0 : 0 ≤ w.state.snd_sent) (hr : w.state.snd_sent + (r : Int) = w.state.snd_buflen)
    (hb : w.state.snd_buflen < 2147483648) (hm : w.conn.mss < 65536)
    (hth : cfg.NET_TCP_SPLIT_SIZE ≤ r) (hfit : r ≤ w.conn.mss) (h1 : 1 ≤ r) :
    tcpsend_interrupt_sndlen cfg w = r / 2 + 1 := by
  have hrem : u32 ((w.state.snd_buflen : Int) - w.state.snd_sent) = r := by
    have := remaining_eq w h0 (by omega) (by omega)
    omega
  have hnext := next_sndlen_eq w.conn.mss r (by omega) hm
  simp only [tcpsend_interrupt_sndlen, hsplit, if_true, hrem, tcpsend_interrupt_split, hodd, hnext]
  split_ifs <;> simp at * <;> omega

/-- The segment length on an odd packet whose remaining bytes fit in one
segment: all of them. -/
theorem sndlen_odd_rest (cfg : Config) (w : World) (r : Nat)
    (hodd : w.state.snd_odd = true)
    (h0 : 0 ≤ w.state.snd_sent) (hr : w.state.snd_sent + (r : Int) = w.state.snd_buflen)
    (hb : w.state.snd_buflen < 2147483648) (hm : w.conn.mss < 65536)
    (hfit : r ≤ w.conn.mss) :
    tcpsend_interrupt_sndlen cfg w = r := by
  have hrem : u32 ((w.state.snd_buflen : Int) - w.state.snd_sent) = r := by
    have := remaining_eq w h0 (by omega) (by omega)
    omega
  have hnext := next_sndlen_eq w.conn.mss r (by omega) hm
  simp only [tcpsend_interrupt_sndlen, hrem, tcpsend_interrupt_split, hodd, hnext]
  split_ifs <;> simp at * <;> omega

/-- The segment length without a split, that is without `CONFIG_NET_TCP_SPLIT`
or below the threshold: the bytes remaining, clamped to the segment size. -/
theorem sndlen_unsplit (cfg : Config) (w : World) (r : Nat)
    (h0 : 0 ≤ w.state.snd_sent) (hr : w.state.snd_sent + (r : Int) = w.state.snd_buflen)
    (hb : w.state.snd_buflen < 4294967296)
    (hno : cfg.NET_TCP_SPLIT = false ∨ r < cfg.NET_TCP_SPLIT_SIZE) :
    tcpsend_interrupt_sndlen cfg w = min r w.conn.mss := by
  have hrem : u32 ((w.state.snd_buflen : Int) - w.state.snd_sent) = r := by
    have := remaining_eq w h0 (by omega) (by omega)
    omega
  simp only [tcpsend_interrupt_sndlen, hrem, tcpsend_interrupt_split]
  rcases hno with h | h
  · simp only [h, Bool.false_eq_true, if_false]
    split_ifs <;> omega
  · have hlt : ¬ (r ≥ cfg.NET_TCP_SPLIT_SIZE) := by omega
    simp only [hlt, if_false, ite_self]
    split_ifs <;> omega

/-- The wait of `psock_tcp_send` starts from the world `send_armed`. -/
theorem perform_armed (E : Ext) (cfg : Config) (w : World) (len : Nat) (r : Run) (ret : Int)
    (hlen : 0 < len) (hcb : r.cb_alloc = true) :
    psock_tcp_send_perform E cfg w len r ret =
      match net_lockedwait E cfg (send_armed E cfg w len r.now) r.events with
      | none => none
      | some (ret1, w4) =>
        some (ret1, { w4 with log := { w4.log with cb_frees := w4.log.cb_frees + 1 } }) := by
  simp only [psock_tcp_send_perform, hlen, hcb, if_true, send_armed]

/-- What one invocation hands to the device: nothing, with the sequence cursor
and the bytes sent as the event checks left them (or an error result); or one
segment that starts at the bytes sent as the emission step found them, with
the sequence cursor set to that offset plus the initial sequence number. -/
theorem interrupt_emission (E : Ext) (cfg : Config) (p : Poll) (w : World) :
    ((tcpsend_interrupt E cfg p w).1.log.d_snd = w.log.d_snd ∧
      (tcpsend_interrupt E cfg p w).1.conn.sndseq = w.conn.sndseq ∧
      ((tcpsend_interrupt E cfg p w).1.state.snd_sent = (emit_entry E cfg p w).state.snd_sent ∨
        (tcpsend_interrupt E cfg p w).1.state.snd_sent = -E.ETIMEDOUT ∨
        (tcpsend_interrupt E cfg p w).1.state.snd_sent = -E.ENOTCONN)) ∨
    ((tcpsend_interrupt E cfg p w).1.log.d_snd =
        ((emit_entry E cfg p w).state.snd_sent,
          tcpsend_interrupt_sndlen cfg (emit_entry E cfg p w)) :: w.log.d_snd ∧
      (tcpsend_interrupt E cfg p w).1.conn.sndseq =
        u32 ((emit_entry E cfg p w).state.snd_sent + (w.state.snd_isn : Int)) ∧
      p.flags &&& E.TCP_NEWDATA = 0 ∧
      u32 (emit_entry E cfg p w).state.snd_sent < w.state.snd_buflen) := by
  obtain ⟨hconn, hlog, _, _, hbuf, hisn⟩ := emit_entry_frame E cfg p w
  rcases interrupt_three E cfg p w with ⟨hack, _, hev⟩ | ⟨_, _, _, hev⟩ | ⟨hev, _, _⟩
  · rw [hev]
    left
    refine ⟨by simp [end_wait, tcpsend_interrupt_ack], by simp [end_wait, tcpsend_interrupt_ack],
      Or.inl ?_⟩
    simp [emit_entry, hack, end_wait]
  · rw [hev]
    left
    exact ⟨by simp [end_wait], by simp [end_wait], Or.inr (Or.inr (by simp [end_wait]))⟩
  · rw [hev]
    obtain ⟨hd, hq, _, hsent⟩ := tail_cases E cfg p (emit_entry E cfg p w)
    rw [hd, hq]
    rcases emit_cases E cfg p (emit_entry E cfg p w) with
      ⟨⟨hnew, hin⟩, _, hdl, hsq, _⟩ | ⟨hdl, hsq, hkeep, _⟩
    · right
      rw [hlog] at hdl
      rw [hisn] at hsq
      rw [hbuf] at hin
      exact ⟨hdl, hsq, hnew, hin⟩
    · left
      rw [hlog] at hdl
      rw [hconn] at hsq
      refine ⟨hdl, hsq, ?_⟩
      rcases hsent with ⟨h1, _⟩ | ⟨h1, _⟩
      · exact Or.inl (by rw [h1, hkeep])
      · exact Or.inr (Or.inl h1)

/-- The emission step is skipped when incoming data is pending. -/
theorem emit_skip (E : Ext) (cfg : Config) (p : Poll) (w : World)
    (hnew : p.flags &&& E.TCP_NEWDATA ≠ 0) : tcpsend_interrupt_emit E cfg p w = w := by
  simp [tcpsend_interrupt_emit, hnew]

/-- The bytes sent at the end of the emission step when a segment is handed
over: advanced when the address-resolution gate is compiled out or passes,
left alone otherwise. -/
theorem emit_gate_sent (E : Ext) (cfg : Config) (p : Poll) (w : World)
    (hnew : p.flags &&& E.TCP_NEWDATA = 0) (hin : u32 w.state.snd_sent < w.state.snd_buflen)
    (hwin : tcpsend_interrupt_window w (tcpsend_interrupt_sndlen cfg w) < w.conn.winsize) :
    (tcpsend_interrupt_emit E cfg p w).state.snd_sent =
      if (cfg.NET_ETHERNET = true ∧ ¬ cfg.NET_ARP_IPIN = true ∧ ¬ cfg.NET_ARP_SEND = true) →
          (w.state.snd_sent ≠ 0 ∨ p.arp = true)
      then s32 (u32 (w.state.snd_sent + (tcpsend_interrupt_sndlen cfg w : Int)))
      else w.state.snd_sent := by
  simp only [tcpsend_interrupt_emit, hnew, hin, hwin, and_self, if_true]
  split_ifs <;> simp

/-- The handler never touches `errno` nor the counts of allocator, release and
notification calls. -/
theorem interrupt_frame (E : Ext) (cfg : Config) (p : Poll) (w : World) :
    (tcpsend_interrupt E cfg p w).1.errno = w.errno ∧
    (tcpsend_interrupt E cfg p w).1.log.cb_allocs = w.log.cb_allocs ∧
    (tcpsend_interrupt E cfg p w).1.log.cb_frees = w.log.cb_frees ∧
    (tcpsend_interrupt E cfg p w).1.log.txnotify = w.log.txnotify := by
  simp only [tcpsend_interrupt, tcpsend_interrupt_tail]
  split_ifs <;> simp [end_wait, emit_frame, tcpsend_interrupt_ack, tcpsend_interrupt_rexmit]

/-- The handler returns the event flags it was given. -/
theorem interrupt_flags (E : Ext) (cfg : Config) (p : Poll) (w : World) :
    (tcpsend_interrupt E cfg p w).2 = p.flags := by
  simp only [tcpsend_interrupt, tcpsend_interrupt_tail]
  split_ifs <;> simp

/-- One invocation of the handler, in full: either it does not finish, and then
semaphore, posts, registration and socket are as before; or it goes through
`end_wait` once, and the socket is changed only by a loss report. -/
theorem interrupt_cases (E : Ext) (cfg : Config) (p : Poll) (w : World) :
    ((tcpsend_interrupt E cfg p w).1.sem = w.sem ∧
      (tcpsend_interrupt E cfg p w).1.log.sem_posts = w.log.sem_posts ∧
      (tcpsend_interrupt E cfg p w).1.cb = w.cb ∧
      (tcpsend_interrupt E cfg p w).1.sock = w.sock ∧
      (tcpsend_interrupt E cfg p w).1.log.lost = w.log.lost) ∨
    ((tcpsend_interrupt E cfg p w).1.sem = w.sem + 1 ∧
      (tcpsend_interrupt E cfg p w).1.log.sem_posts = w.log.sem_posts + 1 ∧
      (tcpsend_interrupt E cfg p w).1.cb = { flags := 0, priv := false, event := false } ∧
      (tcpsend_interrupt E cfg p w).1.conn.unacked = 0 ∧
      (((tcpsend_interrupt E cfg p w).1.sock = w.sock ∧
          (tcpsend_interrupt E cfg p w).1.log.lost = w.log.lost) ∨
        ((tcpsend_interrupt E cfg p w).1.sock = E.net_lostconnection w.sock p.flags ∧
          (tcpsend_interrupt E cfg p w).1.log.lost = p.flags :: w.log.lost))) := by
  simp only [tcpsend_interrupt, tcpsend_interrupt_tail]
  split_ifs <;> simp [end_wait, emit_frame, tcpsend_interrupt_ack, tcpsend_interrupt_rexmit]

/-- The dispatch of the driver inherits the case distinction of the handler
and its frame. -/
theorem devif_conn_event_cases (E : Ext) (cfg : Config) (p : Poll) (w : World) :
    ((devif_conn_event E cfg p w).errno = w.errno ∧
      (devif_conn_event E cfg p w).log.cb_allocs = w.log.cb_allocs ∧
      (devif_conn_event E cfg p w).log.cb_frees = w.log.cb_frees ∧
      (devif_conn_event E cfg p w).log.txnotify = w.log.txnotify) ∧
    (((devif_conn_event E cfg p w).sem = w.sem ∧
      (devif_conn_event E cfg p w).log.sem_posts = w.log.sem_posts ∧
      (devif_conn_event E cfg p w).cb = w.cb ∧
      (devif_conn_event E cfg p w).sock = w.sock ∧
      (devif_conn_event E cfg p w).log.lost = w.log.lost) ∨
    ((devif_conn_event E cfg p w).sem = w.sem + 1 ∧
      (devif_conn_event E cfg p w).log.sem_posts = w.log.sem_posts + 1 ∧
      (devif_conn_event E cfg p w).cb = { flags := 0, priv := false, event := false } ∧
      (devif_conn_event E cfg p w).conn.unacked = 0 ∧
      (((devif_conn_event E cfg p w).sock = w.sock ∧
          (devif_conn_event E cfg p w).log.lost = w.log.lost) ∨
        ((devif_conn_event E cfg p w).sock = E.net_lostconnection w.sock p.flags ∧
          (devif_conn_event E cfg p w).log.lost = p.flags :: w.log.lost)))) := by
  unfold devif_conn_event
  split
  · exact ⟨interrupt_frame E cfg p w, interrupt_cases E cfg p w⟩
  · exact ⟨⟨rfl, rfl, rfl, rfl⟩, Or.inl ⟨rfl, rfl, rfl, rfl, rfl⟩⟩

/-- Once the registration is stripped the driver no longer reaches the handler:
a further poll changes nothing. -/
theorem devif_conn_event_unarmed (E : Ext) (cfg : Config) (p : Poll) (w : World)
    (h : w.cb = { flags := 0, priv := false, event := false }) :
    devif_conn_event E cfg p w = w := by
  simp [devif_conn_event, h]

/-- How a wait that starts with an unposted semaphore can end: by a signal,
with no post and the socket and the registration as they were; or by the
handler going through `end_wait` exactly once. -/
theorem net_lockedwait_cases (E : Ext) (cfg : Config) :
    ∀ (es : List DriverEvent) (w : World) (ret : Int) (w1 : World),
      w.sem = 0 → net_lockedwait E cfg w es = some (ret, w1) →
      (w1.errno = w.errno ∧ w1.log.cb_allocs = w.log.cb_allocs ∧
        w1.log.cb_frees = w.log.cb_frees ∧ w1.log.txnotify = w.log.txnotify) ∧
      ((w1.log.sem_posts = w.log.sem_posts ∧ w1.sock = w.sock ∧
          w1.log.lost = w.log.lost ∧ w1.cb = w.cb ∧
          (∃ x, DriverEvent.signal x ∈ es)) ∨
        (ret = 0 ∧ w1.log.sem_posts = w.log.sem_posts + 1 ∧
          w1.cb = { flags := 0, priv := false, event := false } ∧
          w1.conn.unacked = 0 ∧
          ((w1.sock = w.sock ∧ w1.log.lost = w.log.lost) ∨
            (∃ f, w1.sock = E.net_lostconnection w.sock f ∧
              w1.log.lost = f :: w.log.lost)))) := by
  intro es
  induction es with
  | nil =>
    intro w ret w1 _ h
    simp [net_lockedwait] at h
  | cons e es ih =>
    intro w ret w1 hsem h
    cases e with
    | signal x =>
      simp only [net_lockedwait, Option.some.injEq, Prod.mk.injEq] at h
      obtain ⟨_, rfl⟩ := h
      exact ⟨⟨rfl, rfl, rfl, rfl⟩, Or.inl ⟨rfl, rfl, rfl, rfl, x, List.mem_cons_self _ _⟩⟩
    | input c =>
      simp only [net_lockedwait] at h
      have hr := ih { w with conn := c } ret w1 hsem h
      obtain ⟨hf, hc⟩ := hr
      refine ⟨hf, ?_⟩
      rcases hc with ⟨a, b, c1, d, x, hx⟩ | hfin
      · exact Or.inl ⟨a, b, c1, d, x, List.mem_cons_of_mem _ hx⟩
      · exact Or.inr hfin
    | poll p =>
      simp only [net_lockedwait] at h
      obtain ⟨⟨f1, f2, f3, f4⟩, hstep⟩ := devif_conn_event_cases E cfg p w
      split at h
      · -- the handler posted: the wait returns
        rename_i hpos
        simp only [Option.some.injEq, Prod.mk.injEq] at h
        obtain ⟨hret, rfl⟩ := h
        rcases hstep with ⟨a, _⟩ | ⟨a, b, c1, d, hs⟩
        · omega
        · refine ⟨⟨f1, f2, f3, f4⟩, Or.inr ⟨hret.symm, b, c1, d, ?_⟩⟩
          rcases hs with hs | hs
          · exact Or.inl hs
          · exact Or.inr ⟨p.flags, hs⟩
      · rename_i hpos
        rcases hstep with ⟨a, b, c1, d, e1⟩ | ⟨a, _⟩
        · have hr := ih (devif_conn_event E cfg p w) ret w1 (by omega) h
          obtain ⟨⟨g1, g2, g3, g4⟩, hc⟩ := hr
          refine ⟨⟨by rw [g1, f1], by rw [g2, f2], by rw [g3, f3], by rw [g4, f4]⟩, ?_⟩
          rcases hc with ⟨a2, b2, c2, d2, x, hx⟩ | ⟨r0, b2, c2, d2, hs⟩
          · exact Or.inl ⟨by rw [a2, b], by rw [b2, d], by rw [c2, e1], by rw [d2, c1],
              x, List.mem_cons_of_mem _ hx⟩
          · refine Or.inr ⟨r0, by rw [b2, b], c2, d2, ?_⟩
            rw [d, e1] at hs
            exact hs
        · omega

/-- The three ways through lines 561-616: an empty buffer, a failed
allocation, or a wait that a signal or the handler ends. -/
theorem perform_cases (E : Ext) (cfg : Config) (w : World) (len : Nat) (r : Run)
    (ret ret1 : Int) (w2 : World)
    (h : psock_tcp_send_perform E cfg w len r ret = some (ret1, w2)) :
    (len = 0 ∧ w2.log = w.log ∧ w2.sock = w.sock ∧ w2.cb = w.cb ∧ w2.conn = w.conn) ∨
    (0 < len ∧ r.cb_alloc = false ∧ w2.sock = w.sock ∧ w2.cb = w.cb ∧ w2.conn = w.conn ∧
      w2.log = { w.log with cb_allocs := w.log.cb_allocs + 1 }) ∨
    (0 < len ∧ r.cb_alloc = true ∧
      w2.log.cb_allocs = w.log.cb_allocs + 1 ∧ w2.log.cb_frees = w.log.cb_frees + 1 ∧
      w2.log.txnotify = w.log.txnotify + 1 ∧
      ((w2.log.sem_posts = w.log.sem_posts ∧ w2.sock = w.sock ∧ w2.log.lost = w.log.lost ∧
          (∃ x, DriverEvent.signal x ∈ r.events)) ∨
        (ret1 = 0 ∧ w2.log.sem_posts = w.log.sem_posts + 1 ∧
          w2.cb = { flags := 0, priv := false, event := false } ∧ w2.conn.unacked = 0 ∧
          ((w2.sock = w.sock ∧ w2.log.lost = w.log.lost) ∨
            (∃ f, w2.sock = E.net_lostconnection w.sock f ∧
              w2.log.lost = f :: w.log.lost))))) := by
  unfold psock_tcp_send_perform at h
  by_cases hlen : 0 < len
  · by_cases hcb : r.cb_alloc = true
    · simp only [hlen, hcb, if_true] at h
      split at h
      · exact absurd h (by simp)
      · rename_i ret0 w4 hw
        simp only [Option.some.injEq, Prod.mk.injEq] at h
        obtain ⟨hr, rfl⟩ := h
        have hc := net_lockedwait_cases E cfg r.events _ ret0 w4 rfl hw
        obtain ⟨⟨_, g2, g3, g4⟩, hc⟩ := hc
        refine Or.inr (Or.inr ⟨hlen, hcb, ?_, ?_, ?_, ?_⟩)
        · simpa using g2
        · simpa using g3
        · simpa using g4
        · rcases hc with ⟨a, b, c, _, hx⟩ | ⟨r0, b, c, d, hs⟩
          · exact Or.inl ⟨by simpa using a, by simpa using b, by simpa using c, hx⟩
          · refine Or.inr ⟨by rw [← hr]; exact r0, by simpa using b, by simpa using c,
              by simpa using d, ?_⟩
            simpa using hs
    · have hcb2 : r.cb_alloc = false := by simpa using hcb
      simp only [hlen, hcb2, if_true] at h
      simp only [Bool.false_eq_true, if_false, Option.some.injEq, Prod.mk.injEq] at h
      obtain ⟨_, rfl⟩ := h
      exact Or.inr (Or.inl ⟨hlen, hcb2, rfl, rfl, rfl, rfl⟩)
  · simp only [hlen, if_false, Option.some.injEq, Prod.mk.injEq] at h
    obtain ⟨_, rfl⟩ := h
    exact Or.inl ⟨by omega, rfl, rfl, rfl, rfl⟩

/-- When the precondition checks pass, the result of `psock_tcp_send` is that of
lines 561-616 on the socket marked as sending, followed by the reset of the
state field to idle; the final translation touches only `errno`. -/
theorem psock_tcp_send_some (E : Ext) (cfg : Config) (w : World) (len : Nat) (r : Run)
    (ret : Int) (w1 : World) (h : passes_checks E cfg w r)
    (hs : psock_tcp_send E cfg w len r = some (ret, w1)) :
    ∃ (ret1 : Int) (w2 : World),
      psock_tcp_send_perform E cfg
        { w with sock := { w.sock with s_flags := _SS_SETSTATE E w.sock.s_flags E.SF_SEND } }
        len r (if cfg.NET_ARP_SEND = true then r.arp_send else 0) = some (ret1, w2) ∧
      w1.sock = { w2.sock with s_flags := _SS_SETSTATE E w2.sock.s_flags E.SF_IDLE } ∧
      w1.log = w2.log ∧ w1.conn = w2.conn ∧ w1.cb = w2.cb ∧ w1.state = w2.state := by
  obtain ⟨h1, h2, h3, h4⟩ := h
  have hc : ¬ (w.sock.s_crefs ≤ 0) := by omega
  have ha : ¬ (cfg.NET_ARP_SEND = true ∧ r.arp_send < 0) := by
    rintro ⟨ha1, ha2⟩
    have := h4 ha1
    omega
  have hb : ¬ (w.sock.s_type ≠ E.SOCK_STREAM ∨ _SS_ISCONNECTED E w.sock.s_flags = false) := by
    simp [h2, h3]
  unfold psock_tcp_send at hs
  simp only [hc, hb, ha, if_false] at hs
  split at hs
  · exact absurd hs (by simp)
  · rename_i ret1 w2 hp
    refine ⟨ret1, w2, hp, ?_⟩
    simp only [errout] at hs
    split_ifs at hs <;>
      (simp only [Option.some.injEq, Prod.mk.injEq] at hs
       obtain ⟨_, rfl⟩ := hs
       exact ⟨rfl, rfl, rfl, rfl, rfl⟩)

/-! ## The entry point: zero length, allocation failure, error codes -/

/-- C1: on a socket that passes the precondition checks, `psock_tcp_send` with
`len = 0` returns 0 whatever happens around it (it never waits: the events do
not matter), calls neither the callback allocator nor any other collaborator
(the call record, the registration and the connection are unchanged) and
leaves the state field of the socket flags idle. -/
theorem C1_zero_length_send (E : Ext) (cfg : Config) (w : World) (r : Run)
    (h : passes_checks E cfg w r)
    (hidle : E.SF_IDLE &&& E.SF_MASK = E.SF_IDLE) (hidle8 : E.SF_IDLE < 256) :
    ∃ w1 : World,
      psock_tcp_send E cfg w 0 r = some (0, w1) ∧
      (∀ evs, psock_tcp_send E cfg w 0 { r with events := evs } = some (0, w1)) ∧
      w1.log = w.log ∧ w1.cb = w.cb ∧ w1.conn = w.conn ∧ w1.errno = w.errno ∧
      _SS_GETSTATE E w1.sock.s_flags = E.SF_IDLE := by
  obtain ⟨h1, h2, h3, h4⟩ := h
  have hc : ¬ (w.sock.s_crefs ≤ 0) := by omega
  have ha : ¬ (cfg.NET_ARP_SEND = true ∧ r.arp_send < 0) := by
    rintro ⟨ha1, ha2⟩
    have := h4 ha1
    omega
  have hret : 0 ≤ (if cfg.NET_ARP_SEND = true then r.arp_send else 0) := by
    split
    · exact h4 (by assumption)
    · exact le_refl _
  refine ⟨{ w with
      sock := { w.sock with
        s_flags := _SS_SETSTATE E (_SS_SETSTATE E w.sock.s_flags E.SF_SEND) E.SF_IDLE },
      state := { snd_buflen := 0, snd_sent := 0, snd_isn := 0, snd_acked := 0,
                 snd_time := 0, snd_odd := false },
      sem := 0 }, ?_, ?_, rfl, rfl, rfl, rfl, ?_⟩
  · simp [psock_tcp_send, psock_tcp_send_perform, errout, hc, h2, h3, ha]
    exact hret
  · intro evs
    simp [psock_tcp_send, psock_tcp_send_perform, errout, hc, h2, h3, ha]
    exact hret
  · exact getstate_setstate E _ _ hidle hidle8

/-- Witness of C1 on the NuttX constants: a connected stream socket, length 0. -/
theorem C1_zero_length_send_witness :
    ∃ w1 : World,
      psock_tcp_send nuttx cfgPlain (world0 500 3000) 0 (run0 [abortEv 1]) = some (0, w1) ∧
      (∀ evs, psock_tcp_send nuttx cfgPlain (world0 500 3000) 0
        { run0 [abortEv 1] with events := evs } = some (0, w1)) ∧
      w1.log = (world0 500 3000).log ∧ w1.cb = (world0 500 3000).cb ∧
      w1.conn = (world0 500 3000).conn ∧ w1.errno = (world0 500 3000).errno ∧
      _SS_GETSTATE nuttx w1.sock.s_flags = nuttx.SF_IDLE :=
  C1_zero_length_send nuttx cfgPlain (world0 500 3000) (run0 [abortEv 1])
    ⟨by decide, by decide, by decide, by decide⟩ (by decide) (by decide)

/-- C2: when the precondition checks pass, `len > 0` and `tcp_callback_alloc`
returns no registration, `psock_tcp_send` returns 0 (a byte count, as for a
successful zero-length send) and leaves `errno` as it was: no error is
reported.  Nothing is notified, waited for or released. -/
theorem C2_alloc_failure_returns_zero (E : Ext) (cfg : Config) (w : World) (len : Nat)
    (r : Run) (h : passes_checks E cfg w r) (hlen : 0 < len) (hcb : r.cb_alloc = false) :
    ∃ w1 : World,
      psock_tcp_send E cfg w len r = some (0, w1) ∧ w1.errno = w.errno ∧
      w1.log = { w.log with cb_allocs := w.log.cb_allocs + 1 } := by
  obtain ⟨h1, h2, h3, h4⟩ := h
  have hc : ¬ (w.sock.s_crefs ≤ 0) := by omega
  have ha : ¬ (cfg.NET_ARP_SEND = true ∧ r.arp_send < 0) := by
    rintro ⟨ha1, ha2⟩
    have := h4 ha1
    omega
  have hret : 0 ≤ (if cfg.NET_ARP_SEND = true then r.arp_send else 0) := by
    split
    · exact h4 (by assumption)
    · exact le_refl _
  refine ⟨{ w with
      sock := { w.sock with
        s_flags := _SS_SETSTATE E (_SS_SETSTATE E w.sock.s_flags E.SF_SEND) E.SF_IDLE },
      state := { snd_buflen := len, snd_sent := 0, snd_isn := 0, snd_acked := 0,
                 snd_time := 0, snd_odd := false },
      sem := 0,
      log := { w.log with cb_allocs := w.log.cb_allocs + 1 } }, ?_, rfl, rfl⟩
  simp [psock_tcp_send, psock_tcp_send_perform, errout, hc, h2, h3, ha, hlen, hcb]
  exact hret

/-- The failing input of C2: one byte on a connected stream socket while the
registration table is exhausted; the call returns 0 with `errno` untouched. -/
theorem C2_alloc_failure_returns_zero_witness :
    ∃ w1 : World,
      psock_tcp_send nuttx cfgPlain (world0 500 3000) 1 runNoCb = some (0, w1) ∧
      w1.errno = (world0 500 3000).errno ∧
      w1.log = { (world0 500 3000).log with cb_allocs := (world0 500 3000).log.cb_allocs + 1 } :=
  C2_alloc_failure_returns_zero nuttx cfgPlain (world0 500 3000) 1 runNoCb
    ⟨by decide, by decide, by decide, by decide⟩ (by decide) rfl

/-- C3: when the first event of the wait is a connection loss (close, abort or
timed-out flag, neither ACK nor retransmission) for which the registration is
armed, the handler stores `-ENOTCONN` and `psock_tcp_send` returns -1 with
`errno` set to `-ENOTCONN`, the stored value itself: not the `ENOTCONN` that
the not-connected check at entry reports. -/
theorem C3_handler_error_errno (E : Ext) (cfg : Config) (w : World) (len : Nat) (r : Run)
    (p : Poll) (es : List DriverEvent) (h : passes_checks E cfg w r) (hlen : 0 < len)
    (hcb : r.cb_alloc = true) (hev : r.events = DriverEvent.poll p :: es)
    (harmed : p.flags &&& send_events E ≠ 0)
    (hack : p.flags &&& E.TCP_ACKDATA = 0) (hrex : p.flags &&& E.TCP_REXMIT = 0)
    (hloss : p.flags &&& (E.TCP_CLOSE ||| E.TCP_ABORT ||| E.TCP_TIMEDOUT) ≠ 0)
    (hpos : 0 < E.ENOTCONN) :
    ∃ w1 : World, psock_tcp_send E cfg w len r = some (-1, w1) ∧
      w1.errno = -E.ENOTCONN ∧ w1.errno ≠ E.ENOTCONN := by
  obtain ⟨h1, h2, h3, h4⟩ := h
  have hc : ¬ (w.sock.s_crefs ≤ 0) := by omega
  have ha : ¬ (cfg.NET_ARP_SEND = true ∧ r.arp_send < 0) := by
    rintro ⟨ha1, ha2⟩
    have := h4 ha1
    omega
  have hb : ¬ (w.sock.s_type ≠ E.SOCK_STREAM ∨ _SS_ISCONNECTED E w.sock.s_flags = false) := by
    simp [h2, h3]
  have hneg : -E.ENOTCONN < 0 := by omega
  have hne : -E.ENOTCONN ≠ E.ENOTCONN := by omega
  simp only [psock_tcp_send, hc, hb, ha, if_false, psock_tcp_send_perform, hlen, hcb, if_true,
    hev, net_lockedwait, devif_conn_event, harmed, tcpsend_interrupt, hack, hrex, hloss,
    ne_eq, not_true_eq_false, not_false_eq_true, and_self, end_wait, errout,
    Nat.lt_add_one, Nat.zero_add, Nat.add_one_sub_one, hneg, Nat.lt_one_iff]
  exact ⟨_, rfl, rfl, hne⟩

/-- The failing input of C3: an abort during a one-byte send on the NuttX
constants returns -1 with `errno = -107`. -/
theorem C3_handler_error_errno_witness :
    ∃ w1 : World,
      psock_tcp_send nuttx cfgPlain (world0 500 3000) 1 (run0 [abortEv 1]) = some (-1, w1) ∧
      w1.errno = -nuttx.ENOTCONN ∧ w1.errno ≠ nuttx.ENOTCONN :=
  C3_handler_error_errno nuttx cfgPlain (world0 500 3000) 1 (run0 [abortEv 1])
    { flags := 128, ackno := 0, now := 1, arp := true } []
    ⟨by decide, by decide, by decide, by decide⟩ (by decide) rfl rfl
    (by decide) (by decide) (by decide) (by decide) (by decide)

/-- Evaluation of the error codes on the NuttX constants: an abort during a
one-byte send gives -1 with `errno = -107`, whereas the not-connected check at
entry gives `errno = 107`; a send timeout gives `errno = -110`. -/
theorem handler_error_errno_eval :
    (psock_tcp_send nuttx cfgPlain (world0 500 3000) 1 (run0 [abortEv 1])).map
        (fun x => (x.1, x.2.errno)) = some (-1, -107) ∧
    (psock_tcp_send nuttx cfgPlain worldUnconnected 1 (run0 [abortEv 1])).map
        (fun x => (x.1, x.2.errno)) = some (-1, 107) ∧
    (psock_tcp_send nuttx cfgPlain (worldTimeo 500 3000) 1 (run0 [pollEv 1, pollEv 20])).map
        (fun x => (x.1, x.2.errno)) = some (-1, -110) := by
  refine ⟨?_, ?_, ?_⟩ <;> decide

/-- C4: the precondition failures of `psock_tcp_send`.  A socket whose
reference count is not positive gives -1 with `EBADF`; an allocated socket
that is not of stream type or not connected gives -1 with `ENOTCONN`; a
failing `arp_send` gives -1 with `ENETUNREACH`.  In each case the world after
the call is the world before it with only `errno` set: socket flags,
connection, registration and call record are untouched. -/
theorem C4_precondition_failures (E : Ext) (cfg : Config) (w : World) (len : Nat) (r : Run) :
    (w.sock.s_crefs ≤ 0 →
      psock_tcp_send E cfg w len r = some (-1, { w with errno := E.EBADF })) ∧
    (0 < w.sock.s_crefs →
      (w.sock.s_type ≠ E.SOCK_STREAM ∨ _SS_ISCONNECTED E w.sock.s_flags = false) →
      psock_tcp_send E cfg w len r = some (-1, { w with errno := E.ENOTCONN })) ∧
    (0 < w.sock.s_crefs → w.sock.s_type = E.SOCK_STREAM →
      _SS_ISCONNECTED E w.sock.s_flags = true →
      cfg.NET_ARP_SEND = true → r.arp_send < 0 →
      psock_tcp_send E cfg w len r = some (-1, { w with errno := E.ENETUNREACH })) := by
  refine ⟨?_, ?_, ?_⟩
  · intro h
    simp [psock_tcp_send, errout, h]
  · intro h1 h2
    have hc : ¬ (w.sock.s_crefs ≤ 0) := by omega
    simp [psock_tcp_send, errout, hc, h2]
  · intro h1 h2 h3 h4 h5
    have hc : ¬ (w.sock.s_crefs ≤ 0) := by omega
    simp [psock_tcp_send, errout, hc, h2, h3, h4, h5]

/-- C4 at concrete inputs: a free socket, an unconnected socket and an
unreachable peer, each leaving everything but `errno` as it was. -/
theorem C4_precondition_failures_witness :
    psock_tcp_send nuttx cfgPlain worldFree 5 (run0 []) =
      some (-1, { worldFree with errno := 9 }) ∧
    psock_tcp_send nuttx cfgPlain worldUnconnected 5 (run0 []) =
      some (-1, { worldUnconnected with errno := 107 }) ∧
    psock_tcp_send nuttx cfgArpSend (world0 500 3000) 5 runUnreachable =
      some (-1, { world0 500 3000 with errno := 101 }) :=
  ⟨(C4_precondition_failures nuttx cfgPlain worldFree 5 (run0 [])).1 (by decide),
   (C4_precondition_failures nuttx cfgPlain worldUnconnected 5 (run0 [])).2.1 (by decide)
     (by decide),
   (C4_precondition_failures nuttx cfgArpSend (world0 500 3000) 5 runUnreachable).2.2
     (by decide) (by decide) (by decide) (by decide) (by decide)⟩

/-! ## The entry point: teardown -/

/-- C5 as stated fails: with a `net_lostconnection` that clears the connected
flag of the socket it is given, a one-byte send that the peer aborts
returns with bit 6 of `s_flags` (outside the state field, mask 3) cleared,
although it was set at the call. -/
theorem C5_other_bits_counterexample :
    (psock_tcp_send nuttx cfgPlain (world0 500 3000) 1 (run0 [abortEv 1])).map
        (fun x => (x.1, x.2.sock.s_flags, x.2.sock.s_flags.testBit 6)) =
      some (-1, 32, false) ∧
    (world0 500 3000).sock.s_flags = 96 ∧
    (world0 500 3000).sock.s_flags.testBit 6 = true ∧
    nuttx.SF_MASK.testBit 6 = false := by
  refine ⟨?_, ?_, ?_, ?_⟩ <;> decide

/-- C5, amended: whenever a call of `psock_tcp_send` that passes the
precondition checks returns, the state field of `s_flags` is idle; the other
bits of `s_flags` are unchanged unless the handler reported a lost
connection, in which case the flags are those `net_lostconnection` left,
with the state field reset; and `tcp_callback_free` has been called exactly
once if a registration was allocated (`len > 0` and the allocation
succeeded), not at all otherwise. -/
theorem C5_teardown (E : Ext) (cfg : Config) (w : World) (len : Nat) (r : Run)
    (ret : Int) (w1 : World) (h : passes_checks E cfg w r)
    (hidle : E.SF_IDLE &&& E.SF_MASK = E.SF_IDLE) (hidle8 : E.SF_IDLE < 256)
    (hsend : E.SF_SEND &&& E.SF_MASK = E.SF_SEND) (hflags : w.sock.s_flags < 256)
    (hs : psock_tcp_send E cfg w len r = some (ret, w1)) :
    _SS_GETSTATE E w1.sock.s_flags = E.SF_IDLE ∧
    ((w1.log.lost = w.log.lost ∧
        ∀ i, E.SF_MASK.testBit i = false →
          w1.sock.s_flags.testBit i = w.sock.s_flags.testBit i) ∨
      (∃ f, w1.log.lost = f :: w.log.lost ∧
        w1.sock.s_flags = _SS_SETSTATE E
          (E.net_lostconnection
            { w.sock with s_flags := _SS_SETSTATE E w.sock.s_flags E.SF_SEND } f).s_flags
          E.SF_IDLE)) ∧
    w1.log.cb_frees = w.log.cb_frees + (if 0 < len ∧ r.cb_alloc = true then 1 else 0) := by
  obtain ⟨ret1, w2, hp, hsock, hlog, _, _, _⟩ := psock_tcp_send_some E cfg w len r ret w1 h hs
  have hkeep : ∀ i, E.SF_MASK.testBit i = false →
      (_SS_SETSTATE E (_SS_SETSTATE E w.sock.s_flags E.SF_SEND) E.SF_IDLE).testBit i =
        w.sock.s_flags.testBit i := by
    intro i hi
    rw [setstate_testBit E _ _ hidle (setstate_lt E _ _) i hi,
      setstate_testBit E _ _ hsend hflags i hi]
  refine ⟨?_, ?_, ?_⟩
  · rw [hsock]
    exact getstate_setstate E _ _ hidle hidle8
  · rcases perform_cases E cfg _ len r _ ret1 w2 hp with
      ⟨_, hl, hk, _⟩ | ⟨_, _, hk, _, _, hl⟩ | ⟨_, _, _, _, _, hw⟩
    · refine Or.inl ⟨by rw [hlog, hl], ?_⟩
      rw [hsock, hk]
      exact hkeep
    · refine Or.inl ⟨by rw [hlog, hl], ?_⟩
      rw [hsock, hk]
      exact hkeep
    · rcases hw with ⟨_, hk, hl, _⟩ | ⟨_, _, _, _, hk⟩
      · refine Or.inl ⟨by rw [hlog, hl], ?_⟩
        rw [hsock, hk]
        exact hkeep
      · rcases hk with ⟨hk, hl⟩ | ⟨f, hk, hl⟩
        · refine Or.inl ⟨by rw [hlog, hl], ?_⟩
          rw [hsock, hk]
          exact hkeep
        · refine Or.inr ⟨f, by rw [hlog, hl], ?_⟩
          rw [hsock, hk]
  · rw [hlog]
    rcases perform_cases E cfg _ len r _ ret1 w2 hp with
      ⟨h0, hl, _⟩ | ⟨_, hcb, _, _, _, hl⟩ | ⟨hlen, hcb, _, hfree, _⟩
    · rw [hl]
      simp [h0]
    · rw [hl]
      simp [hcb]
    · rw [hfree]
      simp [hlen, hcb]

/-- Witness of C5: the successful 200-byte send of scenario A returns, idle,
with the other flag bits as they were and its registration released once. -/
theorem C5_teardown_witness :
    ∃ (ret : Int) (w1 : World),
      psock_tcp_send nuttx cfgPlain (world0 500 3000) 200
        (run0 [pollEv 1, ackEv 5200 2]) = some (ret, w1) ∧
      _SS_GETSTATE nuttx w1.sock.s_flags = nuttx.SF_IDLE ∧
      w1.log.cb_frees = (world0 500 3000).log.cb_frees +
        (if 0 < 200 ∧ (run0 [pollEv 1, ackEv 5200 2]).cb_alloc = true then 1 else 0) := by
  have hsome : (psock_tcp_send nuttx cfgPlain (world0 500 3000) 200
      (run0 [pollEv 1, ackEv 5200 2])).isSome = true := by decide
  obtain ⟨⟨ret, w1⟩, hs⟩ := Option.isSome_iff_exists.mp hsome
  have hc := C5_teardown nuttx cfgPlain (world0 500 3000) 200 (run0 [pollEv 1, ackEv 5200 2])
    ret w1 ⟨by decide, by decide, by decide, by decide⟩ (by decide) (by decide) (by decide)
    (by decide) hs
  exact ⟨ret, w1, hs, hc.1, hc.2.2⟩

/-! ## The handler: completion, window, retransmission -/

/-- C6: evaluation at the failing input.  A 1000-byte send is handed to the
device in full (400, 400, 200), 400 bytes are acknowledged, a retransmission
request rewinds to 400 and re-sends 400 bytes, then the acknowledgment of all
1000 bytes arrives: the handler finishes through the acknowledgment path with
`snd_acked = snd_buflen = 1000` and `psock_tcp_send` returns 800.  The runs of
scenarios B and A return 1000 and 200. -/
theorem C6_result_after_retransmit :
    (psock_tcp_send nuttx cfgPlain (world0 400 3000) 1000
        (run0 [pollEv 1, pollEv 2, pollEv 3, ackEv 5400 4, rexmitEv 5, ackEv 6000 6])).map
        (fun x => (x.1, x.2.state.snd_acked, x.2.state.snd_buflen)) = some (800, 1000, 1000) ∧
    (psock_tcp_send nuttx cfgPlain (world0 400 3000) 1000
        (run0 [pollEv 1, pollEv 2, pollEv 3, ackEv 5400 4, rexmitEv 5, ackEv 6000 6])).map
        (fun x => (x.2.errno, x.2.log.d_snd)) =
      some (0, [(400, 400), (800, 200), (400, 400), (0, 400)]) ∧
    (psock_tcp_send nuttx cfgPlain (world0 400 3000) 1000
        (run0 [pollEv 1, ackEv 5400 2, ackEv 5800 3, ackEv 6000 4])).map
        (fun x => (x.1, x.2.log.d_snd)) = some (1000, [(800, 200), (400, 400), (0, 400)]) ∧
    (psock_tcp_send nuttx cfgPlain (world0 500 3000) 200
        (run0 [pollEv 1, ackEv 5200 2])).map
        (fun x => (x.1, x.2.log.d_snd)) = some (200, [(0, 200)]) := by
  refine ⟨?_, ?_, ?_, ?_⟩ <;> decide

/-- C7: an invocation with the ACK flag set stores
`snd_acked = (ackno - snd_isn) mod 2^32`.  On a control block whose
`snd_sent` is non-negative it goes through `end_wait` with a non-negative
result exactly when that value is at least `snd_buflen`, and the result is then
the unchanged `snd_sent`, with nothing handed to the device.  Below
`snd_buflen` (one byte short included) it does not finish unless the timeout
check, on the timestamp this acknowledgment just refreshed, fires. -/
theorem C7_completion_boundary (E : Ext) (cfg : Config) (p : Poll) (w : World)
    (hack : p.flags &&& E.TCP_ACKDATA ≠ 0) (hsent : 0 ≤ w.state.snd_sent)
    (hpos : 0 < E.ETIMEDOUT) :
    ((tcpsend_interrupt E cfg p w).1.state.snd_acked : Int) =
      ((p.ackno : Int) - (w.state.snd_isn : Int)) % 4294967296 ∧
    (((tcpsend_interrupt E cfg p w).1.log.sem_posts = w.log.sem_posts + 1 ∧
        0 ≤ (tcpsend_interrupt E cfg p w).1.state.snd_sent) ↔
      w.state.snd_buflen ≤ u32 ((p.ackno : Int) - (w.state.snd_isn : Int))) ∧
    (w.state.snd_buflen ≤ u32 ((p.ackno : Int) - (w.state.snd_isn : Int)) →
      (tcpsend_interrupt E cfg p w).1.state.snd_sent = w.state.snd_sent ∧
      (tcpsend_interrupt E cfg p w).1.log.d_snd = w.log.d_snd ∧
      (tcpsend_interrupt E cfg p w).1.cb = { flags := 0, priv := false, event := false } ∧
      (tcpsend_interrupt E cfg p w).1.conn.unacked = 0) ∧
    (u32 ((p.ackno : Int) - (w.state.snd_isn : Int)) < w.state.snd_buflen →
      (cfg.NET_SOCKOPTS = true → w.sock.s_sndtimeo ≠ 0 →
        E.net_timeo p.now p.now w.sock.s_sndtimeo = false) →
      (tcpsend_interrupt E cfg p w).1.log.sem_posts = w.log.sem_posts ∧
      (tcpsend_interrupt E cfg p w).1.cb = w.cb) := by
  have hu : ((u32 ((p.ackno : Int) - (w.state.snd_isn : Int)) : Nat) : Int) =
      ((p.ackno : Int) - (w.state.snd_isn : Int)) % 4294967296 := by
    simp only [u32]
    omega
  by_cases hdone : w.state.snd_buflen ≤ u32 ((p.ackno : Int) - (w.state.snd_isn : Int))
  · have hev : tcpsend_interrupt E cfg p w = (end_wait (tcpsend_interrupt_ack cfg p w), p.flags) := by
      simp [tcpsend_interrupt, hack, tcpsend_interrupt_ack, hdone]
    rw [hev]
    refine ⟨?_, ?_, ?_, ?_⟩
    · simpa [end_wait, tcpsend_interrupt_ack] using hu
    · simp [end_wait, tcpsend_interrupt_ack, hdone, hsent]
    · intro _
      simp [end_wait, tcpsend_interrupt_ack]
    · intro hlt
      omega
  · have hev : tcpsend_interrupt E cfg p w =
        tcpsend_interrupt_tail E cfg p (tcpsend_interrupt_ack cfg p w) := by
      simp [tcpsend_interrupt, hack, tcpsend_interrupt_ack, hdone]
    rw [hev]
    have hfe := emit_frame E cfg p (tcpsend_interrupt_ack cfg p w)
    have hse := emit_state_frame E cfg p (tcpsend_interrupt_ack cfg p w)
    have hto := send_timeout_emit E cfg p p.now (tcpsend_interrupt_ack cfg p w)
    refine ⟨?_, ?_, ?_, ?_⟩
    · simp only [tcpsend_interrupt_tail]
      split_ifs
      · simp only [end_wait]
        rw [hse.2.2.1]
        simpa [tcpsend_interrupt_ack] using hu
      · rw [hse.2.2.1]
        simpa [tcpsend_interrupt_ack] using hu
    · constructor
      · rintro ⟨hposts, hnn⟩
        exfalso
        simp only [tcpsend_interrupt_tail] at hposts hnn
        split_ifs at hposts hnn
        · simp only [end_wait] at hnn
          omega
        · rw [hfe.2.2.2.2.2.2.2.2.1] at hposts
          simp [tcpsend_interrupt_ack] at hposts
      · intro hle
        exact absurd hle hdone
    · intro hle
      exact absurd hle hdone
    · intro _ hnt
      have hno : ¬ (cfg.NET_SOCKOPTS = true ∧
          send_timeout E p.now (tcpsend_interrupt_emit E cfg p (tcpsend_interrupt_ack cfg p w))
            = true) := by
        rintro ⟨hso, ht⟩
        rw [hto] at ht
        simp only [send_timeout, tcpsend_interrupt_ack, hso, if_true] at ht
        split_ifs at ht with hz
        · rw [hnt hso hz] at ht
          exact absurd ht (by simp)
      simp only [tcpsend_interrupt_tail, hno, if_false]
      rw [hfe.2.2.2.2.2.2.2.2.1, hfe.2.1]
      simp [tcpsend_interrupt_ack]

/-- Witness of C7: on a 1000-byte send with 800 bytes handed over and no
timeout set, the acknowledgment of 999 bytes does not finish the send. -/
theorem C7_completion_boundary_witness :
    ((tcpsend_interrupt nuttx cfgPlain (ackPoll 5999 7) (worldMid 400 3000 800 400)).1.state.snd_acked
        : Int) = (((ackPoll 5999 7).ackno : Int) -
          ((worldMid 400 3000 800 400).state.snd_isn : Int)) % 4294967296 ∧
    (tcpsend_interrupt nuttx cfgPlain (ackPoll 5999 7) (worldMid 400 3000 800 400)).1.log.sem_posts
      = (worldMid 400 3000 800 400).log.sem_posts ∧
    (tcpsend_interrupt nuttx cfgPlain (ackPoll 5999 7) (worldMid 400 3000 800 400)).1.cb
      = (worldMid 400 3000 800 400).cb :=
  ⟨(C7_completion_boundary nuttx cfgPlain (ackPoll 5999 7) (worldMid 400 3000 800 400)
      (by decide) (by decide) (by decide)).1,
   (C7_completion_boundary nuttx cfgPlain (ackPoll 5999 7) (worldMid 400 3000 800 400)
      (by decide) (by decide) (by decide)).2.2.2 (by decide) (by decide)⟩

/-- C8 as stated fails: a retransmission request on a send with 800 bytes
handed over and 400 acknowledged, window 100.  The window sum is 400 at the
window test (600 with the bytes sent on entry), not below the window; nothing
is handed to the device and the sequence cursor stays, but `snd_sent` is
changed by the invocation, from 800 to 400. -/
theorem C8_window_full_rewind_counterexample :
    tcpsend_interrupt_window (emit_entry nuttx cfgPlain (rexmitPoll 5) (worldMid 400 100 800 400))
      (tcpsend_interrupt_sndlen cfgPlain
        (emit_entry nuttx cfgPlain (rexmitPoll 5) (worldMid 400 100 800 400))) = 400 ∧
    tcpsend_interrupt_window (worldMid 400 100 800 400)
      (tcpsend_interrupt_sndlen cfgPlain (worldMid 400 100 800 400)) = 600 ∧
    (worldMid 400 100 800 400).conn.winsize = 100 ∧
    (tcpsend_interrupt nuttx cfgPlain (rexmitPoll 5) (worldMid 400 100 800 400)).1.log.d_snd =
      (worldMid 400 100 800 400).log.d_snd ∧
    (worldMid 400 100 800 400).state.snd_sent = 800 ∧
    (tcpsend_interrupt nuttx cfgPlain (rexmitPoll 5) (worldMid 400 100 800 400)).1.state.snd_sent
      = 400 := by
  refine ⟨?_, ?_, ?_, ?_, ?_, ?_⟩ <;> decide

/-- C8, amended: in every invocation of the handler a segment is handed to the
device only if the window sum `(snd_sent - snd_acked) + sndlen`, in unsigned
32-bit arithmetic on the control block as the emission step finds it (after
the acknowledgment or retransmission step), is strictly below `winsize`, and
`snd_sent` is advanced only together with such a segment.  When the sum is
equal to or greater than the window nothing is handed over, the sequence
cursor is unchanged by the invocation and `snd_sent` is not advanced: it is
the value the emission step found, unless the invocation ends the send with
`-ETIMEDOUT` or `-ENOTCONN`. -/
theorem C8_window_safety (E : Ext) (cfg : Config) (p : Poll) (w : World) :
    ((tcpsend_interrupt E cfg p w).1.log.d_snd = w.log.d_snd ∨
      ((tcpsend_interrupt E cfg p w).1.log.d_snd =
          ((emit_entry E cfg p w).state.snd_sent,
            tcpsend_interrupt_sndlen cfg (emit_entry E cfg p w)) :: w.log.d_snd ∧
        u32 ((emit_entry E cfg p w).state.snd_sent - ((emit_entry E cfg p w).state.snd_acked : Int)
          + (tcpsend_interrupt_sndlen cfg (emit_entry E cfg p w) : Int)) < w.conn.winsize)) ∧
    ((tcpsend_interrupt E cfg p w).1.state.snd_sent = (emit_entry E cfg p w).state.snd_sent ∨
      ((tcpsend_interrupt E cfg p w).1.state.snd_sent =
          s32 (u32 ((emit_entry E cfg p w).state.snd_sent +
            (tcpsend_interrupt_sndlen cfg (emit_entry E cfg p w) : Int))) ∧
        (tcpsend_interrupt E cfg p w).1.log.d_snd =
          ((emit_entry E cfg p w).state.snd_sent,
            tcpsend_interrupt_sndlen cfg (emit_entry E cfg p w)) :: w.log.d_snd) ∨
      (tcpsend_interrupt E cfg p w).1.state.snd_sent = -E.ETIMEDOUT ∨
      (tcpsend_interrupt E cfg p w).1.state.snd_sent = -E.ENOTCONN) ∧
    (w.conn.winsize ≤
        u32 ((emit_entry E cfg p w).state.snd_sent - ((emit_entry E cfg p w).state.snd_acked : Int)
          + (tcpsend_interrupt_sndlen cfg (emit_entry E cfg p w) : Int)) →
      (tcpsend_interrupt E cfg p w).1.log.d_snd = w.log.d_snd ∧
      (tcpsend_interrupt E cfg p w).1.conn.sndseq = w.conn.sndseq ∧
      ((tcpsend_interrupt E cfg p w).1.state.snd_sent = (emit_entry E cfg p w).state.snd_sent ∨
        (tcpsend_interrupt E cfg p w).1.state.snd_sent = -E.ETIMEDOUT ∨
        (tcpsend_interrupt E cfg p w).1.state.snd_sent = -E.ENOTCONN)) := by
  obtain ⟨hconn, hlog, _, _, _, _⟩ := emit_entry_frame E cfg p w
  rcases interrupt_paths E cfg p w with ⟨hack, _, hev⟩ | ⟨hack, hrex, _, hev⟩ | hev
  · rw [hev]
    have hs : (end_wait (tcpsend_interrupt_ack cfg p w)).state.snd_sent =
        (emit_entry E cfg p w).state.snd_sent := by
      simp [emit_entry, hack, end_wait]
    exact ⟨Or.inl (by simp [end_wait, tcpsend_interrupt_ack]), Or.inl hs,
      fun _ => ⟨by simp [end_wait, tcpsend_interrupt_ack],
        by simp [end_wait, tcpsend_interrupt_ack], Or.inl hs⟩⟩
  · rw [hev]
    exact ⟨Or.inl (by simp [end_wait]), Or.inr (Or.inr (Or.inr (by simp [end_wait]))),
      fun _ => ⟨by simp [end_wait], by simp [end_wait],
        Or.inr (Or.inr (by simp [end_wait]))⟩⟩
  · rw [hev]
    obtain ⟨hd, hq, _, hsent⟩ := tail_cases E cfg p (emit_entry E cfg p w)
    rw [hd, hq]
    have hwin : ∀ n, tcpsend_interrupt_window (emit_entry E cfg p w) n =
        u32 ((emit_entry E cfg p w).state.snd_sent -
          ((emit_entry E cfg p w).state.snd_acked : Int) + (n : Int)) := fun _ => rfl
    rcases emit_cases E cfg p (emit_entry E cfg p w) with
      ⟨_, hlt, hdl, _, hadv⟩ | ⟨hdl, hsq, hkeep, _⟩
    · rw [hwin, hconn] at hlt
      rw [hlog] at hdl
      refine ⟨Or.inr ⟨hdl, hlt⟩, ?_, fun hge => absurd hlt (by omega)⟩
      rcases hsent with ⟨h1, _⟩ | ⟨h1, _⟩
      · rcases hadv with h2 | h2
        · exact Or.inr (Or.inl ⟨by rw [h1, h2], hdl⟩)
        · exact Or.inl (by rw [h1, h2])
      · exact Or.inr (Or.inr (Or.inl h1))
    · rw [hlog] at hdl
      rw [hconn] at hsq
      have hfin : (tcpsend_interrupt_tail E cfg p (emit_entry E cfg p w)).1.state.snd_sent =
            (emit_entry E cfg p w).state.snd_sent ∨
          (tcpsend_interrupt_tail E cfg p (emit_entry E cfg p w)).1.state.snd_sent =
            -E.ETIMEDOUT ∨
          (tcpsend_interrupt_tail E cfg p (emit_entry E cfg p w)).1.state.snd_sent =
            -E.ENOTCONN := by
        rcases hsent with ⟨h1, _⟩ | ⟨h1, _⟩
        · exact Or.inl (by rw [h1, hkeep])
        · exact Or.inr (Or.inl h1)
      refine ⟨Or.inl hdl, ?_, fun _ => ⟨hdl, hsq, hfin⟩⟩
      rcases hfin with h1 | h1 | h1
      · exact Or.inl h1
      · exact Or.inr (Or.inr (Or.inl h1))
      · exact Or.inr (Or.inr (Or.inr h1))

/-- C9 as stated fails: a retransmission request on a fully handed-over
1000-byte send with 400 bytes acknowledged, splitting configured, window
open.  The rewind is followed by the emission step of the same invocation,
so after the invocation `snd_sent` is 800, not the 400 acknowledged before,
and the even/odd indicator is odd. -/
theorem C9_rewind_then_emit_counterexample :
    (worldMid 400 3000 1000 400).state.snd_acked = 400 ∧
    (rexmitPoll 5).flags &&& nuttx.TCP_REXMIT ≠ 0 ∧
    (rexmitPoll 5).flags &&& nuttx.TCP_ACKDATA = 0 ∧
    (tcpsend_interrupt nuttx cfgSplit (rexmitPoll 5) (worldMid 400 3000 1000 400)).1.state.snd_sent
      = 800 ∧
    (tcpsend_interrupt nuttx cfgSplit (rexmitPoll 5) (worldMid 400 3000 1000 400)).1.state.snd_odd
      = true ∧
    (tcpsend_interrupt nuttx cfgSplit (rexmitPoll 5) (worldMid 400 3000 1000 400)).1.log.d_snd
      = [(400, 400)] := by
  refine ⟨?_, ?_, ?_, ?_, ?_, ?_⟩ <;> decide

/-- C9, amended: on an invocation with the retransmission flag and without the
ACK flag the handler rewinds `snd_sent` to `snd_acked` (as an `ssize_t`, the
same number below 2^31) and the even/odd indicator to even before the
emission step of that invocation.  Hence a segment handed to the device in
the invocation starts at the offset `snd_acked`; after the invocation
`snd_sent` is `snd_acked`, or `snd_acked` plus the length of the segment just
handed over, or `-ETIMEDOUT`; nothing is handed over when the emission step is
skipped; and with splitting configured the indicator is odd exactly when the
emission step ran (no new data pending and bytes left to send), even
otherwise. -/
theorem C9_retransmit_rewind (E : Ext) (cfg : Config) (p : Poll) (w : World)
    (hack : p.flags &&& E.TCP_ACKDATA = 0) (hrex : p.flags &&& E.TCP_REXMIT ≠ 0) :
    (w.state.snd_acked < 2147483648 → s32 w.state.snd_acked = (w.state.snd_acked : Int)) ∧
    (((tcpsend_interrupt E cfg p w).1.log.d_snd = w.log.d_snd ∧
        ((tcpsend_interrupt E cfg p w).1.state.snd_sent = s32 w.state.snd_acked ∨
          (tcpsend_interrupt E cfg p w).1.state.snd_sent = -E.ETIMEDOUT)) ∨
      ((tcpsend_interrupt E cfg p w).1.log.d_snd =
          (s32 w.state.snd_acked,
            tcpsend_interrupt_sndlen cfg (tcpsend_interrupt_rexmit cfg w)) :: w.log.d_snd ∧
        ((tcpsend_interrupt E cfg p w).1.state.snd_sent = s32 w.state.snd_acked ∨
          (tcpsend_interrupt E cfg p w).1.state.snd_sent =
            s32 (u32 (s32 w.state.snd_acked +
              (tcpsend_interrupt_sndlen cfg (tcpsend_interrupt_rexmit cfg w) : Int))) ∨
          (tcpsend_interrupt E cfg p w).1.state.snd_sent = -E.ETIMEDOUT))) ∧
    (¬ (p.flags &&& E.TCP_NEWDATA = 0 ∧ u32 (s32 w.state.snd_acked) < w.state.snd_buflen) →
      (tcpsend_interrupt E cfg p w).1.log.d_snd = w.log.d_snd) ∧
    (cfg.NET_TCP_SPLIT = true →
      ((tcpsend_interrupt E cfg p w).1.state.snd_odd = true ↔
        (p.flags &&& E.TCP_NEWDATA = 0 ∧ u32 (s32 w.state.snd_acked) < w.state.snd_buflen))) := by
  have hev : tcpsend_interrupt E cfg p w =
      tcpsend_interrupt_tail E cfg p (tcpsend_interrupt_rexmit cfg w) := by
    simp [tcpsend_interrupt, hack, hrex]
  have hs0 : (tcpsend_interrupt_rexmit cfg w).state.snd_sent = s32 w.state.snd_acked := rfl
  have hl0 : (tcpsend_interrupt_rexmit cfg w).log = w.log := rfl
  have hb0 : (tcpsend_interrupt_rexmit cfg w).state.snd_buflen = w.state.snd_buflen := rfl
  rw [hev]
  obtain ⟨hd, _, hodd, hsent⟩ := tail_cases E cfg p (tcpsend_interrupt_rexmit cfg w)
  rw [hd, hodd]
  refine ⟨?_, ?_, ?_, ?_⟩
  · intro hlt
    simp only [s32]
    split_ifs <;> omega
  · rcases emit_cases E cfg p (tcpsend_interrupt_rexmit cfg w) with
      ⟨_, _, hdl, _, hadv⟩ | ⟨hdl, _, hkeep, _⟩
    · rw [hs0, hl0] at hdl
      rw [hs0] at hadv
      refine Or.inr ⟨hdl, ?_⟩
      rcases hsent with ⟨h1, _⟩ | ⟨h1, _⟩
      · rcases hadv with h2 | h2
        · exact Or.inr (Or.inl (by rw [h1, h2]))
        · exact Or.inl (by rw [h1, h2])
      · exact Or.inr (Or.inr h1)
    · rw [hl0] at hdl
      rw [hs0] at hkeep
      refine Or.inl ⟨hdl, ?_⟩
      rcases hsent with ⟨h1, _⟩ | ⟨h1, _⟩
      · exact Or.inl (by rw [h1, hkeep])
      · exact Or.inr h1
  · intro hskip
    rcases emit_cases E cfg p (tcpsend_interrupt_rexmit cfg w) with
      ⟨hin, _⟩ | ⟨hdl, _⟩
    · rw [hs0, hb0] at hin
      exact absurd hin hskip
    · rw [hdl, hl0]
  · intro hsplit
    rw [emit_odd, hs0, hb0]
    have ho : (tcpsend_interrupt_rexmit cfg w).state.snd_odd = false := by
      simp [tcpsend_interrupt_rexmit, hsplit]
    rw [ho]
    by_cases hin : p.flags &&& E.TCP_NEWDATA = 0 ∧ u32 (s32 w.state.snd_acked) < w.state.snd_buflen
    · simp [hin, hsplit]
    · simp [hin]

/-- Witness of C9: a retransmission request while new data is pending rewinds
a send with 1000 bytes handed over to the 400 acknowledged and hands nothing
to the device. -/
theorem C9_retransmit_rewind_witness :
    (tcpsend_interrupt nuttx cfgSplit { flags := 10, ackno := 0, now := 5, arp := true }
        (worldMid 400 3000 1000 400)).1.log.d_snd = (worldMid 400 3000 1000 400).log.d_snd ∧
    s32 (worldMid 400 3000 1000 400).state.snd_acked =
      ((worldMid 400 3000 1000 400).state.snd_acked : Int) :=
  ⟨(C9_retransmit_rewind nuttx cfgSplit { flags := 10, ackno := 0, now := 5, arp := true }
      (worldMid 400 3000 1000 400) (by decide) (by decide)).2.2.1 (by decide),
   (C9_retransmit_rewind nuttx cfgSplit { flags := 10, ackno := 0, now := 5, arp := true }
      (worldMid 400 3000 1000 400) (by decide) (by decide)).1 (by decide)⟩

/-! ## The single wake -/

/-- C10 as stated fails for the zero-length send: the call returns 0 and
`sem_post` is never called (the count stays at 0), where the claim says once. -/
theorem C10_zero_length_no_wake :
    (psock_tcp_send nuttx cfgPlain (world0 500 3000) 0 (run0 [pollEv 1])).map
        (fun x => (x.1, x.2.log.sem_posts)) = some (0, 0) ∧
    (world0 500 3000).log.sem_posts = 0 := by
  refine ⟨?_, ?_⟩ <;> decide

/-- C10, amended: in every call of `psock_tcp_send` that passes the
precondition checks and returns, `sem_post` is called at most once; exactly
once when a registration was armed (`len > 0`, allocation succeeded) and no
signal interrupts the wait, that is when the handler ended the send (full
acknowledgment, connection loss or timeout), and then the registration is
stripped, so that a further poll cannot post again; and not at all for a
zero-length send. -/
theorem C10_single_wake (E : Ext) (cfg : Config) (w : World) (len : Nat) (r : Run)
    (ret : Int) (w1 : World) (h : passes_checks E cfg w r)
    (hs : psock_tcp_send E cfg w len r = some (ret, w1)) :
    (len = 0 → w1.log.sem_posts = w.log.sem_posts) ∧
    (0 < len → r.cb_alloc = true → (∀ x, DriverEvent.signal x ∉ r.events) →
      w1.log.sem_posts = w.log.sem_posts + 1 ∧
      ∀ p, devif_conn_event E cfg p w1 = w1) ∧
    w1.log.sem_posts ≤ w.log.sem_posts + 1 := by
  obtain ⟨ret1, w2, hp, _, hlog, _, hcb1, _⟩ := psock_tcp_send_some E cfg w len r ret w1 h hs
  rw [hlog]
  rcases perform_cases E cfg _ len r _ ret1 w2 hp with
    ⟨h0, hl, _⟩ | ⟨hlen, hcb, _, _, _, hl⟩ | ⟨hlen, hcb, _, _, _, hw⟩
  · rw [hl]
    exact ⟨fun _ => rfl, fun hpos => absurd h0 (by omega), by simp⟩
  · rw [hl]
    refine ⟨fun _ => rfl, fun _ hcb2 => ?_, by simp⟩
    rw [hcb] at hcb2
    exact absurd hcb2 (by simp)
  · rcases hw with ⟨hposts, _, _, x, hx⟩ | ⟨_, hposts, hstrip, _⟩
    · refine ⟨fun _ => hposts, fun _ _ hno => absurd hx (hno x), by rw [hposts]; simp⟩
    · refine ⟨fun h0 => absurd h0 (by omega), fun _ _ _ => ⟨hposts, fun p => ?_⟩,
        by rw [hposts]⟩
      exact devif_conn_event_unarmed E cfg p w1 (by rw [hcb1, hstrip])

/-- Witness of C10: the successful send of scenario A, the aborted send and the
timed-out send each return after exactly one `sem_post`. -/
theorem C10_single_wake_witness :
    (∃ (ret : Int) (w1 : World),
      psock_tcp_send nuttx cfgPlain (world0 500 3000) 200
        (run0 [pollEv 1, ackEv 5200 2]) = some (ret, w1) ∧
      w1.log.sem_posts = (world0 500 3000).log.sem_posts + 1) ∧
    (psock_tcp_send nuttx cfgPlain (world0 500 3000) 200
        (run0 [pollEv 1, ackEv 5200 2])).map (fun x => (x.1, x.2.log.sem_posts)) =
      some (200, 1) ∧
    (psock_tcp_send nuttx cfgPlain (world0 500 3000) 1 (run0 [abortEv 1])).map
        (fun x => (x.1, x.2.log.sem_posts)) = some (-1, 1) ∧
    (psock_tcp_send nuttx cfgPlain (worldTimeo 500 3000) 1 (run0 [pollEv 1, pollEv 20])).map
        (fun x => (x.1, x.2.log.sem_posts)) = some (-1, 1) := by
  have hsome : (psock_tcp_send nuttx cfgPlain (world0 500 3000) 200
      (run0 [pollEv 1, ackEv 5200 2])).isSome = true := by decide
  obtain ⟨⟨ret, w1⟩, hs⟩ := Option.isSome_iff_exists.mp hsome
  have hc := C10_single_wake nuttx cfgPlain (world0 500 3000) 200
    (run0 [pollEv 1, ackEv 5200 2]) ret w1 ⟨by decide, by decide, by decide, by decide⟩ hs
  have hno : ∀ x, DriverEvent.signal x ∉ (run0 [pollEv 1, ackEv 5200 2]).events := by
    intro x hx
    simp [run0, pollEv, ackEv] at hx
  refine ⟨⟨ret, w1, hs, (hc.2.1 (by decide) (by decide) hno).1⟩, ?_, ?_, ?_⟩ <;> decide

/-! ## The invariant of the control block -/

/-- The invariant of the control block is kept along a whole sequence of
invocations whose acknowledgments stay within the bytes counted as sent. -/
theorem sent_acked_run (E : Ext) (cfg : Config) (hpt : 0 < E.ETIMEDOUT) (hpn : 0 < E.ENOTCONN) :
    ∀ (ps : List Poll) (w : World), w.state.snd_buflen < 2147483648 →
      0 ≤ w.state.snd_sent → w.state.snd_sent ≤ w.state.snd_buflen →
      (w.state.snd_acked : Int) ≤ w.state.snd_sent → acks_within_sent E cfg w ps →
      0 ≤ (handler_run E cfg w ps).state.snd_sent ∧
      (handler_run E cfg w ps).state.snd_sent ≤ w.state.snd_buflen ∧
      ((handler_run E cfg w ps).state.snd_acked : Int) ≤
        (handler_run E cfg w ps).state.snd_sent := by
  intro ps
  induction ps with
  | nil =>
    intro w _ h0 h1 hinv _
    exact ⟨h0, h1, hinv⟩
  | cons p ps ih =>
    intro w hb h0 h1 hinv hh
    obtain ⟨hack, hne, hrest⟩ := hh
    obtain ⟨hle, hacked⟩ := sent_acked_step E cfg p w hpt hpn hb h0 h1 hinv hack hne
    have hbuf := (interrupt_state_frame E cfg p w).1
    have := ih (tcpsend_interrupt E cfg p w).1 (by rw [hbuf]; exact hb) hne
      (by rw [hbuf]; exact hle) hacked hrest
    rw [hbuf] at this
    exact this

/-- A prefix of a sequence with acknowledgments within the bytes sent is such a
sequence. -/
theorem acks_within_sent_take (E : Ext) (cfg : Config) :
    ∀ (ps : List Poll) (w : World) (k : Nat),
      acks_within_sent E cfg w ps → acks_within_sent E cfg w (ps.take k) := by
  intro ps
  induction ps with
  | nil =>
    intro w k _
    simp [acks_within_sent]
  | cons p ps ih =>
    intro w k hh
    cases k with
    | zero => simp [acks_within_sent]
    | succ k =>
      obtain ⟨hack, hne, hrest⟩ := hh
      exact ⟨hack, hne, ih _ k hrest⟩

/-- C11 as stated fails: a send of 2000 bytes, segment size 400, window 3000.
Three polls hand 1200 bytes to the device, a retransmission request rewinds
to 0 and re-sends 400 bytes, then an acknowledgment of sequence number 6200,
the initial sequence number plus the 1200 bytes handed over, arrives.  No
invocation finishes, and after the last one `snd_sent = 400` is below
`snd_acked = 1200`. -/
theorem C11_rewind_then_ack_counterexample :
    (handler_run nuttx cfgPlain (worldArmed 2000 400 3000)
        [plainPoll 1, plainPoll 2, plainPoll 3]).log.d_snd =
      [(800, 400), (400, 400), (0, 400)] ∧
    (ackPoll 6200 5).ackno = (worldArmed 2000 400 3000).state.snd_isn + 1200 ∧
    (handler_run nuttx cfgPlain (worldArmed 2000 400 3000)
        [plainPoll 1, plainPoll 2, plainPoll 3, rexmitPoll 4, ackPoll 6200 5]).state.snd_sent
      = 400 ∧
    (handler_run nuttx cfgPlain (worldArmed 2000 400 3000)
        [plainPoll 1, plainPoll 2, plainPoll 3, rexmitPoll 4, ackPoll 6200 5]).state.snd_acked
      = 1200 ∧
    (handler_run nuttx cfgPlain (worldArmed 2000 400 3000)
        [plainPoll 1, plainPoll 2, plainPoll 3, rexmitPoll 4, ackPoll 6200 5]).log.sem_posts
      = 0 := by
  refine ⟨?_, ?_, ?_, ?_, ?_⟩ <;> decide

/-- C11, amended: from the initial control block (`snd_sent = 0`,
`snd_acked = 0`) of a buffer of fewer than 2^31 bytes, along any sequence of
handler invocations in which every acknowledgment number is at most the
initial sequence number plus the bytes counted as sent at that moment
(`snd_sent`, which a retransmission rewinds) and none finishes with an error,
`0 ≤ snd_sent ≤ snd_buflen` and `snd_sent ≥ snd_acked` hold after each
invocation. -/
theorem C11_sent_ge_acked (E : Ext) (cfg : Config) (w : World) (ps : List Poll) (k : Nat)
    (hpt : 0 < E.ETIMEDOUT) (hpn : 0 < E.ENOTCONN)
    (hb : w.state.snd_buflen < 2147483648)
    (hs : w.state.snd_sent = 0) (ha : w.state.snd_acked = 0)
    (hh : acks_within_sent E cfg w ps) :
    0 ≤ (handler_run E cfg w (ps.take k)).state.snd_sent ∧
    (handler_run E cfg w (ps.take k)).state.snd_sent ≤ w.state.snd_buflen ∧
    ((handler_run E cfg w (ps.take k)).state.snd_acked : Int) ≤
      (handler_run E cfg w (ps.take k)).state.snd_sent :=
  sent_acked_run E cfg hpt hpn (ps.take k) w hb (by omega) (by omega) (by omega)
    (acks_within_sent_take E cfg ps w k hh)

/-- Witness of C11: the run of scenario B up to the acknowledgment of 800 bytes
keeps the bytes acknowledged within the bytes sent. -/
theorem C11_sent_ge_acked_witness :
    0 ≤ (handler_run nuttx cfgPlain (worldArmed 1000 400 3000)
        ([plainPoll 1, ackPoll 5400 2, ackPoll 5800 3].take 3)).state.snd_sent ∧
    (handler_run nuttx cfgPlain (worldArmed 1000 400 3000)
        ([plainPoll 1, ackPoll 5400 2, ackPoll 5800 3].take 3)).state.snd_sent ≤
      (worldArmed 1000 400 3000).state.snd_buflen ∧
    ((handler_run nuttx cfgPlain (worldArmed 1000 400 3000)
        ([plainPoll 1, ackPoll 5400 2, ackPoll 5800 3].take 3)).state.snd_acked : Int) ≤
      (handler_run nuttx cfgPlain (worldArmed 1000 400 3000)
        ([plainPoll 1, ackPoll 5400 2, ackPoll 5800 3].take 3)).state.snd_sent :=
  C11_sent_ge_acked nuttx cfgPlain (worldArmed 1000 400 3000)
    [plainPoll 1, ackPoll 5400 2, ackPoll 5800 3] 3 (by decide) (by decide) (by decide)
    rfl rfl
    ⟨by unfold ack_within_sent; decide, by decide,
      by unfold ack_within_sent; decide, by decide,
      by unfold ack_within_sent; decide, by decide, trivial⟩

/-! ## Precedence of the events and the timeout -/

/-- C12 as stated fails: an invocation whose flags carry both ACK and abort, on
a send with 400 of 1000 bytes handed over.  The acknowledgment branch is
taken: 400 bytes are acknowledged, the next 400 bytes are handed to the
device, no loss is reported, the result is not `-ENOTCONN` and the handler
does not finish. -/
theorem C12_ack_hides_loss_counterexample :
    (ackAbortPoll 5400 3).flags &&& nuttx.TCP_ABORT ≠ 0 ∧
    (tcpsend_interrupt nuttx cfgPlain (ackAbortPoll 5400 3) (worldMid 400 3000 400 0)).1.log.d_snd
      = [(400, 400)] ∧
    (tcpsend_interrupt nuttx cfgPlain (ackAbortPoll 5400 3) (worldMid 400 3000 400 0)).1.log.lost
      = [] ∧
    (tcpsend_interrupt nuttx cfgPlain (ackAbortPoll 5400 3)
      (worldMid 400 3000 400 0)).1.state.snd_sent = 800 ∧
    (tcpsend_interrupt nuttx cfgPlain (ackAbortPoll 5400 3)
      (worldMid 400 3000 400 0)).1.log.sem_posts = 0 := by
  refine ⟨?_, ?_, ?_, ?_, ?_⟩ <;> decide

/-- C12, amended: an invocation whose flags include any of closed, aborted or
timed-out and neither ACK nor retransmission (poll, new-data and other flags
may be set) reports the loss, stores `-ENOTCONN`, goes through `end_wait` and
hands no segment to the device.  When the ACK or the retransmission flag is
set as well, that branch is taken instead and no loss is reported in the
invocation. -/
theorem C12_loss_precedence (E : Ext) (cfg : Config) (p : Poll) (w : World)
    (hloss : p.flags &&& (E.TCP_CLOSE ||| E.TCP_ABORT ||| E.TCP_TIMEDOUT) ≠ 0) :
    (p.flags &&& E.TCP_ACKDATA = 0 → p.flags &&& E.TCP_REXMIT = 0 →
      (tcpsend_interrupt E cfg p w).1.log.lost = p.flags :: w.log.lost ∧
      (tcpsend_interrupt E cfg p w).1.sock = E.net_lostconnection w.sock p.flags ∧
      (tcpsend_interrupt E cfg p w).1.state.snd_sent = -E.ENOTCONN ∧
      (tcpsend_interrupt E cfg p w).1.log.sem_posts = w.log.sem_posts + 1 ∧
      (tcpsend_interrupt E cfg p w).1.cb = { flags := 0, priv := false, event := false } ∧
      (tcpsend_interrupt E cfg p w).1.conn.unacked = 0 ∧
      (tcpsend_interrupt E cfg p w).1.log.d_snd = w.log.d_snd ∧
      (tcpsend_interrupt E cfg p w).1.conn.sndseq = w.conn.sndseq) ∧
    ((p.flags &&& E.TCP_ACKDATA ≠ 0 ∨ p.flags &&& E.TCP_REXMIT ≠ 0) →
      (tcpsend_interrupt E cfg p w).1.log.lost = w.log.lost ∧
      (tcpsend_interrupt E cfg p w).1.sock = w.sock) := by
  constructor
  · intro hack hrex
    have hev : tcpsend_interrupt E cfg p w =
        (end_wait { w with
          sock := E.net_lostconnection w.sock p.flags
          log := { w.log with lost := p.flags :: w.log.lost }
          state := { w.state with snd_sent := -E.ENOTCONN } }, p.flags) := by
      simp [tcpsend_interrupt, hack, hrex, hloss]
    rw [hev]
    simp [end_wait]
  · intro hor
    rcases interrupt_three E cfg p w with ⟨_, _, hev⟩ | ⟨ha, hr, _, _⟩ | ⟨hev, _, _⟩
    · rw [hev]
      simp [end_wait, tcpsend_interrupt_ack]
    · rcases hor with h | h
      · exact absurd ha h
      · exact absurd hr h
    · rw [hev]
      obtain ⟨_, hl, hsk, _⟩ := emit_entry_frame E cfg p w
      simp only [tcpsend_interrupt_tail]
      split_ifs <;> simp [end_wait, emit_frame, hl, hsk]

/-- Witness of C12: an abort reported during a poll ends a send with 400 of
1000 bytes handed over: the loss is reported and nothing is handed over. -/
theorem C12_loss_precedence_witness :
    (tcpsend_interrupt nuttx cfgPlain (abortPoll 3) (worldMid 400 3000 400 0)).1.log.lost =
      (abortPoll 3).flags :: (worldMid 400 3000 400 0).log.lost ∧
    (tcpsend_interrupt nuttx cfgPlain (abortPoll 3) (worldMid 400 3000 400 0)).1.state.snd_sent =
      -nuttx.ENOTCONN ∧
    (tcpsend_interrupt nuttx cfgPlain (abortPoll 3) (worldMid 400 3000 400 0)).1.log.d_snd =
      (worldMid 400 3000 400 0).log.d_snd :=
  ⟨((C12_loss_precedence nuttx cfgPlain (abortPoll 3) (worldMid 400 3000 400 0)
      (by decide)).1 (by decide) (by decide)).1,
   ((C12_loss_precedence nuttx cfgPlain (abortPoll 3) (worldMid 400 3000 400 0)
      (by decide)).1 (by decide) (by decide)).2.2.1,
   ((C12_loss_precedence nuttx cfgPlain (abortPoll 3) (worldMid 400 3000 400 0)
      (by decide)).1 (by decide) (by decide)).2.2.2.2.2.2.1⟩

/-- C13: evaluation at the failing input.  A send of 1000 bytes with a send
timeout of ten ticks whose first poll comes at tick 20: the invocation hands
the first 400 bytes to the device and then, with 400 of 1000 bytes sent at the
timeout check, finishes with `-ETIMEDOUT`; `psock_tcp_send` returns -1. -/
theorem C13_timeout_with_data_remaining :
    (tcpsend_interrupt_emit nuttx cfgPlain (plainPoll 20)
      (worldArmedTimeo 1000 400 3000)).state.snd_sent = 400 ∧
    (worldArmedTimeo 1000 400 3000).state.snd_buflen = 1000 ∧
    (tcpsend_interrupt nuttx cfgPlain (plainPoll 20) (worldArmedTimeo 1000 400 3000)).1.log.d_snd
      = [(0, 400)] ∧
    (tcpsend_interrupt nuttx cfgPlain (plainPoll 20)
      (worldArmedTimeo 1000 400 3000)).1.state.snd_sent = -110 ∧
    (tcpsend_interrupt nuttx cfgPlain (plainPoll 20)
      (worldArmedTimeo 1000 400 3000)).1.log.sem_posts = 1 ∧
    (psock_tcp_send nuttx cfgPlain (worldTimeo 400 3000) 1000 (run0 [pollEv 20])).map
        (fun x => (x.1, x.2.log.d_snd)) = some (-1, [(0, 400)]) := by
  refine ⟨?_, ?_, ?_, ?_, ?_, ?_⟩ <;> decide

/-- The timeout test at the end of an invocation, spelled out: the socket has a
send timeout and `net_timeo` holds on the timestamp, which an acknowledgment
in the same invocation has just set to the current tick. -/
theorem send_timeout_entry (E : Ext) (cfg : Config) (p : Poll) (w : World)
    (hso : cfg.NET_SOCKOPTS = true) :
    send_timeout E p.now (tcpsend_interrupt_emit E cfg p (emit_entry E cfg p w)) = true ↔
      (w.sock.s_sndtimeo ≠ 0 ∧
        E.net_timeo p.now
          (if p.flags &&& E.TCP_ACKDATA ≠ 0 then p.now else w.state.snd_time)
          w.sock.s_sndtimeo = true) := by
  rw [send_timeout_emit]
  obtain ⟨_, _, hsk, _⟩ := emit_entry_frame E cfg p w
  obtain ⟨_, _, _, htime⟩ := emit_entry_state E cfg p w
  simp only [send_timeout, hsk, htime, hso, and_true]
  split_ifs <;> simp_all

/-- C14: an invocation that does not finish through completion by
acknowledgment or through a lost connection finishes, with `CONFIG_NET_SOCKOPTS`,
exactly when the send timeout of the socket is non-zero and `net_timeo` holds
on the last-activity timestamp and that timeout; the result is then
`-ETIMEDOUT`.  With a zero send timeout (or without `CONFIG_NET_SOCKOPTS`) it
never finishes so, and an ACK flag sets the timestamp to the current tick
before the check. -/
theorem C14_timeout_decision (E : Ext) (cfg : Config) (p : Poll) (w : World)
    (hnoack : p.flags &&& E.TCP_ACKDATA ≠ 0 →
      u32 ((p.ackno : Int) - (w.state.snd_isn : Int)) < w.state.snd_buflen)
    (hnoloss : p.flags &&& E.TCP_ACKDATA = 0 → p.flags &&& E.TCP_REXMIT = 0 →
      p.flags &&& (E.TCP_CLOSE ||| E.TCP_ABORT ||| E.TCP_TIMEDOUT) = 0) :
    (cfg.NET_SOCKOPTS = true →
      ((tcpsend_interrupt E cfg p w).1.log.sem_posts = w.log.sem_posts + 1 ↔
        (w.sock.s_sndtimeo ≠ 0 ∧
          E.net_timeo p.now
            (if p.flags &&& E.TCP_ACKDATA ≠ 0 then p.now else w.state.snd_time)
            w.sock.s_sndtimeo = true)) ∧
      ((tcpsend_interrupt E cfg p w).1.log.sem_posts = w.log.sem_posts + 1 →
        (tcpsend_interrupt E cfg p w).1.state.snd_sent = -E.ETIMEDOUT ∧
        (tcpsend_interrupt E cfg p w).1.cb = { flags := 0, priv := false, event := false }) ∧
      (p.flags &&& E.TCP_ACKDATA ≠ 0 →
        (tcpsend_interrupt E cfg p w).1.state.snd_time = p.now)) ∧
    ((cfg.NET_SOCKOPTS = false ∨ w.sock.s_sndtimeo = 0) →
      (tcpsend_interrupt E cfg p w).1.log.sem_posts = w.log.sem_posts ∧
      (tcpsend_interrupt E cfg p w).1.cb = w.cb) := by
  have hev : tcpsend_interrupt E cfg p w =
      tcpsend_interrupt_tail E cfg p (emit_entry E cfg p w) := by
    rcases interrupt_three E cfg p w with ⟨ha, hd, _⟩ | ⟨ha, hr, hl, _⟩ | ⟨hev, _, _⟩
    · have := hnoack ha
      omega
    · exact absurd (hnoloss ha hr) hl
    · exact hev
  rw [hev]
  obtain ⟨_, hl, _, hcb, _, _⟩ := emit_entry_frame E cfg p w
  have hfe := emit_frame E cfg p (emit_entry E cfg p w)
  have hposts : (tcpsend_interrupt_emit E cfg p (emit_entry E cfg p w)).log.sem_posts =
      w.log.sem_posts := by rw [hfe.2.2.2.2.2.2.2.2.1, hl]
  have hcb2 : (tcpsend_interrupt_emit E cfg p (emit_entry E cfg p w)).cb = w.cb := by
    rw [hfe.2.1, hcb]
  constructor
  · intro hso
    have hto := send_timeout_entry E cfg p w hso
    have htime := (tail_state_frame E cfg p (emit_entry E cfg p w)).2.2.2
    have hentry := (emit_entry_state E cfg p w).2.2.2
    refine ⟨?_, ?_, ?_⟩
    · rw [← hto]
      simp only [tcpsend_interrupt_tail, hso, true_and]
      split_ifs with ht
      · simp [end_wait, hposts, ht]
      · simp [hposts, ht]
    · simp only [tcpsend_interrupt_tail, hso, true_and]
      split_ifs with ht
      · intro _
        simp [end_wait]
      · intro hp
        rw [hposts] at hp
        omega
    · intro ha
      rw [htime, hentry]
      simp [ha, hso]
  · intro hor
    have hno : ¬ (cfg.NET_SOCKOPTS = true ∧
        send_timeout E p.now (tcpsend_interrupt_emit E cfg p (emit_entry E cfg p w)) = true) := by
      rintro ⟨hso, ht⟩
      rcases hor with h | h
      · rw [hso] at h
        exact absurd h (by simp)
      · have := (send_timeout_entry E cfg p w hso).mp ht
        exact this.1 h
    simp only [tcpsend_interrupt_tail, hno, if_false]
    exact ⟨hposts, hcb2⟩

/-- Witness of C14 (scenario E): with a send timeout of ten ticks and the last
activity at tick 0, a poll at tick 20 on a fully handed-over send finishes
with `-ETIMEDOUT`. -/
theorem C14_timeout_decision_witness :
    ((tcpsend_interrupt nuttx cfgPlain (plainPoll 20)
        { worldArmedTimeo 1000 400 3000 with
          state := { snd_buflen := 1000, snd_sent := 1000, snd_isn := 5000, snd_acked := 0,
                     snd_time := 0, snd_odd := false } }).1.log.sem_posts = 0 + 1 ↔
      ((10 : Nat) ≠ 0 ∧ nuttx.net_timeo 20 0 10 = true)) ∧
    nuttx.net_timeo 20 0 10 = true :=
  ⟨((C14_timeout_decision nuttx cfgPlain (plainPoll 20)
      { worldArmedTimeo 1000 400 3000 with
        state := { snd_buflen := 1000, snd_sent := 1000, snd_isn := 5000, snd_acked := 0,
                   snd_time := 0, snd_odd := false } }
      (by decide) (by decide)).1 rfl).1, by decide⟩

/-! ## The pacing split -/

/-- C15 as stated fails: with split threshold 40, segment size 100, 150 bytes
to send, even parity and a window of 3000, the first segment the handler
hands to the device has length 100, not 76. -/
theorem C15_first_segment_counterexample :
    cfgSplit.NET_TCP_SPLIT_SIZE = 40 ∧ (worldArmed 150 100 3000).conn.mss = 100 ∧
    (worldArmed 150 100 3000).state.snd_buflen = 150 ∧
    (worldArmed 150 100 3000).state.snd_odd = false ∧
    (handler_run nuttx cfgSplit (worldArmed 150 100 3000) [plainPoll 1]).log.d_snd =
      [(0, 100)] := by
  refine ⟨?_, ?_, ?_, ?_, ?_⟩ <;> decide

/-- C15, amended: with split threshold 40, segment size 100, 150 bytes to
send, even parity and a window of 3000, the 150 bytes do not fit in one
segment, so nothing is split: the first segment has length 100, the parity
becomes odd, the second segment has length 50, and exactly two segments,
summing to 150, are handed over (a third poll hands over nothing).  The
lengths 76 and 74 are those of a segment size of 150, in which the 150 bytes
fit. -/
theorem C15_scenario_c :
    (handler_run nuttx cfgSplit (worldArmed 150 100 3000) [plainPoll 1]).log.d_snd =
      [(0, 100)] ∧
    (handler_run nuttx cfgSplit (worldArmed 150 100 3000) [plainPoll 1]).state.snd_odd = true ∧
    (handler_run nuttx cfgSplit (worldArmed 150 100 3000) [plainPoll 1, plainPoll 2]).log.d_snd =
      [(100, 50), (0, 100)] ∧
    (handler_run nuttx cfgSplit (worldArmed 150 100 3000)
      [plainPoll 1, plainPoll 2, plainPoll 3]).log.d_snd = [(100, 50), (0, 100)] ∧
    (handler_run nuttx cfgSplit (worldArmed 150 100 3000)
      [plainPoll 1, plainPoll 2]).state.snd_sent = 150 ∧
    (handler_run nuttx cfgSplit (worldArmed 150 150 3000) [plainPoll 1, plainPoll 2]).log.d_snd =
      [(76, 74), (0, 76)] := by
  refine ⟨?_, ?_, ?_, ?_, ?_, ?_⟩ <;> decide

/-- C16 as stated fails for a threshold below three: with a split threshold
of 2, segment size 100 and 2 bytes remaining on an even packet, the split
length 2/2 + 1 is the whole remainder: one segment of 2 bytes is handed over
and the next poll hands over nothing. -/
theorem C16_small_remainder_counterexample :
    cfgSplit2.NET_TCP_SPLIT_SIZE = 2 ∧ (worldArmed 2 100 3000).conn.mss = 100 ∧
    (worldArmed 2 100 3000).state.snd_odd = false ∧
    (handler_run nuttx cfgSplit2 (worldArmed 2 100 3000) [plainPoll 1]).log.d_snd = [(0, 2)] ∧
    (handler_run nuttx cfgSplit2 (worldArmed 2 100 3000) [plainPoll 1, plainPoll 2]).log.d_snd =
      [(0, 2)] := by
  refine ⟨?_, ?_, ?_, ?_, ?_⟩ <;> decide

/-- C16, amended: with splitting configured, on a buffer of fewer than 2^31
bytes with `r` bytes remaining and a 16-bit segment size, for plain polls
without timeout.  If the parity is even, `r` reaches the threshold, fits in
one segment and is at least 3, and the window and the address-resolution
gate permit, the handler hands over `r/2 + 1` bytes and the parity becomes
odd; the next poll, window permitting, hands over the rest `r - (r/2 + 1)`
unsplit; both segments are non-empty and sum to `r`.  If `r` is below the
threshold, `min(r, mss)` bytes are handed over. -/
theorem C16_pacing_split (E : Ext) (cfg : Config) (p1 p2 : Poll) (w : World) (r : Nat)
    (hsplit : cfg.NET_TCP_SPLIT = true) (hp1 : plain_poll E p1) (hp2 : plain_poll E p2)
    (h0 : 0 ≤ w.state.snd_sent) (hr : w.state.snd_sent + (r : Int) = w.state.snd_buflen)
    (hb : w.state.snd_buflen < 2147483648) (hm : w.conn.mss < 65536) (h1 : 1 ≤ r)
    (hto1 : cfg.NET_SOCKOPTS = true → send_timeout E p1.now w = false)
    (hto2 : cfg.NET_SOCKOPTS = true → send_timeout E p2.now w = false) :
    (w.state.snd_odd = false → cfg.NET_TCP_SPLIT_SIZE ≤ r → r ≤ w.conn.mss → 3 ≤ r →
      ((cfg.NET_ETHERNET = true ∧ ¬ cfg.NET_ARP_IPIN = true ∧ ¬ cfg.NET_ARP_SEND = true) →
        (w.state.snd_sent ≠ 0 ∨ p1.arp = true)) →
      u32 (w.state.snd_sent - (w.state.snd_acked : Int) + ((r / 2 + 1 : Nat) : Int))
        < w.conn.winsize →
      u32 (w.state.snd_sent + ((r / 2 + 1 : Nat) : Int) - (w.state.snd_acked : Int)
        + ((r - (r / 2 + 1) : Nat) : Int)) < w.conn.winsize →
      (tcpsend_interrupt E cfg p1 w).1.log.d_snd =
        (w.state.snd_sent, r / 2 + 1) :: w.log.d_snd ∧
      (tcpsend_interrupt E cfg p1 w).1.state.snd_odd = true ∧
      (tcpsend_interrupt E cfg p2 (tcpsend_interrupt E cfg p1 w).1).1.log.d_snd =
        (w.state.snd_sent + ((r / 2 + 1 : Nat) : Int), r - (r / 2 + 1)) ::
          (w.state.snd_sent, r / 2 + 1) :: w.log.d_snd ∧
      (tcpsend_interrupt E cfg p2 (tcpsend_interrupt E cfg p1 w).1).1.state.snd_sent =
        w.state.snd_buflen ∧
      1 ≤ r / 2 + 1 ∧ 1 ≤ r - (r / 2 + 1) ∧ (r / 2 + 1) + (r - (r / 2 + 1)) = r) ∧
    (r < cfg.NET_TCP_SPLIT_SIZE →
      ((cfg.NET_ETHERNET = true ∧ ¬ cfg.NET_ARP_IPIN = true ∧ ¬ cfg.NET_ARP_SEND = true) →
        (w.state.snd_sent ≠ 0 ∨ p1.arp = true)) →
      u32 (w.state.snd_sent - (w.state.snd_acked : Int) + ((min r w.conn.mss : Nat) : Int))
        < w.conn.winsize →
      (tcpsend_interrupt E cfg p1 w).1.log.d_snd =
        (w.state.snd_sent, min r w.conn.mss) :: w.log.d_snd) := by
  have hin : u32 w.state.snd_sent < w.state.snd_buflen := by
    have := u32_of_range w.state.snd_sent h0 (by omega)
    omega
  rw [interrupt_plain E cfg p1 w hp1 hto1]
  constructor
  · intro hodd hth hfit h3 hgate hwin1 hwin2
    have hn1 := sndlen_split_even cfg w r hsplit hodd h0 hr hb hm hth hfit h1
    obtain ⟨hd1, hs1, _⟩ := emit_advance E cfg p1 w hp1.2.2.2 hin
      (by rw [hn1]; exact hwin1) hgate
    rw [hn1] at hd1 hs1
    have hs1' : (tcpsend_interrupt_emit E cfg p1 w).state.snd_sent =
        w.state.snd_sent + ((r / 2 + 1 : Nat) : Int) := by
      rw [hs1, s32_of_range _ (by
        have := u32_of_range (w.state.snd_sent + ((r / 2 + 1 : Nat) : Int)) (by omega) (by omega)
        omega)]
      exact u32_of_range _ (by omega) (by omega)
    have hodd1 : (tcpsend_interrupt_emit E cfg p1 w).state.snd_odd = true := by
      rw [emit_odd]
      simp [hp1.2.2.2, hin, hsplit, hodd]
    obtain ⟨hbuf, _, hacked, htime, hwinsz, hmss⟩ := emit_state_frame E cfg p1 w
    have hsock := (emit_frame E cfg p1 w).1
    have hto2' : cfg.NET_SOCKOPTS = true →
        send_timeout E p2.now (tcpsend_interrupt_emit E cfg p1 w) = false := by
      intro hso
      rw [send_timeout_emit]
      exact hto2 hso
    rw [interrupt_plain E cfg p2 _ hp2 hto2']
    have hn2 := sndlen_odd_rest cfg (tcpsend_interrupt_emit E cfg p1 w) (r - (r / 2 + 1)) hodd1
      (by rw [hs1']; omega) (by rw [hs1', hbuf]; omega) (by rw [hbuf]; exact hb)
      (by rw [hmss]; exact hm) (by rw [hmss]; omega)
    have hin2 : u32 (tcpsend_interrupt_emit E cfg p1 w).state.snd_sent <
        (tcpsend_interrupt_emit E cfg p1 w).state.snd_buflen := by
      rw [hs1', hbuf]
      have := u32_of_range (w.state.snd_sent + ((r / 2 + 1 : Nat) : Int)) (by omega) (by omega)
      omega
    obtain ⟨hd2, hs2, _⟩ := emit_advance E cfg p2 (tcpsend_interrupt_emit E cfg p1 w)
      hp2.2.2.2 hin2
      (by
        rw [hn2, hwinsz]
        simp only [tcpsend_interrupt_window, hs1', hacked]
        exact hwin2)
      (by
        intro _
        left
        rw [hs1']
        omega)
    rw [hn2, hs1', hd1] at hd2
    rw [hn2, hs1'] at hs2
    refine ⟨hd1, hodd1, hd2, ?_, by omega, by omega, by omega⟩
    rw [hs2, s32_of_range _ (by
      have := u32_of_range (w.state.snd_sent + ((r / 2 + 1 : Nat) : Int) +
        ((r - (r / 2 + 1) : Nat) : Int)) (by omega) (by omega)
      omega)]
    rw [u32_of_range _ (by omega) (by omega)]
    omega
  · intro hlt hgate hwin
    have hn := sndlen_unsplit cfg w r h0 hr (by omega) (Or.inr hlt)
    obtain ⟨hd, _, _⟩ := emit_advance E cfg p1 w hp1.2.2.2 hin (by rw [hn]; exact hwin) hgate
    rw [hn] at hd
    exact hd

/-- Witness of C16: 90 bytes remaining at segment size 100 and threshold 40 are
handed over as 46 and 44 bytes. -/
theorem C16_pacing_split_witness :
    (tcpsend_interrupt nuttx cfgSplit (plainPoll 1) (worldArmed 90 100 3000)).1.log.d_snd =
      ((worldArmed 90 100 3000).state.snd_sent, 90 / 2 + 1) ::
        (worldArmed 90 100 3000).log.d_snd ∧
    (tcpsend_interrupt nuttx cfgSplit (plainPoll 2)
      (tcpsend_interrupt nuttx cfgSplit (plainPoll 1) (worldArmed 90 100 3000)).1).1.log.d_snd =
      ((worldArmed 90 100 3000).state.snd_sent + ((90 / 2 + 1 : Nat) : Int),
          90 - (90 / 2 + 1)) ::
        ((worldArmed 90 100 3000).state.snd_sent, 90 / 2 + 1) ::
          (worldArmed 90 100 3000).log.d_snd :=
  ⟨((C16_pacing_split nuttx cfgSplit (plainPoll 1) (plainPoll 2) (worldArmed 90 100 3000) 90
      rfl ⟨by decide, by decide, by decide, by decide⟩
      ⟨by decide, by decide, by decide, by decide⟩ (by decide) (by decide) (by decide)
      (by decide) (by decide) (by decide) (by decide)).1 rfl (by decide) (by decide) (by decide) (by decide)
      (by decide) (by decide)).1,
   ((C16_pacing_split nuttx cfgSplit (plainPoll 1) (plainPoll 2) (worldArmed 90 100 3000) 90
      rfl ⟨by decide, by decide, by decide, by decide⟩
      ⟨by decide, by decide, by decide, by decide⟩ (by decide) (by decide) (by decide)
      (by decide) (by decide) (by decide) (by decide)).1 rfl (by decide) (by decide) (by decide) (by decide)
      (by decide) (by decide)).2.2.1⟩

/-! ## The finish path -/

/-- C17: the finish postcondition and its converse.  An invocation that reaches
`end_wait` (completion by acknowledgment, lost connection or timeout) leaves
the registration with event mask 0 and NULL context and handler, the
unacknowledged count at 0 and the semaphore posted exactly once; an
invocation that does not leaves the registration, the unacknowledged count
and the semaphore unchanged.  In both cases the flags returned are the flags
given. -/
theorem C17_finish_postcondition (E : Ext) (cfg : Config) (p : Poll) (w : World) :
    (takes_end_wait E cfg p w →
      (tcpsend_interrupt E cfg p w).1.cb = { flags := 0, priv := false, event := false } ∧
      (tcpsend_interrupt E cfg p w).1.conn.unacked = 0 ∧
      (tcpsend_interrupt E cfg p w).1.log.sem_posts = w.log.sem_posts + 1 ∧
      (tcpsend_interrupt E cfg p w).1.sem = w.sem + 1) ∧
    (¬ takes_end_wait E cfg p w →
      (tcpsend_interrupt E cfg p w).1.cb = w.cb ∧
      (tcpsend_interrupt E cfg p w).1.conn.unacked = w.conn.unacked ∧
      (tcpsend_interrupt E cfg p w).1.log.sem_posts = w.log.sem_posts ∧
      (tcpsend_interrupt E cfg p w).1.sem = w.sem) ∧
    (tcpsend_interrupt E cfg p w).2 = p.flags := by
  refine ⟨?_, ?_, interrupt_flags E cfg p w⟩
  · intro ht
    rcases interrupt_three E cfg p w with ⟨_, _, hev⟩ | ⟨_, _, _, hev⟩ | ⟨hev, hna, hnl⟩
    · rw [hev]
      simp [end_wait, tcpsend_interrupt_ack]
    · rw [hev]
      simp [end_wait]
    · have hto : cfg.NET_SOCKOPTS = true ∧
          send_timeout E p.now (tcpsend_interrupt_emit E cfg p (emit_entry E cfg p w)) = true := by
        rcases ht with ⟨ha, hd⟩ | ⟨ha, hr, hl⟩ | ⟨hso, ht⟩
        · have := hna ha
          omega
        · exact absurd (hnl ha hr) hl
        · exact ⟨hso, by rw [send_timeout_emit]; exact ht⟩
      obtain ⟨_, hl, _, _, _, _⟩ := emit_entry_frame E cfg p w
      obtain ⟨_, _, hsem, _⟩ := emit_entry_sem E cfg p w
      rw [hev]
      simp [tcpsend_interrupt_tail, hto, end_wait, emit_frame, hl, hsem]
  · intro hnt
    rcases interrupt_three E cfg p w with ⟨ha, hd, _⟩ | ⟨ha, hr, hl, _⟩ | ⟨hev, _, _⟩
    · exact absurd (Or.inl ⟨ha, hd⟩) hnt
    · exact absurd (Or.inr (Or.inl ⟨ha, hr, hl⟩)) hnt
    · have hto : ¬ (cfg.NET_SOCKOPTS = true ∧
          send_timeout E p.now (tcpsend_interrupt_emit E cfg p (emit_entry E cfg p w)) = true) := by
        rintro ⟨hso, ht⟩
        rw [send_timeout_emit] at ht
        exact hnt (Or.inr (Or.inr ⟨hso, ht⟩))
      obtain ⟨hc, hl, _, hcb, _, _⟩ := emit_entry_frame E cfg p w
      obtain ⟨_, _, hsem, _⟩ := emit_entry_sem E cfg p w
      rw [hev]
      simp [tcpsend_interrupt_tail, hto, emit_frame, hl, hsem, hcb, hc]

/-! ## Segment placement, segment bounds, incoming data -/

/-- The record of segments handed to the device only grows. -/
theorem run_d_snd_length (E : Ext) (cfg : Config) :
    ∀ (ps : List Poll) (w : World),
      w.log.d_snd.length ≤ (handler_run E cfg w ps).log.d_snd.length := by
  intro ps
  induction ps with
  | nil =>
    intro w
    exact le_refl _
  | cons p ps ih =>
    intro w
    have hstep : w.log.d_snd.length ≤ (tcpsend_interrupt E cfg p w).1.log.d_snd.length := by
      rcases interrupt_emission E cfg p w with ⟨h, _⟩ | ⟨h, _⟩
      · rw [h]
      · rw [h]
        simp
    exact le_trans hstep (ih _)

/-- As long as nothing has been handed to the device, acknowledgments stay
within the bytes sent and no invocation finishes with an error, the control
block still has `snd_sent = 0` and `snd_acked = 0`. -/
theorem no_emission_run (E : Ext) (cfg : Config) (hpt : 0 < E.ETIMEDOUT)
    (hpn : 0 < E.ENOTCONN) :
    ∀ (ps : List Poll) (w : World), w.state.snd_sent = 0 → w.state.snd_acked = 0 →
      acks_within_sent E cfg w ps →
      (handler_run E cfg w ps).log.d_snd = w.log.d_snd →
      (handler_run E cfg w ps).state.snd_sent = 0 ∧
      (handler_run E cfg w ps).state.snd_acked = 0 ∧
      (handler_run E cfg w ps).state.snd_isn = w.state.snd_isn := by
  intro ps
  induction ps with
  | nil =>
    intro w hs ha _ _
    exact ⟨hs, ha, rfl⟩
  | cons p ps ih =>
    intro w hs ha hh hd
    obtain ⟨hack, hne, hrest⟩ := hh
    have hlen := run_d_snd_length E cfg ps (tcpsend_interrupt E cfg p w).1
    have hrun : handler_run E cfg w (p :: ps) =
        handler_run E cfg (tcpsend_interrupt E cfg p w).1 ps := rfl
    rw [hrun] at hd ⊢
    rw [hd] at hlen
    obtain ⟨hes, hea, _, _⟩ := emit_entry_state E cfg p w
    have hs0 : (emit_entry E cfg p w).state.snd_sent = 0 := by
      rw [hes, hs, ha]
      split_ifs
      · simp [s32]
      · rfl
    have hstep : (tcpsend_interrupt E cfg p w).1.log.d_snd = w.log.d_snd ∧
        (tcpsend_interrupt E cfg p w).1.state.snd_sent = 0 := by
      rcases interrupt_emission E cfg p w with ⟨h, _, hsent⟩ | ⟨h, _⟩
      · refine ⟨h, ?_⟩
        rcases hsent with h1 | h1 | h1
        · rw [h1, hs0]
        · rw [h1] at hne
          omega
        · rw [h1] at hne
          omega
      · rw [h] at hlen
        simp at hlen
    have hacked : (tcpsend_interrupt E cfg p w).1.state.snd_acked = 0 := by
      rcases interrupt_three E cfg p w with ⟨hA, _, hev⟩ | ⟨hA, _, _, hev⟩ | ⟨hev, _, _⟩
      · have := hack hA
        rw [hs] at this
        rw [hev]
        simp only [end_wait, tcpsend_interrupt_ack]
        omega
      · rw [hev]
        simpa [end_wait] using ha
      · rw [hev, (tail_state_frame E cfg p (emit_entry E cfg p w)).2.2.1, hea]
        split_ifs with hA
        · have := hack hA
          rw [hs] at this
          omega
        · exact ha
    have := ih (tcpsend_interrupt E cfg p w).1 hstep.2 hacked hrest (by rw [hd, hstep.1])
    rw [(interrupt_state_frame E cfg p w).2] at this
    exact this

/-- C18: an invocation that hands a segment to the device sets the sequence
cursor to `(snd_sent + snd_isn) mod 2^32` and hands over the buffer from
offset `snd_sent`, where `snd_sent` is the value the emission step finds, after
a retransmission rewind of the same invocation.  So on a retransmission
request (without ACK) the segment starts at `snd_acked`, with sequence number
`(snd_isn + snd_acked) mod 2^32`.  And in a send armed by `psock_tcp_send`, as
long as nothing has been handed over (acknowledgments within the bytes sent,
no error finish), the invocation that hands over the first segment hands it
over from offset 0 with the sequence number the connection had at the call. -/
theorem C18_segment_placement (E : Ext) (cfg : Config) (p : Poll) (w : World)
    (w0 : World) (len now : Nat) (ps : List Poll) (q : Poll) :
    ((tcpsend_interrupt E cfg p w).1.log.d_snd = w.log.d_snd ∨
      ((tcpsend_interrupt E cfg p w).1.log.d_snd =
          ((emit_entry E cfg p w).state.snd_sent,
            tcpsend_interrupt_sndlen cfg (emit_entry E cfg p w)) :: w.log.d_snd ∧
        ((tcpsend_interrupt E cfg p w).1.conn.sndseq : Int) =
          ((emit_entry E cfg p w).state.snd_sent + (w.state.snd_isn : Int)) % 4294967296)) ∧
    (p.flags &&& E.TCP_ACKDATA = 0 → p.flags &&& E.TCP_REXMIT ≠ 0 →
      (tcpsend_interrupt E cfg p w).1.log.d_snd ≠ w.log.d_snd →
      (tcpsend_interrupt E cfg p w).1.log.d_snd =
          (s32 w.state.snd_acked,
            tcpsend_interrupt_sndlen cfg (emit_entry E cfg p w)) :: w.log.d_snd ∧
      ((tcpsend_interrupt E cfg p w).1.conn.sndseq : Int) =
        ((w.state.snd_isn : Int) + (w.state.snd_acked : Int)) % 4294967296 ∧
      ((u32 (s32 w.state.snd_acked) : Nat) : Int) = (w.state.snd_acked : Int) % 4294967296 ∧
      (w.state.snd_acked < 2147483648 → s32 w.state.snd_acked = (w.state.snd_acked : Int))) ∧
    (0 < E.ETIMEDOUT → 0 < E.ENOTCONN →
      acks_within_sent E cfg (send_armed E cfg w0 len now) ps →
      (handler_run E cfg (send_armed E cfg w0 len now) ps).log.d_snd =
        (send_armed E cfg w0 len now).log.d_snd →
      (tcpsend_interrupt E cfg q
          (handler_run E cfg (send_armed E cfg w0 len now) ps)).1.log.d_snd ≠
        (handler_run E cfg (send_armed E cfg w0 len now) ps).log.d_snd →
      (tcpsend_interrupt E cfg q
          (handler_run E cfg (send_armed E cfg w0 len now) ps)).1.log.d_snd =
        (0, tcpsend_interrupt_sndlen cfg
          (emit_entry E cfg q (handler_run E cfg (send_armed E cfg w0 len now) ps))) ::
          w0.log.d_snd ∧
      ((tcpsend_interrupt E cfg q
          (handler_run E cfg (send_armed E cfg w0 len now) ps)).1.conn.sndseq : Int) =
        (w0.conn.sndseq : Int) % 4294967296) := by
  refine ⟨?_, ?_, ?_⟩
  · rcases interrupt_emission E cfg p w with ⟨h, _⟩ | ⟨h, hq, _⟩
    · exact Or.inl h
    · exact Or.inr ⟨h, by rw [hq, u32_cast]⟩
  · intro hack hrex hne
    have hs : (emit_entry E cfg p w).state.snd_sent = s32 w.state.snd_acked := by
      rw [(emit_entry_state E cfg p w).1]
      simp [hack, hrex]
    rcases interrupt_emission E cfg p w with ⟨h, _⟩ | ⟨h, hq, _⟩
    · exact absurd h hne
    · rw [hs] at h hq
      refine ⟨h, ?_, ?_, fun hlt => s32_of_range _ hlt⟩
      · rw [hq, u32_cast]
        simp only [s32]
        split_ifs <;> omega
      · rw [u32_cast]
        simp only [s32]
        split_ifs <;> omega
  · intro hpt hpn hh hd hne
    obtain ⟨hs, ha, hisn⟩ := no_emission_run E cfg hpt hpn ps (send_armed E cfg w0 len now)
      rfl rfl hh hd
    have hs0 : (emit_entry E cfg q
        (handler_run E cfg (send_armed E cfg w0 len now) ps)).state.snd_sent = 0 := by
      rw [(emit_entry_state E cfg q _).1, hs, ha]
      split_ifs
      · simp [s32]
      · rfl
    rcases interrupt_emission E cfg q (handler_run E cfg (send_armed E cfg w0 len now) ps) with
      ⟨h, _⟩ | ⟨h, hq, _⟩
    · exact absurd h hne
    · rw [hs0, hd] at h
      rw [hs0, hisn] at hq
      refine ⟨h, ?_⟩
      rw [hq, u32_cast]
      simp [send_armed]

/-- C18 at a concrete input: a retransmission request on a send with 1000 bytes
handed over and 400 acknowledged re-sends from offset 400 with sequence
number 5400. -/
theorem C18_segment_placement_witness :
    (tcpsend_interrupt nuttx cfgPlain (rexmitPoll 5) (worldMid 400 3000 1000 400)).1.log.d_snd =
      (s32 (worldMid 400 3000 1000 400).state.snd_acked,
        tcpsend_interrupt_sndlen cfgPlain
          (emit_entry nuttx cfgPlain (rexmitPoll 5) (worldMid 400 3000 1000 400))) ::
        (worldMid 400 3000 1000 400).log.d_snd ∧
    (tcpsend_interrupt nuttx cfgPlain (rexmitPoll 5) (worldMid 400 3000 1000 400)).1.conn.sndseq
      = 5400 ∧
    (tcpsend_interrupt nuttx cfgPlain (rexmitPoll 5) (worldMid 400 3000 1000 400)).1.log.d_snd
      = [(400, 400)] :=
  ⟨((C18_segment_placement nuttx cfgPlain (rexmitPoll 5) (worldMid 400 3000 1000 400)
      (world0 400 3000) 1000 0 [] (plainPoll 1)).2.1 (by decide) (by decide) (by decide)).1,
   by decide, by decide⟩

/-- C19: on a control block with `0 ≤ snd_sent ≤ snd_buflen < 2^31` and a
positive 16-bit segment size, with or without splitting and for either
parity.  While bytes remain, the segment length `n` satisfies
`1 ≤ n ≤ min(mss, snd_buflen - snd_sent)`, and without splitting it is
exactly `min(snd_buflen - snd_sent, mss)`.  And in a send that is not yet
complete (`snd_acked < snd_buflen`, which the handler keeps while it does not
finish), every invocation either finishes with an error result or keeps
`0 ≤ snd_sent ≤ snd_buflen`, and a segment it hands over lies inside the
buffer. -/
theorem C19_segment_bounds (E : Ext) (cfg : Config) (p : Poll) (w : World)
    (h0 : 0 ≤ w.state.snd_sent) (h1 : w.state.snd_sent ≤ w.state.snd_buflen)
    (hb : w.state.snd_buflen < 2147483648) (hm1 : 1 ≤ w.conn.mss) (hm : w.conn.mss < 65536) :
    (w.state.snd_sent < w.state.snd_buflen →
      1 ≤ tcpsend_interrupt_sndlen cfg w ∧
      tcpsend_interrupt_sndlen cfg w ≤ w.conn.mss ∧
      (tcpsend_interrupt_sndlen cfg w : Int) ≤ (w.state.snd_buflen : Int) - w.state.snd_sent ∧
      (cfg.NET_TCP_SPLIT = false →
        (tcpsend_interrupt_sndlen cfg w : Int) =
          min ((w.state.snd_buflen : Int) - w.state.snd_sent) (w.conn.mss : Int))) ∧
    (w.state.snd_acked < w.state.snd_buflen →
      ((tcpsend_interrupt E cfg p w).1.state.snd_sent = -E.ETIMEDOUT ∨
        (tcpsend_interrupt E cfg p w).1.state.snd_sent = -E.ENOTCONN ∨
        (0 ≤ (tcpsend_interrupt E cfg p w).1.state.snd_sent ∧
          (tcpsend_interrupt E cfg p w).1.state.snd_sent ≤ w.state.snd_buflen)) ∧
      ((tcpsend_interrupt E cfg p w).1.log.d_snd = w.log.d_snd ∨
        ∃ (o : Int) (n : Nat),
          (tcpsend_interrupt E cfg p w).1.log.d_snd = (o, n) :: w.log.d_snd ∧
          0 ≤ o ∧ 1 ≤ n ∧ n ≤ w.conn.mss ∧ o + (n : Int) ≤ w.state.snd_buflen) ∧
      ((tcpsend_interrupt E cfg p w).1.log.sem_posts = w.log.sem_posts →
        (tcpsend_interrupt E cfg p w).1.state.snd_acked < w.state.snd_buflen)) := by
  constructor
  · intro hlt
    refine ⟨sndlen_pos cfg w h0 hlt hb hm1 hm, sndlen_le_mss cfg w,
      sndlen_le_remaining cfg w h0 hlt (by omega), ?_⟩
    intro hns
    have hn := sndlen_unsplit cfg w ((w.state.snd_buflen : Int) - w.state.snd_sent).toNat h0
      (by omega) (by omega) (Or.inl hns)
    rw [hn]
    omega
  · intro hacked
    obtain ⟨hconn, hlog, _, _, hbuf, _⟩ := emit_entry_frame E cfg p w
    rcases interrupt_three E cfg p w with ⟨_, _, hev⟩ | ⟨_, _, _, hev⟩ | ⟨hev, hna, _⟩
    · rw [hev]
      refine ⟨Or.inr (Or.inr ?_), Or.inl ?_, ?_⟩
      · simpa [end_wait, tcpsend_interrupt_ack] using ⟨h0, h1⟩
      · simp [end_wait, tcpsend_interrupt_ack]
      · intro hp
        simp [end_wait, tcpsend_interrupt_ack] at hp
    · rw [hev]
      refine ⟨Or.inr (Or.inl ?_), Or.inl ?_, ?_⟩
      · simp [end_wait]
      · simp [end_wait]
      · intro hp
        simp [end_wait] at hp
    · rw [hev]
      obtain ⟨hs, ha, _, _⟩ := emit_entry_state E cfg p w
      have hs32 := s32_of_range w.state.snd_acked (by omega)
      have hs0 : 0 ≤ (emit_entry E cfg p w).state.snd_sent ∧
          (emit_entry E cfg p w).state.snd_sent ≤ w.state.snd_buflen := by
        rw [hs]
        split_ifs <;> omega
      have ha0 : (emit_entry E cfg p w).state.snd_acked < w.state.snd_buflen := by
        rw [ha]
        split_ifs with hA
        · exact hna hA
        · exact hacked
      have hem := emit_sent_bounds E cfg p (emit_entry E cfg p w) hs0.1
        (by rw [hbuf]; exact hs0.2) (by rw [hbuf]; exact hb)
      rw [hbuf, hlog] at hem
      obtain ⟨hd, _, _, hsent⟩ := tail_cases E cfg p (emit_entry E cfg p w)
      rw [hd, (tail_state_frame E cfg p (emit_entry E cfg p w)).2.2.1]
      refine ⟨?_, ?_, fun _ => ha0⟩
      · rcases hsent with ⟨h, _⟩ | ⟨h, _⟩
        · exact Or.inr (Or.inr (by rw [h]; exact ⟨by omega, hem.2.1⟩))
        · exact Or.inl h
      · rcases hem.2.2 with h | ⟨h, hle, hlt⟩
        · exact Or.inl h
        · refine Or.inr ⟨_, _, h, hs0.1, ?_, ?_, hle⟩
          · exact sndlen_pos cfg (emit_entry E cfg p w) hs0.1 (by rw [hbuf]; exact hlt)
              (by rw [hbuf]; exact hb) (by rw [hconn]; exact hm1) (by rw [hconn]; exact hm)
          · have := sndlen_le_mss cfg (emit_entry E cfg p w)
            rw [hconn] at this
            exact this

/-- Witness of C19: on a send with 800 of 1000 bytes handed over and segment
size 400 the next segment has 200 bytes. -/
theorem C19_segment_bounds_witness :
    1 ≤ tcpsend_interrupt_sndlen cfgPlain (worldMid 400 3000 800 400) ∧
    tcpsend_interrupt_sndlen cfgPlain (worldMid 400 3000 800 400) ≤
      (worldMid 400 3000 800 400).conn.mss ∧
    (tcpsend_interrupt_sndlen cfgPlain (worldMid 400 3000 800 400) : Int) ≤
      ((worldMid 400 3000 800 400).state.snd_buflen : Int) -
        (worldMid 400 3000 800 400).state.snd_sent ∧
    tcpsend_interrupt_sndlen cfgPlain (worldMid 400 3000 800 400) = 200 :=
  ⟨((C19_segment_bounds nuttx cfgPlain (plainPoll 1) (worldMid 400 3000 800 400)
      (by decide) (by decide) (by decide) (by decide) (by decide)).1 (by decide)).1,
   ((C19_segment_bounds nuttx cfgPlain (plainPoll 1) (worldMid 400 3000 800 400)
      (by decide) (by decide) (by decide) (by decide) (by decide)).1 (by decide)).2.1,
   ((C19_segment_bounds nuttx cfgPlain (plainPoll 1) (worldMid 400 3000 800 400)
      (by decide) (by decide) (by decide) (by decide) (by decide)).1 (by decide)).2.2.1,
   by decide⟩

/-- C20: an invocation whose flags include the new-data event hands no segment
to the device and does not write the sequence cursor; the even/odd indicator
is not toggled (it is the one the event checks left: unchanged, or even after
a retransmission rewind) and `snd_sent` is not advanced: it is unchanged, or
rewound to `snd_acked` by a retransmission request, or an error result. -/
theorem C20_newdata_skips_emission (E : Ext) (cfg : Config) (p : Poll) (w : World)
    (hnew : p.flags &&& E.TCP_NEWDATA ≠ 0) :
    (tcpsend_interrupt E cfg p w).1.log.d_snd = w.log.d_snd ∧
    (tcpsend_interrupt E cfg p w).1.conn.sndseq = w.conn.sndseq ∧
    ((tcpsend_interrupt E cfg p w).1.state.snd_odd = w.state.snd_odd ∨
      (p.flags &&& E.TCP_ACKDATA = 0 ∧ p.flags &&& E.TCP_REXMIT ≠ 0 ∧
        (tcpsend_interrupt E cfg p w).1.state.snd_odd = false)) ∧
    ((tcpsend_interrupt E cfg p w).1.state.snd_sent = w.state.snd_sent ∨
      (p.flags &&& E.TCP_ACKDATA = 0 ∧ p.flags &&& E.TCP_REXMIT ≠ 0 ∧
        (tcpsend_interrupt E cfg p w).1.state.snd_sent = s32 w.state.snd_acked) ∨
      (tcpsend_interrupt E cfg p w).1.state.snd_sent = -E.ETIMEDOUT ∨
      (tcpsend_interrupt E cfg p w).1.state.snd_sent = -E.ENOTCONN) := by
  rcases interrupt_three E cfg p w with ⟨_, _, hev⟩ | ⟨_, _, _, hev⟩ | ⟨hev, _, _⟩
  · rw [hev]
    simp [end_wait, tcpsend_interrupt_ack]
  · rw [hev]
    simp [end_wait]
  · rw [hev]
    obtain ⟨hconn, hlog, _, _, _, _⟩ := emit_entry_frame E cfg p w
    obtain ⟨hs, _, ho, _⟩ := emit_entry_state E cfg p w
    obtain ⟨hd, hq, hodd, hsent⟩ := tail_cases E cfg p (emit_entry E cfg p w)
    rw [hd, hq, hodd, emit_skip E cfg p _ hnew, hlog, hconn]
    rw [emit_skip E cfg p _ hnew] at hsent
    refine ⟨rfl, rfl, ?_, ?_⟩
    · rw [ho]
      split_ifs with h
      · exact Or.inr ⟨h.1.1, h.1.2, rfl⟩
      · exact Or.inl rfl
    · rcases hsent with ⟨h, _⟩ | ⟨h, _⟩
      · rw [h, hs]
        split_ifs with h2
        · exact Or.inr (Or.inl ⟨h2.1, h2.2, rfl⟩)
        · exact Or.inl rfl
      · exact Or.inr (Or.inr (Or.inl h))

/-- Witness of C20: a retransmission request that arrives with incoming data on
a send with 1000 bytes handed over: nothing is handed to the device and the
sequence cursor stays. -/
theorem C20_newdata_skips_emission_witness :
    (tcpsend_interrupt nuttx cfgSplit (rexmitNewdataPoll 5)
      (worldMid 400 3000 1000 400)).1.log.d_snd = (worldMid 400 3000 1000 400).log.d_snd ∧
    (tcpsend_interrupt nuttx cfgSplit (rexmitNewdataPoll 5)
      (worldMid 400 3000 1000 400)).1.conn.sndseq = (worldMid 400 3000 1000 400).conn.sndseq :=
  ⟨(C20_newdata_skips_emission nuttx cfgSplit (rexmitNewdataPoll 5)
      (worldMid 400 3000 1000 400) (by decide)).1,
   (C20_newdata_skips_emission nuttx cfgSplit (rexmitNewdataPoll 5)
      (worldMid 400 3000 1000 400) (by decide)).2.1⟩

/-! ## The address-resolution gate, spurious polls, stale acknowledgments -/

/-- C21: with the address-resolution gate compiled in (`CONFIG_NET_ETHERNET`
without `CONFIG_NET_ARP_IPIN` and `CONFIG_NET_ARP_SEND`), for every invocation
that hands a segment to the device, on a control block whose bytes sent lie
inside a buffer of fewer than 2^31 bytes, with a positive 16-bit segment
size.  The segment starts at the bytes sent `o` that the emission step
finds, has the length `n ≥ 1` and the sequence cursor is written; at the end of
the emission step `snd_sent` is `o + n` if and only if `o` was non-zero or the
resolution cache holds the peer's address; with `o = 0` and no mapping
`snd_sent` is still 0 although the segment was handed over, and the even/odd
indicator has been toggled.  The invocation returns that `snd_sent` unless the
timeout check which follows ends the send with `-ETIMEDOUT`. -/
theorem C21_address_resolution_gate (E : Ext) (cfg : Config) (p : Poll) (w : World)
    (hgate : cfg.NET_ETHERNET = true ∧ cfg.NET_ARP_IPIN = false ∧ cfg.NET_ARP_SEND = false)
    (hne : (tcpsend_interrupt E cfg p w).1.log.d_snd ≠ w.log.d_snd)
    (h0 : 0 ≤ (emit_entry E cfg p w).state.snd_sent)
    (h1 : (emit_entry E cfg p w).state.snd_sent ≤ w.state.snd_buflen)
    (hb : w.state.snd_buflen < 2147483648) (hm1 : 1 ≤ w.conn.mss) (hm : w.conn.mss < 65536) :
    ((tcpsend_interrupt E cfg p w).1.log.d_snd =
        ((emit_entry E cfg p w).state.snd_sent,
          tcpsend_interrupt_sndlen cfg (emit_entry E cfg p w)) :: w.log.d_snd ∧
      (tcpsend_interrupt E cfg p w).1.conn.sndseq =
        u32 ((emit_entry E cfg p w).state.snd_sent + (w.state.snd_isn : Int)) ∧
      1 ≤ tcpsend_interrupt_sndlen cfg (emit_entry E cfg p w)) ∧
    ((tcpsend_interrupt_emit E cfg p (emit_entry E cfg p w)).state.snd_sent =
        (emit_entry E cfg p w).state.snd_sent +
          (tcpsend_interrupt_sndlen cfg (emit_entry E cfg p w) : Int) ↔
      ((emit_entry E cfg p w).state.snd_sent ≠ 0 ∨ p.arp = true)) ∧
    ((emit_entry E cfg p w).state.snd_sent = 0 → p.arp = false →
      (tcpsend_interrupt_emit E cfg p (emit_entry E cfg p w)).state.snd_sent = 0 ∧
      (cfg.NET_TCP_SPLIT = true →
        (tcpsend_interrupt E cfg p w).1.state.snd_odd =
          !(emit_entry E cfg p w).state.snd_odd)) ∧
    (((tcpsend_interrupt E cfg p w).1.state.snd_sent =
          (tcpsend_interrupt_emit E cfg p (emit_entry E cfg p w)).state.snd_sent ∧
        (tcpsend_interrupt E cfg p w).1.log.sem_posts = w.log.sem_posts) ∨
      ((tcpsend_interrupt E cfg p w).1.state.snd_sent = -E.ETIMEDOUT ∧
        (tcpsend_interrupt E cfg p w).1.log.sem_posts = w.log.sem_posts + 1)) := by
  obtain ⟨hconn, hlog, _, _, hbuf, hisn⟩ := emit_entry_frame E cfg p w
  have hev : tcpsend_interrupt E cfg p w =
      tcpsend_interrupt_tail E cfg p (emit_entry E cfg p w) := by
    rcases interrupt_three E cfg p w with ⟨_, _, hev⟩ | ⟨_, _, _, hev⟩ | ⟨hev, _, _⟩
    · rw [hev] at hne
      exact absurd (by simp [end_wait, tcpsend_interrupt_ack]) hne
    · rw [hev] at hne
      exact absurd (by simp [end_wait]) hne
    · exact hev
  rw [hev] at hne ⊢
  obtain ⟨hd, hq, hodd, hsent⟩ := tail_cases E cfg p (emit_entry E cfg p w)
  rw [hd] at hne
  rcases emit_cases E cfg p (emit_entry E cfg p w) with
    ⟨⟨hnew, hin⟩, hwin, hdl, hsq, _⟩ | ⟨hdl, _⟩
  · have hu := u32_of_range _ h0 (by omega)
    have hlt : (emit_entry E cfg p w).state.snd_sent < (emit_entry E cfg p w).state.snd_buflen := by
      omega
    have hn1 := sndlen_pos cfg (emit_entry E cfg p w) h0 hlt (by rw [hbuf]; exact hb)
      (by rw [hconn]; exact hm1) (by rw [hconn]; exact hm)
    have hnr := sndlen_le_remaining cfg (emit_entry E cfg p w) h0 hlt (by rw [hbuf]; omega)
    have hadd : s32 (u32 ((emit_entry E cfg p w).state.snd_sent +
          (tcpsend_interrupt_sndlen cfg (emit_entry E cfg p w) : Int))) =
        (emit_entry E cfg p w).state.snd_sent +
          (tcpsend_interrupt_sndlen cfg (emit_entry E cfg p w) : Int) := by
      have h2 := u32_of_range ((emit_entry E cfg p w).state.snd_sent +
        (tcpsend_interrupt_sndlen cfg (emit_entry E cfg p w) : Int)) (by omega)
        (by rw [hbuf] at hnr; omega)
      rw [s32_of_range _ (by rw [hbuf] at hnr; omega), h2]
    have hgs := emit_gate_sent E cfg p (emit_entry E cfg p w) hnew hin hwin
    have hcfg : cfg.NET_ETHERNET = true ∧ ¬ cfg.NET_ARP_IPIN = true ∧
        ¬ cfg.NET_ARP_SEND = true := by
      obtain ⟨g1, g2, g3⟩ := hgate
      simp [g1, g2, g3]
    simp only [show ((cfg.NET_ETHERNET = true ∧ ¬ cfg.NET_ARP_IPIN = true ∧
          ¬ cfg.NET_ARP_SEND = true) →
          ((emit_entry E cfg p w).state.snd_sent ≠ 0 ∨ p.arp = true)) ↔
        ((emit_entry E cfg p w).state.snd_sent ≠ 0 ∨ p.arp = true) from
      ⟨fun h => h hcfg, fun h _ => h⟩] at hgs
    rw [hlog] at hdl
    rw [hisn] at hsq
    refine ⟨⟨by rw [hd]; exact hdl, by rw [hq]; exact hsq, hn1⟩, ?_, ?_, ?_⟩
    · rw [hgs]
      split_ifs with hg
      · rw [hadd]
        exact ⟨fun _ => hg, fun _ => rfl⟩
      · constructor
        · intro h
          omega
        · intro h
          exact absurd h hg
    · intro hz harp
      refine ⟨?_, ?_⟩
      · rw [hgs]
        have hng : ¬ ((emit_entry E cfg p w).state.snd_sent ≠ 0 ∨ p.arp = true) := by
          simp [hz, harp]
        simp only [hng, if_false]
        exact hz
      · intro hsplit
        rw [hodd, emit_odd]
        simp [hnew, hin, hsplit]
    · rcases hsent with ⟨h1, h2⟩ | ⟨h1, h2⟩
      · exact Or.inl ⟨h1, by rw [h2, hlog]⟩
      · exact Or.inr ⟨h1, by rw [h2, hlog]⟩
  · rw [hdl, hlog] at hne
    exact absurd rfl hne

/-- Witness of C21: with the gate compiled in, the first poll of a 1000-byte
send while the cache has no mapping hands 400 bytes from offset 0 to the
device, writes the sequence cursor 5000, leaves `snd_sent` at 0 and sets the
indicator to odd. -/
theorem C21_address_resolution_gate_witness :
    (tcpsend_interrupt nuttx cfgSplit (noArpPoll 1) (worldArmed 1000 400 3000)).1.log.d_snd =
      [(0, 400)] ∧
    (tcpsend_interrupt nuttx cfgSplit (noArpPoll 1) (worldArmed 1000 400 3000)).1.conn.sndseq =
      5000 ∧
    (tcpsend_interrupt nuttx cfgSplit (noArpPoll 1) (worldArmed 1000 400 3000)).1.state.snd_sent =
      0 ∧
    (tcpsend_interrupt_emit nuttx cfgSplit (noArpPoll 1)
      (emit_entry nuttx cfgSplit (noArpPoll 1) (worldArmed 1000 400 3000))).state.snd_sent = 0 ∧
    (tcpsend_interrupt nuttx cfgSplit (noArpPoll 1) (worldArmed 1000 400 3000)).1.state.snd_odd =
      !(emit_entry nuttx cfgSplit (noArpPoll 1) (worldArmed 1000 400 3000)).state.snd_odd :=
  ⟨by decide, by decide, by decide,
   ((C21_address_resolution_gate nuttx cfgSplit (noArpPoll 1) (worldArmed 1000 400 3000)
      ⟨rfl, rfl, rfl⟩ (by decide) (by decide) (by decide) (by decide) (by decide)
      (by decide)).2.2.1
      (by decide) rfl).1,
   ((C21_address_resolution_gate nuttx cfgSplit (noArpPoll 1) (worldArmed 1000 400 3000)
      ⟨rfl, rfl, rfl⟩ (by decide) (by decide) (by decide) (by decide) (by decide)
      (by decide)).2.2.1
      (by decide) rfl).2 rfl⟩

/-- C22: an invocation whose flags contain none of ACK, retransmission, closed,
aborted and timed-out, for which the send timeout has not elapsed, on a
control block with no data left to emit (`snd_sent ≥ snd_buflen`, `snd_sent`
an `ssize_t`), returns the world as it was (control block, registration,
connection, semaphore, call record) together with the flags it was given;
hence invoking it twice is the same as invoking it once. -/
theorem C22_spurious_poll_noop (E : Ext) (cfg : Config) (p : Poll) (w : World)
    (hack : p.flags &&& E.TCP_ACKDATA = 0) (hrex : p.flags &&& E.TCP_REXMIT = 0)
    (hclose : p.flags &&& E.TCP_CLOSE = 0) (habort : p.flags &&& E.TCP_ABORT = 0)
    (htimed : p.flags &&& E.TCP_TIMEDOUT = 0)
    (hto : cfg.NET_SOCKOPTS = true → send_timeout E p.now w = false)
    (hdone : (w.state.snd_buflen : Int) ≤ w.state.snd_sent)
    (hrange : w.state.snd_sent < 2147483648) :
    tcpsend_interrupt E cfg p w = (w, p.flags) ∧
    tcpsend_interrupt E cfg p (tcpsend_interrupt E cfg p w).1 = tcpsend_interrupt E cfg p w := by
  have hloss : p.flags &&& (E.TCP_CLOSE ||| E.TCP_ABORT ||| E.TCP_TIMEDOUT) = 0 := by
    rw [Nat.and_or_distrib_left, Nat.and_or_distrib_left, hclose, habort, htimed]
    rfl
  have hskip : ¬ (p.flags &&& E.TCP_NEWDATA = 0 ∧ u32 w.state.snd_sent < w.state.snd_buflen) := by
    rintro ⟨_, hlt⟩
    have := u32_of_range w.state.snd_sent (by omega) (by omega)
    omega
  have hemit : tcpsend_interrupt_emit E cfg p w = w := by
    simp only [tcpsend_interrupt_emit, hskip, if_false]
  have hno : ¬ (cfg.NET_SOCKOPTS = true ∧ send_timeout E p.now w = true) := by
    rintro ⟨hso, ht⟩
    rw [hto hso] at ht
    exact absurd ht (by simp)
  have hone : tcpsend_interrupt E cfg p w = (w, p.flags) := by
    simp [tcpsend_interrupt, hack, hrex, hloss, tcpsend_interrupt_tail, hemit, hno]
  exact ⟨hone, by rw [hone]; exact hone⟩

/-- Witness of C22: a plain poll on a send whose 1000 bytes are all handed over
and which has no send timeout changes nothing. -/
theorem C22_spurious_poll_noop_witness :
    tcpsend_interrupt nuttx cfgPlain (plainPoll 9) (worldMid 400 3000 1000 400) =
      (worldMid 400 3000 1000 400, (plainPoll 9).flags) ∧
    tcpsend_interrupt nuttx cfgPlain (plainPoll 9)
        (tcpsend_interrupt nuttx cfgPlain (plainPoll 9) (worldMid 400 3000 1000 400)).1 =
      tcpsend_interrupt nuttx cfgPlain (plainPoll 9) (worldMid 400 3000 1000 400) :=
  C22_spurious_poll_noop nuttx cfgPlain (plainPoll 9) (worldMid 400 3000 1000 400)
    (by decide) (by decide) (by decide) (by decide) (by decide) (by decide) (by decide)
    (by decide)

/-- C23: the completion test compares the wrapped difference as an unsigned
number.  For every control block, an invocation with the ACK flag whose
acknowledgment number `a` satisfies `(a - snd_isn) mod 2^32 ≥ snd_buflen`
stores that value in `snd_acked` and goes through `end_wait` with `snd_sent`
untouched, whatever it is, handing nothing to the device and reporting no
loss: the send ends as a success whose result is `snd_sent`. -/
theorem C23_stale_ack_completes (E : Ext) (cfg : Config) (p : Poll) (w : World)
    (hack : p.flags &&& E.TCP_ACKDATA ≠ 0)
    (hge : (w.state.snd_buflen : Int) ≤ ((p.ackno : Int) - (w.state.snd_isn : Int)) % 4294967296) :
    ((tcpsend_interrupt E cfg p w).1.state.snd_acked : Int) =
      ((p.ackno : Int) - (w.state.snd_isn : Int)) % 4294967296 ∧
    (tcpsend_interrupt E cfg p w).1.state.snd_sent = w.state.snd_sent ∧
    (tcpsend_interrupt E cfg p w).1.log.sem_posts = w.log.sem_posts + 1 ∧
    (tcpsend_interrupt E cfg p w).1.cb = { flags := 0, priv := false, event := false } ∧
    (tcpsend_interrupt E cfg p w).1.conn.unacked = 0 ∧
    (tcpsend_interrupt E cfg p w).1.log.d_snd = w.log.d_snd ∧
    (tcpsend_interrupt E cfg p w).1.log.lost = w.log.lost ∧
    (tcpsend_interrupt E cfg p w).2 = p.flags := by
  have hu := u32_cast ((p.ackno : Int) - (w.state.snd_isn : Int))
  have hdone : w.state.snd_buflen ≤ u32 ((p.ackno : Int) - (w.state.snd_isn : Int)) := by
    omega
  have hev : tcpsend_interrupt E cfg p w = (end_wait (tcpsend_interrupt_ack cfg p w), p.flags) := by
    simp [tcpsend_interrupt, hack, tcpsend_interrupt_ack, hdone]
  rw [hev]
  refine ⟨?_, ?_, ?_, ?_, ?_, ?_, ?_, rfl⟩
  · simpa [end_wait, tcpsend_interrupt_ack] using hu
  all_goals simp [end_wait, tcpsend_interrupt_ack]

/-- Witness of C23: on a 1000-byte send just armed with initial sequence
number 5000, the stale acknowledgment number 4999 gives
`snd_acked = 2^32 - 1` and finishes the send with `snd_sent = 0`;
`psock_tcp_send` then returns 0 with nothing handed to the device. -/
theorem C23_stale_ack_completes_witness :
    ((tcpsend_interrupt nuttx cfgPlain (ackPoll 4999 1)
      (worldArmed 1000 400 3000)).1.state.snd_acked : Int) =
      (((ackPoll 4999 1).ackno : Int) - ((worldArmed 1000 400 3000).state.snd_isn : Int))
        % 4294967296 ∧
    (tcpsend_interrupt nuttx cfgPlain (ackPoll 4999 1)
      (worldArmed 1000 400 3000)).1.state.snd_acked = 4294967295 ∧
    (tcpsend_interrupt nuttx cfgPlain (ackPoll 4999 1)
      (worldArmed 1000 400 3000)).1.state.snd_sent = 0 ∧
    (tcpsend_interrupt nuttx cfgPlain (ackPoll 4999 1)
      (worldArmed 1000 400 3000)).1.log.sem_posts = 1 ∧
    (psock_tcp_send nuttx cfgPlain (world0 400 3000) 1000 (run0 [ackEv 4999 1])).map
        (fun x => (x.1, x.2.errno, x.2.log.d_snd)) = some (0, 0, []) :=
  ⟨(C23_stale_ack_completes nuttx cfgPlain (ackPoll 4999 1) (worldArmed 1000 400 3000)
      (by decide) (by decide)).1,
   by decide, by decide, by decide, by decide⟩

end TcpSendUnbuffered

